import Mathlib

/-!
GXP power manager (`google-modules/gxp/zuma/gxp-pm.c`), HDCP authentication state
(`auth-state.c`) and firmware image configuration parser (`gcip-image-config.c`).

A shallow embedding of the vote ledger, the arbiter, the coalescing dispatcher, the block
power-up, power-down and reboot paths, the clock-mux force-normal guard and the busy counter
of `gxp-pm.c` (namespace `GxpPm`), of the HDCP authentication state machine (namespace
`Hdcp`) and of the IOMMU mapping set-up of the image configuration parser (namespace
`GcipImageConfig`), followed by the properties established about them.

Conventions of the embedding:

* C enumerations are natural numbers (an `enum` argument can carry any value, which is
  why the code range-checks it), `int` results are integers, `uint` counters are natural
  numbers reduced modulo `2 ^ 32` where the code increments them.
* The locks (`pm_lock`, `set_acpm_state_work_lock`, ...) are not represented: every
  function below is one critical section, executed atomically.
* Calls that leave the power manager (register writes, SoC backend calls, `queue_work`)
  are appended to `gxp_dev.trace`; values returned by the backend are read from a
  `backend` record supplied by the caller of the embedded function.
* Log output (`dev_err`, `dev_warn`, `dev_dbg`, `dev_info`) is not represented.
-/

namespace GxpPm

/-! ## Constants -/

/-- The errno value behind `-EINVAL`. -/
def EINVAL : Int := 22

/-- The errno value behind `-EBUSY`. -/
def EBUSY : Int := 16

/-- One past the largest value of a C `uint` (32 bits). -/
def UINT_MOD : Nat := 4294967296

/-- One past the largest value of a C `u64`. -/
def U64_MOD : Nat := 18446744073709551616

/-- Modelled from the spec: `enum aur_power_state` is declared in `gxp-pm.h`, which is not
among the sources. The spec names `Off` as the lowest state; the ordinals are the positions
at which `aur_power_state2rate`, a table indexed by state, lists each state's rate. -/
def AUR_OFF : Nat := 0

/-- Modelled from the spec: see `AUR_OFF`. -/
def AUR_UUD : Nat := 1

/-- Modelled from the spec: see `AUR_OFF`. -/
def AUR_SUD : Nat := 2

/-- Modelled from the spec: see `AUR_OFF`. -/
def AUR_UD : Nat := 3

/-- Modelled from the spec: see `AUR_OFF`. -/
def AUR_NOM : Nat := 4

/-- Modelled from the spec: see `AUR_OFF`. -/
def AUR_READY : Nat := 5

/-- Modelled from the spec: see `AUR_OFF`. -/
def AUR_UUD_PLUS : Nat := 6

/-- Modelled from the spec: see `AUR_OFF`. -/
def AUR_SUD_PLUS : Nat := 7

/-- Modelled from the spec: see `AUR_OFF`. -/
def AUR_UD_PLUS : Nat := 8

/-- Modelled from the spec: `AUR_MAX_ALLOW_STATE` comes from `gxp-pm.h` (absent); it is the
last value of the enumeration, so that `AUR_NUM_POWER_STATE` below is the length of
`aur_state_array`. -/
def AUR_MAX_ALLOW_STATE : Nat := AUR_UD_PLUS

/-- Modelled from the spec: `AUR_NUM_POWER_STATE` comes from `gxp-pm.h` (absent); the number
of entries of the counter tables and of `aur_state_array`. -/
def AUR_NUM_POWER_STATE : Nat := AUR_MAX_ALLOW_STATE + 1

/-- Modelled from the spec: `AUR_INIT_DVFS_STATE` comes from `gxp-pm.h` (absent); "an initial
default performance state", the lowest operating point. -/
def AUR_INIT_DVFS_STATE : Nat := AUR_UUD

/-- Modelled from the spec: `enum aur_memory_power_state` is declared in `gxp-pm.h` (absent):
"`Undefined`, then ascending tiers", in the order of `aur_memory_state_array`. -/
def AUR_MEM_UNDEFINED : Nat := 0

/-- Modelled from the spec: see `AUR_MEM_UNDEFINED`. -/
def AUR_MEM_MIN : Nat := 1

/-- Modelled from the spec: see `AUR_MEM_UNDEFINED`. -/
def AUR_MEM_VERY_LOW : Nat := 2

/-- Modelled from the spec: see `AUR_MEM_UNDEFINED`. -/
def AUR_MEM_LOW : Nat := 3

/-- Modelled from the spec: see `AUR_MEM_UNDEFINED`. -/
def AUR_MEM_HIGH : Nat := 4

/-- Modelled from the spec: see `AUR_MEM_UNDEFINED`. -/
def AUR_MEM_VERY_HIGH : Nat := 5

/-- Modelled from the spec: see `AUR_MEM_UNDEFINED`. -/
def AUR_MEM_MAX : Nat := 6

/-- Modelled from the spec: `AUR_MAX_ALLOW_MEMORY_STATE` comes from `gxp-pm.h` (absent); the
last value of the memory enumeration. -/
def AUR_MAX_ALLOW_MEMORY_STATE : Nat := AUR_MEM_MAX

/-- Modelled from the spec: `AUR_NUM_MEMORY_POWER_STATE` comes from `gxp-pm.h` (absent); the
number of entries of the memory counter table and of `aur_memory_state_array`. -/
def AUR_NUM_MEMORY_POWER_STATE : Nat := AUR_MAX_ALLOW_MEMORY_STATE + 1

/-- The rate macros `AUR_*_RATE` (their values live in an absent header), kept symbolic. -/
inductive aur_rate where
  | AUR_OFF_RATE
  | AUR_UUD_RATE
  | AUR_SUD_RATE
  | AUR_UD_RATE
  | AUR_NOM_RATE
  | AUR_READY_RATE
  | AUR_UUD_PLUS_RATE
  | AUR_SUD_PLUS_RATE
  | AUR_UD_PLUS_RATE
  deriving DecidableEq, Repr

/-- The table `aur_power_state2rate[]`, indexed by power state. -/
def aur_power_state2rate : List aur_rate :=
  [.AUR_OFF_RATE, .AUR_UUD_RATE, .AUR_SUD_RATE, .AUR_UD_RATE, .AUR_NOM_RATE,
   .AUR_READY_RATE, .AUR_UUD_PLUS_RATE, .AUR_SUD_PLUS_RATE, .AUR_UD_PLUS_RATE]

/-- The table `aur_state_array[]`: its order decides the voting priority. -/
def aur_state_array : List Nat :=
  [AUR_OFF, AUR_READY, AUR_UUD, AUR_UUD_PLUS, AUR_SUD,
   AUR_SUD_PLUS, AUR_UD, AUR_UD_PLUS, AUR_NOM]

/-- The table `aur_memory_state_array[]`. -/
def aur_memory_state_array : List Nat :=
  [AUR_MEM_UNDEFINED, AUR_MEM_MIN, AUR_MEM_VERY_LOW, AUR_MEM_LOW,
   AUR_MEM_HIGH, AUR_MEM_VERY_HIGH, AUR_MEM_MAX]

/-- The two values written to a clock-mux register (`AUR_CMU_MUX_NORMAL`, `AUR_CMU_MUX_LOW`;
their numeric values live in an absent header). -/
inductive cmu_mux where
  | AUR_CMU_MUX_NORMAL
  | AUR_CMU_MUX_LOW
  deriving DecidableEq, Repr

/-! ## Data model -/

/-- The C `struct gxp_power_states`: one caller's vote. -/
structure gxp_power_states where
  power : Nat
  memory : Nat
  low_clkmux : Bool
  deriving DecidableEq, Repr

/-- The constant `off_states`. -/
def off_states : gxp_power_states := ⟨AUR_OFF, AUR_MEM_UNDEFINED, false⟩

/-- The constant `uud_states`. -/
def uud_states : gxp_power_states := ⟨AUR_UUD, AUR_MEM_UNDEFINED, false⟩

/-- The C `struct gxp_set_acpm_state_work`: one dispatch slot of the power-state pool. The C
field `using` is spelled `using_` here. -/
structure gxp_set_acpm_state_work where
  state : Nat
  prev_state : Nat
  low_clkmux : Bool
  prev_low_clkmux : Bool
  using_ : Bool
  deriving DecidableEq, Repr

/-- The C `struct gxp_req_pm_qos_work`: one dispatch slot of the memory-state pool.
`gxp_soc_set_pm_arg_from_state` (in the absent `mobile-soc.c`) fills the slot's request from a
memory state; the slot keeps that state in `pm_arg_state`. -/
structure gxp_req_pm_qos_work where
  pm_arg_state : Nat
  using_ : Bool
  deriving DecidableEq, Repr

/-- The C `struct gxp_power_manager`, restricted to the fields `gxp-pm.c` reads or writes
in the functions embedded here. The slot arrays have `AUR_NUM_POWER_STATE_WORKER` entries in
C (a macro of the absent `gxp-pm.h`); here that number is the length of the lists.
`force_mux_normal_count` is a signed `int` (the source only increments, decrements and
compares it with 0; overflow of a signed count is undefined in C and not represented),
`busy_count` and `blk_switch_count` are `u64`, and `aur_status` tells whether the pointer to
the PMU status register is non-NULL. -/
structure gxp_power_manager where
  pwr_state_req_count : List Nat
  low_clkmux_pwr_state_req_count : List Nat
  mem_pwr_state_req_count : List Nat
  curr_state : Nat
  curr_memory_state : Nat
  curr_low_clkmux : Bool
  last_scheduled_low_clkmux : Bool
  set_acpm_state_work : List gxp_set_acpm_state_work
  last_set_acpm_state_worker : Nat
  req_pm_qos_work : List gxp_req_pm_qos_work
  last_req_pm_qos_worker : Nat
  force_mux_normal_count : Int
  blk_switch_count : Nat
  busy_count : Nat
  thermal_limit : Nat
  aur_status : Bool
  deriving DecidableEq, Repr

/-- A call that leaves the power manager: a register write, a backend call or `queue_work`. -/
inductive hw_op where
  /-- The call `gxp_soc_pm_set_rate(AUR_DVFS_DOMAIN, rate)`. -/
  | pm_set_rate (rate : aur_rate)
  /-- The write `writel(val << 4, cmu.vaddr + PLL_CON0_PLL_AUR)`. -/
  | writel_pll_aur (val : cmu_mux)
  /-- The write `writel(val << 4, cmu.vaddr + PLL_CON0_NOC_USER)`. -/
  | writel_noc_user (val : cmu_mux)
  /-- The call `queue_work(wq, &set_acpm_state_work[i].work)`. -/
  | queue_set_acpm_state_work (i : Nat)
  /-- The call `queue_work(wq, &req_pm_qos_work[i].work)`. -/
  | queue_req_pm_qos_work (i : Nat)
  /-- The call `gxp_soc_pm_set_request(gxp, pm_value)` for the slot's memory state. -/
  | pm_set_request (pm_arg_state : Nat)
  | pm_runtime_resume_and_get
  | after_blk_power_up
  | pm_runtime_put_sync
  | before_blk_power_down
  | gxp_soc_pm_reset
  | gxp_iommu_setup_shareability
  | gxp_soc_lpm_init
  | gxp_soc_lpm_destroy
  /-- The call `usleep_range(SHUTDOWN_DELAY_US_MIN, SHUTDOWN_DELAY_US_MAX)`. -/
  | usleep_range (min_us max_us : Nat)
  /-- The read `readl(power_mgr->aur_status)`. -/
  | readl_aur_status
  deriving DecidableEq, Repr

/-- The part of `struct gxp_dev` that `gxp-pm.c` uses: the power manager, whether
`cmu.vaddr` is a valid mapping (`!IS_ERR_OR_NULL(gxp->cmu.vaddr)`), and the calls made so
far, oldest first. -/
structure gxp_dev where
  power_mgr : gxp_power_manager
  cmu_vaddr_ok : Bool
  trace : List hw_op
  deriving DecidableEq, Repr

/-- What the collaborators outside `gxp-pm.c` return during one call of an embedded function.
`after_blk_power_up` and `before_blk_power_down` are `none` when the chip installs no such
callback; `readl_aur_status k` is the value of the PMU status register at the read that
follows `k` earlier reads of the same call. -/
structure backend where
  gxp_soc_pm_set_rate : aur_rate → Int
  pm_runtime_resume_and_get : Int
  after_blk_power_up : Option Int
  before_blk_power_down : Option Int
  pm_runtime_put_sync : Int
  readl_aur_status : Nat → Nat

/-- Appends one call to the trace. -/
def gxp_dev.emit (gxp : gxp_dev) (op : hw_op) : gxp_dev :=
  { gxp with trace := gxp.trace ++ [op] }

/-- Replaces the power manager of a device. -/
def gxp_dev.set_mgr (gxp : gxp_dev) (mgr : gxp_power_manager) : gxp_dev :=
  { gxp with power_mgr := mgr }

/-- The write `arr[i] = f(arr[i])` on an array held as a list. -/
def array_update {α : Type} (arr : List α) (i : Nat) (f : α → α) : List α :=
  match arr.get? i with
  | some a => arr.set i (f a)
  | none => arr

/-! ## Vote ledger -/

/-- The search `for (i = 0; i < n; i++) if (arr[i] == x) ...` shared by the vote and revoke
functions, started at index `i` with `n - i` iterations left: the first index at which the
table holds `x`, or `none` when the loop runs to its end. -/
def find_state_index (arr : List Nat) (x : Nat) : Nat → Nat → Option Nat
  | 0, _ => none
  | k + 1, i => if arr.getD i 0 = x then some i else find_state_index arr x k (i + 1)

/-- The body of the revoke loops at the matching index: a zero counter is reported and kept,
any other counter is decremented. -/
def revoke_count (counts : List Nat) (i : Nat) : List Nat :=
  if counts.getD i 0 = 0 then counts else counts.set i (counts.getD i 0 - 1)

/-- The body of the vote loops at the matching index: `count[i]++` on a `uint`. -/
def vote_count (counts : List Nat) (i : Nat) : List Nat :=
  counts.set i ((counts.getD i 0 + 1) % UINT_MOD)

/-- The table that `origin_requested_low_clkmux` / `requested_low_clkmux` selects. -/
def gxp_power_manager.req_count (mgr : gxp_power_manager) (low_clkmux : Bool) : List Nat :=
  if !low_clkmux then mgr.pwr_state_req_count else mgr.low_clkmux_pwr_state_req_count

/-- Stores a table back through the pointer chosen by the clock-mux flag. -/
def gxp_power_manager.set_req_count (mgr : gxp_power_manager) (low_clkmux : Bool)
    (counts : List Nat) : gxp_power_manager :=
  if !low_clkmux then { mgr with pwr_state_req_count := counts }
  else { mgr with low_clkmux_pwr_state_req_count := counts }

/-- The C function `gxp_pm_revoke_power_state_vote`. -/
def gxp_pm_revoke_power_state_vote (gxp : gxp_dev) (revoked_state : Nat)
    (origin_requested_low_clkmux : Bool) : gxp_dev :=
  if revoked_state = AUR_OFF then gxp
  else
    match find_state_index aur_state_array revoked_state AUR_NUM_POWER_STATE 0 with
    | some i =>
      gxp.set_mgr (gxp.power_mgr.set_req_count origin_requested_low_clkmux
        (revoke_count (gxp.power_mgr.req_count origin_requested_low_clkmux) i))
    | none => gxp

/-- The C function `gxp_pm_vote_power_state`. -/
def gxp_pm_vote_power_state (gxp : gxp_dev) (state : Nat) (requested_low_clkmux : Bool) :
    gxp_dev :=
  if state = AUR_OFF then gxp
  else
    match find_state_index aur_state_array state AUR_NUM_POWER_STATE 0 with
    | some i =>
      gxp.set_mgr (gxp.power_mgr.set_req_count requested_low_clkmux
        (vote_count (gxp.power_mgr.req_count requested_low_clkmux) i))
    | none => gxp

/-- The C function `gxp_pm_revoke_memory_power_state_vote`. -/
def gxp_pm_revoke_memory_power_state_vote (gxp : gxp_dev) (revoked_state : Nat) : gxp_dev :=
  if revoked_state = AUR_MEM_UNDEFINED then gxp
  else
    match find_state_index aur_memory_state_array revoked_state AUR_NUM_MEMORY_POWER_STATE 0 with
    | some i =>
      gxp.set_mgr { gxp.power_mgr with
        mem_pwr_state_req_count := revoke_count gxp.power_mgr.mem_pwr_state_req_count i }
    | none => gxp

/-- The C function `gxp_pm_vote_memory_power_state`. -/
def gxp_pm_vote_memory_power_state (gxp : gxp_dev) (state : Nat) : gxp_dev :=
  if state = AUR_MEM_UNDEFINED then gxp
  else
    match find_state_index aur_memory_state_array state AUR_NUM_MEMORY_POWER_STATE 0 with
    | some i =>
      gxp.set_mgr { gxp.power_mgr with
        mem_pwr_state_req_count := vote_count gxp.power_mgr.mem_pwr_state_req_count i }
    | none => gxp

/-! ## Arbiter -/

/-- The scan `for (i = n - 1; i >= 0; i--) if (count[i] > 0) { ...; break; }` with `n`
indices left to visit: the index at which the loop breaks, or `none` when it runs out. -/
def max_voted_index (counts : List Nat) : Nat → Option Nat
  | 0 => none
  | i + 1 => if counts.getD i 0 > 0 then some i else max_voted_index counts i

/-- The C function `gxp_pm_get_max_voted_power_state`; the pair is what it leaves in
`*state` and `*low_clkmux_vote` (the caller passes `low_clkmux_vote` initialised to false, and
every path through the function assigns it). -/
def gxp_pm_get_max_voted_power_state (gxp : gxp_dev) : Nat × Bool :=
  let state :=
    match max_voted_index gxp.power_mgr.pwr_state_req_count AUR_NUM_POWER_STATE with
    | some i => aur_state_array.getD i AUR_OFF
    | none => AUR_OFF
  if state = AUR_OFF then
    match max_voted_index gxp.power_mgr.low_clkmux_pwr_state_req_count AUR_NUM_POWER_STATE with
    | some i => (aur_state_array.getD i AUR_OFF, true)
    | none => (AUR_OFF, true)
  else (state, false)

/-- The C function `gxp_pm_get_max_voted_memory_power_state`. -/
def gxp_pm_get_max_voted_memory_power_state (gxp : gxp_dev) : Nat :=
  match max_voted_index gxp.power_mgr.mem_pwr_state_req_count AUR_NUM_MEMORY_POWER_STATE with
  | some i => aur_memory_state_array.getD i AUR_MEM_UNDEFINED
  | none => AUR_MEM_UNDEFINED

/-! ## Hardware glue -/

/-- The C function `gxp_pm_blk_set_rate_acpm`: one performance-state write; the result is
what `gxp_soc_pm_set_rate` returned. -/
def gxp_pm_blk_set_rate_acpm (soc : backend) (gxp : gxp_dev) (rate : aur_rate) :
    Int × gxp_dev :=
  (soc.gxp_soc_pm_set_rate rate, gxp.emit (.pm_set_rate rate))

/-- The C function `gxp_pm_blk_set_state_acpm`: the rate is `aur_power_state2rate[state]`
(the thermal-limit comparison only produces a warning). -/
def gxp_pm_blk_set_state_acpm (soc : backend) (gxp : gxp_dev) (state : Nat) : Int × gxp_dev :=
  gxp_pm_blk_set_rate_acpm soc gxp (aur_power_state2rate.getD state .AUR_OFF_RATE)

/-- The C function `set_cmu_noc_user_mux_state`. -/
def set_cmu_noc_user_mux_state (gxp : gxp_dev) (val : cmu_mux) : gxp_dev :=
  if gxp.cmu_vaddr_ok then gxp.emit (.writel_noc_user val) else gxp

/-- The C function `set_cmu_pll_aur_mux_state`. -/
def set_cmu_pll_aur_mux_state (gxp : gxp_dev) (val : cmu_mux) : gxp_dev :=
  if gxp.cmu_vaddr_ok then gxp.emit (.writel_pll_aur val) else gxp

/-- The C function `gxp_pm_can_busy`. -/
def gxp_pm_can_busy (mgr : gxp_power_manager) : gxp_power_manager :=
  { mgr with busy_count := 0 }

/-! ## Coalescing dispatcher -/

/-- The scan `for (i = 0; i < AUR_NUM_POWER_STATE_WORKER; i++) if (!work[i].using) break;`
over the flags of the slots that are left, started at index `i`: the value of `i` after the
loop, which is the number of slots when none is free. -/
def find_available_worker : List Bool → Nat → Nat
  | [], i => i
  | u :: rest, i => if !u then i else find_available_worker rest (i + 1)

/-- The C function `gxp_pm_req_state_locked`. -/
def gxp_pm_req_state_locked (gxp : gxp_dev) (state : Nat) (low_clkmux_vote : Bool) :
    Int × gxp_dev :=
  let mgr := gxp.power_mgr
  if state > AUR_MAX_ALLOW_STATE then (-EINVAL, gxp)
  else if mgr.curr_state = AUR_OFF then (-EBUSY, gxp)
  else if state = AUR_OFF then (0, gxp)
  else if state ≠ mgr.curr_state ∨ low_clkmux_vote ≠ mgr.last_scheduled_low_clkmux then
    let found := find_available_worker (mgr.set_acpm_state_work.map (·.using_)) 0
    let full := found = mgr.set_acpm_state_work.length
    let i := if full then mgr.last_set_acpm_state_worker else found
    let work1 :=
      if full then mgr.set_acpm_state_work
      else array_update mgr.set_acpm_state_work i fun w =>
        { w with prev_state := mgr.curr_state,
                 prev_low_clkmux := mgr.last_scheduled_low_clkmux }
    let work2 := array_update work1 i fun w =>
      { w with state := state, low_clkmux := low_clkmux_vote }
    let queue := (work2.get? i).any fun w => !w.using_
    let work3 := if queue then array_update work2 i fun w => { w with using_ := true } else work2
    let gxp1 := if queue then gxp.emit (.queue_set_acpm_state_work i) else gxp
    (0, gxp1.set_mgr { mgr with
      set_acpm_state_work := work3,
      curr_state := state,
      last_scheduled_low_clkmux := low_clkmux_vote,
      last_set_acpm_state_worker := i })
  else (0, gxp)

/-- The C function `gxp_pm_blk_set_state_acpm_async`, run for the slot of index `i` (the
slot that `container_of(work, ...)` recovers). The result of the performance-state write is
discarded, as in the source. -/
def gxp_pm_blk_set_state_acpm_async (soc : backend) (gxp : gxp_dev) (i : Nat) : gxp_dev :=
  match gxp.power_mgr.set_acpm_state_work.get? i with
  | none => gxp
  | some work =>
    let gxp3 :=
      if gxp.power_mgr.curr_state = AUR_OFF then gxp
      else
        let scheduled_low_clkmux := work.low_clkmux
        let prev_low_clkmux := work.prev_low_clkmux
        let is_core_booting := gxp.power_mgr.force_mux_normal_count ≠ 0
        let gxp1 :=
          if scheduled_low_clkmux ≠ prev_low_clkmux ∧ ¬ is_core_booting then
            if prev_low_clkmux then
              set_cmu_noc_user_mux_state
                (set_cmu_pll_aur_mux_state gxp .AUR_CMU_MUX_NORMAL) .AUR_CMU_MUX_NORMAL
            else if scheduled_low_clkmux then
              set_cmu_noc_user_mux_state
                (set_cmu_pll_aur_mux_state gxp .AUR_CMU_MUX_LOW) .AUR_CMU_MUX_LOW
            else gxp
          else gxp
        let gxp2 := gxp1.set_mgr { gxp1.power_mgr with curr_low_clkmux := scheduled_low_clkmux }
        (gxp_pm_blk_set_state_acpm soc gxp2 work.state).2
    gxp3.set_mgr { gxp3.power_mgr with
      set_acpm_state_work :=
        array_update gxp3.power_mgr.set_acpm_state_work i fun w => { w with using_ := false } }

/-- The C function `gxp_pm_req_memory_state_locked`. -/
def gxp_pm_req_memory_state_locked (gxp : gxp_dev) (state : Nat) : Int × gxp_dev :=
  let mgr := gxp.power_mgr
  if state > AUR_MAX_ALLOW_MEMORY_STATE then (-EINVAL, gxp)
  else if mgr.curr_state = AUR_OFF then (-EBUSY, gxp)
  else if state ≠ mgr.curr_memory_state then
    let found := find_available_worker (mgr.req_pm_qos_work.map (·.using_)) 0
    let i := if found = mgr.req_pm_qos_work.length then mgr.last_req_pm_qos_worker else found
    let work1 := array_update mgr.req_pm_qos_work i fun w => { w with pm_arg_state := state }
    let queue := (work1.get? i).any fun w => !w.using_
    let work2 := if queue then array_update work1 i fun w => { w with using_ := true } else work1
    let gxp1 := if queue then gxp.emit (.queue_req_pm_qos_work i) else gxp
    (0, gxp1.set_mgr { mgr with
      req_pm_qos_work := work2,
      curr_memory_state := state,
      last_req_pm_qos_worker := i })
  else (0, gxp)

/-! ## Vote exchange -/

/-- The C function `gxp_pm_update_requested_power_state`. -/
def gxp_pm_update_requested_power_state (gxp : gxp_dev) (origin_state : Nat)
    (origin_requested_low_clkmux : Bool) (requested_state : Nat)
    (requested_low_clkmux : Bool) : Int × gxp_dev :=
  let gxp1 := gxp_pm_revoke_power_state_vote gxp origin_state origin_requested_low_clkmux
  let gxp2 := gxp_pm_vote_power_state gxp1 requested_state requested_low_clkmux
  let max := gxp_pm_get_max_voted_power_state gxp2
  gxp_pm_req_state_locked gxp2 max.1 max.2

/-- The C function `gxp_pm_update_requested_memory_power_state`. -/
def gxp_pm_update_requested_memory_power_state (gxp : gxp_dev) (origin_state : Nat)
    (requested_state : Nat) : Int × gxp_dev :=
  let gxp1 := gxp_pm_revoke_memory_power_state_vote gxp origin_state
  let gxp2 := gxp_pm_vote_memory_power_state gxp1 requested_state
  gxp_pm_req_memory_state_locked gxp2 (gxp_pm_get_max_voted_memory_power_state gxp2)

/-- The C function `gxp_pm_update_requested_power_states`. -/
def gxp_pm_update_requested_power_states (gxp : gxp_dev) (origin_vote : gxp_power_states)
    (requested_states : gxp_power_states) : Int × gxp_dev :=
  let r1 : Int × gxp_dev :=
    if origin_vote.power ≠ requested_states.power ∨
        origin_vote.low_clkmux ≠ requested_states.low_clkmux then
      gxp_pm_update_requested_power_state gxp origin_vote.power origin_vote.low_clkmux
        requested_states.power requested_states.low_clkmux
    else (0, gxp)
  if r1.1 ≠ 0 then r1
  else if origin_vote.memory ≠ requested_states.memory then
    gxp_pm_update_requested_memory_power_state r1.2 origin_vote.memory requested_states.memory
  else r1

/-! ## Block power-up -/

/-- The C function `gxp_pm_blkpwr_up`. -/
def gxp_pm_blkpwr_up (soc : backend) (gxp : gxp_dev) : Int × gxp_dev :=
  let gxp1 := gxp.emit .pm_runtime_resume_and_get
  if soc.pm_runtime_resume_and_get ≠ 0 then (soc.pm_runtime_resume_and_get, gxp1)
  else
    match soc.after_blk_power_up with
    | some ret =>
      let gxp2 := gxp1.emit .after_blk_power_up
      if ret ≠ 0 then (ret, gxp2.emit .pm_runtime_put_sync) else (0, gxp2)
    | none => (0, gxp1)

/-- The C function `gxp_pm_blk_on`. The result of `gxp_pm_blk_set_state_acpm` is discarded,
as in the source; `blk_switch_count` is a `u64`. -/
def gxp_pm_blk_on (soc : backend) (gxp : gxp_dev) : Int × gxp_dev :=
  let up := gxp_pm_blkpwr_up soc gxp
  if up.1 ≠ 0 then up
  else
    let gxp1 := (gxp_pm_blk_set_state_acpm soc up.2 AUR_INIT_DVFS_STATE).2
    let gxp2 := gxp1.set_mgr { gxp1.power_mgr with curr_state := AUR_INIT_DVFS_STATE }
    let gxp3 := (gxp2.emit .gxp_iommu_setup_shareability).emit .gxp_soc_lpm_init
    let gxp4 := gxp3.set_mgr { gxp3.power_mgr with
      blk_switch_count := (gxp3.power_mgr.blk_switch_count + 1) % U64_MOD }
    (up.1, gxp4.set_mgr (gxp_pm_can_busy gxp4.power_mgr))

/-! ## Initial state -/

/-- The value `BUSY_COUNT_OFF`, which is `~0ull`. -/
def BUSY_COUNT_OFF : Nat := U64_MOD - 1

/-- The power manager that `gxp_pm_init` leaves behind: `devm_kzalloc` zeroes every field,
then the function assigns the fields it names. `workers` stands for
`AUR_NUM_POWER_STATE_WORKER`, `aur_status` for whether `gxp_pm_parse_pmu_base` found the PMU
status register. -/
def gxp_pm_init (workers : Nat) (aur_status : Bool) : gxp_power_manager :=
  { pwr_state_req_count := List.replicate AUR_NUM_POWER_STATE 0
    low_clkmux_pwr_state_req_count := List.replicate AUR_NUM_POWER_STATE 0
    mem_pwr_state_req_count := List.replicate AUR_NUM_MEMORY_POWER_STATE 0
    curr_state := AUR_OFF
    curr_memory_state := AUR_MEM_UNDEFINED
    curr_low_clkmux := false
    last_scheduled_low_clkmux := false
    set_acpm_state_work := List.replicate workers ⟨0, 0, false, false, false⟩
    last_set_acpm_state_worker := 0
    req_pm_qos_work := List.replicate workers ⟨0, false⟩
    last_req_pm_qos_worker := 0
    force_mux_normal_count := 0
    blk_switch_count := 0
    busy_count := BUSY_COUNT_OFF
    thermal_limit := 0
    aur_status := aur_status }

/-- A device just after `gxp_pm_init`, with the CMU registers and the PMU status register
mapped and nothing called yet. -/
def gxp_dev_init (workers : Nat) : gxp_dev :=
  { power_mgr := gxp_pm_init workers true, cmu_vaddr_ok := true, trace := [] }

/-- A backend on which every call succeeds (no `after_blk_power_up` callback installed). -/
def backend_ok : backend :=
  { gxp_soc_pm_set_rate := fun _ => 0
    pm_runtime_resume_and_get := 0
    after_blk_power_up := none
    before_blk_power_down := none
    pm_runtime_put_sync := 0
    readl_aur_status := fun _ => 0 }

/-! ## Block power-down and reboot -/

/-- The C function `reset_cmu_mux_state`. -/
def reset_cmu_mux_state (gxp : gxp_dev) : gxp_dev :=
  set_cmu_noc_user_mux_state (set_cmu_pll_aur_mux_state gxp .AUR_CMU_MUX_NORMAL)
    .AUR_CMU_MUX_NORMAL

/-- The C function `gxp_pm_no_busy`. -/
def gxp_pm_no_busy (mgr : gxp_power_manager) : gxp_power_manager :=
  { mgr with busy_count := BUSY_COUNT_OFF }

/-- The tail of `gxp_pm_blkpwr_down` from `pm_runtime_put_sync` on: its result is returned
once `gxp_soc_pm_reset` has been called. -/
def blkpwr_down_put (soc : backend) (gxp : gxp_dev) : Int × gxp_dev :=
  (soc.pm_runtime_put_sync, (gxp.emit .pm_runtime_put_sync).emit .gxp_soc_pm_reset)

/-- The C function `gxp_pm_blkpwr_down`. -/
def gxp_pm_blkpwr_down (soc : backend) (gxp : gxp_dev) : Int × gxp_dev :=
  match soc.before_blk_power_down with
  | some ret =>
    let gxp1 := gxp.emit .before_blk_power_down
    if ret ≠ 0 then (ret, gxp1) else blkpwr_down_put soc gxp1
  | none => blkpwr_down_put soc gxp

/-- The C function `gxp_pm_blk_off`. -/
def gxp_pm_blk_off (soc : backend) (gxp : gxp_dev) : Int × gxp_dev :=
  if gxp.power_mgr.curr_state = AUR_OFF then (0, gxp)
  else
    let gxp1 := gxp.set_mgr (gxp_pm_no_busy gxp.power_mgr)
    let gxp2 := reset_cmu_mux_state gxp1
    let gxp3 := gxp2.emit .gxp_soc_lpm_destroy
    let down := gxp_pm_blkpwr_down soc gxp3
    if down.1 = 0 then (down.1, down.2.set_mgr { down.2.power_mgr with curr_state := AUR_OFF })
    else down

/-- The macro `SHUTDOWN_DELAY_US_MIN`. -/
def SHUTDOWN_DELAY_US_MIN : Nat := 200

/-- The macro `SHUTDOWN_DELAY_US_MAX`. -/
def SHUTDOWN_DELAY_US_MAX : Nat := 400

/-- The loop `do { usleep_range(...); curr_state = readl(...); if (!curr_state) return true;
timeout_cnt++; } while (timeout_cnt < max_delay_count);` followed by `return false`, entered
with the given `timeout_cnt`. The first argument bounds the number of iterations;
`gxp_pm_is_blk_down_timeout` passes `max_delay_count + 1`, which the loop never exhausts. -/
def blk_down_poll (soc : backend) (max_delay_count : Nat) : Nat → Nat → gxp_dev → Bool × gxp_dev
  | 0, _, gxp => (false, gxp)
  | fuel + 1, timeout_cnt, gxp =>
    let gxp1 := (gxp.emit (.usleep_range SHUTDOWN_DELAY_US_MIN SHUTDOWN_DELAY_US_MAX)).emit
      .readl_aur_status
    if soc.readl_aur_status timeout_cnt = 0 then (true, gxp1)
    else if timeout_cnt + 1 < max_delay_count then
      blk_down_poll soc max_delay_count fuel (timeout_cnt + 1) gxp1
    else (false, gxp1)

/-- The C function `gxp_pm_is_blk_down_timeout`. The product `timeout_ms * 1000` is computed
on `uint`, hence modulo `2 ^ 32`. -/
def gxp_pm_is_blk_down_timeout (soc : backend) (gxp : gxp_dev) (timeout_ms : Nat) :
    Bool × gxp_dev :=
  if !gxp.power_mgr.aur_status then (decide (gxp.power_mgr.curr_state = AUR_OFF), gxp)
  else
    let max_delay_count := (timeout_ms * 1000 % UINT_MOD) / SHUTDOWN_DELAY_US_MIN
    blk_down_poll soc max_delay_count (max_delay_count + 1) 0 gxp

/-- The C function `gxp_pm_blk_reboot`; `soc` answers the calls of the power-down and of the
polling, `soc_on` those of the power-up. -/
def gxp_pm_blk_reboot (soc soc_on : backend) (gxp : gxp_dev) (timeout_ms : Nat) :
    Int × gxp_dev :=
  let off := gxp_pm_blk_off soc gxp
  if off.1 ≠ 0 then off
  else
    let down := gxp_pm_is_blk_down_timeout soc off.2 timeout_ms
    if !down.1 then (-EBUSY, down.2)
    else gxp_pm_blk_on soc_on down.2

/-! ## Clock-mux force-normal guard -/

/-- The C function `gxp_pm_force_clkmux_normal`. -/
def gxp_pm_force_clkmux_normal (gxp : gxp_dev) : gxp_dev :=
  let gxp1 :=
    if gxp.power_mgr.curr_low_clkmux then
      set_cmu_noc_user_mux_state (set_cmu_pll_aur_mux_state gxp .AUR_CMU_MUX_NORMAL)
        .AUR_CMU_MUX_NORMAL
    else gxp
  gxp1.set_mgr { gxp1.power_mgr with
    force_mux_normal_count := gxp1.power_mgr.force_mux_normal_count + 1 }

/-- The C function `gxp_pm_resume_clkmux`. -/
def gxp_pm_resume_clkmux (gxp : gxp_dev) : gxp_dev :=
  let gxp1 := gxp.set_mgr { gxp.power_mgr with
    force_mux_normal_count := gxp.power_mgr.force_mux_normal_count - 1 }
  if gxp1.power_mgr.force_mux_normal_count = 0 then
    if gxp1.power_mgr.curr_low_clkmux then
      set_cmu_noc_user_mux_state (set_cmu_pll_aur_mux_state gxp1 .AUR_CMU_MUX_LOW)
        .AUR_CMU_MUX_LOW
    else gxp1
  else gxp1

/-! ## Busy tracking -/

/-- The C function `gxp_pm_on_busy`. -/
def gxp_pm_on_busy (gxp : gxp_dev) : gxp_dev :=
  set_cmu_noc_user_mux_state (set_cmu_pll_aur_mux_state gxp .AUR_CMU_MUX_NORMAL)
    .AUR_CMU_MUX_NORMAL

/-- The C function `gxp_pm_on_idle`; `gxp_slow_clk_on_idle` is the module parameter
`slow_clk`. -/
def gxp_pm_on_idle (gxp_slow_clk_on_idle : Bool) (gxp : gxp_dev) : gxp_dev :=
  if gxp_slow_clk_on_idle then
    set_cmu_noc_user_mux_state (set_cmu_pll_aur_mux_state gxp .AUR_CMU_MUX_LOW) .AUR_CMU_MUX_LOW
  else gxp

/-- The C function `gxp_pm_busy`: `++mgr->busy_count` on a `u64`, with no test of the
sentinel. -/
def gxp_pm_busy (gxp : gxp_dev) : gxp_dev :=
  let gxp1 := gxp.set_mgr { gxp.power_mgr with
    busy_count := (gxp.power_mgr.busy_count + 1) % U64_MOD }
  if gxp1.power_mgr.busy_count = 1 then gxp_pm_on_busy gxp1 else gxp1

/-- The C function `gxp_pm_idle`: `--mgr->busy_count` on a `u64`, skipped when the counter
holds the sentinel. -/
def gxp_pm_idle (gxp_slow_clk_on_idle : Bool) (gxp : gxp_dev) : gxp_dev :=
  if gxp.power_mgr.busy_count = BUSY_COUNT_OFF then gxp
  else
    let gxp1 := gxp.set_mgr { gxp.power_mgr with
      busy_count := (gxp.power_mgr.busy_count + U64_MOD - 1) % U64_MOD }
    if gxp1.power_mgr.busy_count = 0 then gxp_pm_on_idle gxp_slow_clk_on_idle gxp1 else gxp1

/-! ## Test ledgers -/

/-- The ledger with normal-mux counts `{UD: 2, SUD: 1}`, cast on a fresh device. -/
def ledger_ud2_sud1 : gxp_dev :=
  gxp_pm_vote_power_state
    (gxp_pm_vote_power_state (gxp_pm_vote_power_state (gxp_dev_init 4) AUR_UD false) AUR_UD false)
    AUR_SUD false

/-- The ledger `ledger_ud2_sud1` after its two `UD` votes are revoked. -/
def ledger_sud1 : gxp_dev :=
  gxp_pm_revoke_power_state_vote (gxp_pm_revoke_power_state_vote ledger_ud2_sud1 AUR_UD false)
    AUR_UD false

/-- The ledger with a single low-mux `UD` vote. -/
def ledger_low_ud1 : gxp_dev :=
  gxp_pm_vote_power_state (gxp_dev_init 4) AUR_UD true

/-! ## Vocabulary of the properties -/

/-- The vote ledger of a device: the normal-mux, low-mux and memory counter tables. -/
def gxp_dev.ledger (gxp : gxp_dev) : List Nat × List Nat × List Nat :=
  (gxp.power_mgr.pwr_state_req_count, gxp.power_mgr.low_clkmux_pwr_state_req_count,
   gxp.power_mgr.mem_pwr_state_req_count)

/-- The vote exchange in the words of the specification: four single-dimension operations,
each performed whatever the others do: revoke `old.power` from the table `old.low_clkmux`
selects, add `new.power` to the table `new.low_clkmux` selects, revoke `old.memory`, add
`new.memory`. -/
def cast_vote_four_operations (gxp : gxp_dev) (old new : gxp_power_states) : gxp_dev :=
  gxp_pm_vote_memory_power_state
    (gxp_pm_revoke_memory_power_state_vote
      (gxp_pm_vote_power_state
        (gxp_pm_revoke_power_state_vote gxp old.power old.low_clkmux)
        new.power new.low_clkmux)
      old.memory)
    new.memory

/-- A device after `gxp_pm_init` and one successful power-up (four slots per pool). -/
def dev_on : gxp_dev := (gxp_pm_blk_on backend_ok (gxp_dev_init 4)).2

/-- The device `dev_on` after a first caller exchanged "no vote" for a normal-mux `UD` vote. -/
def dev_on_ud : gxp_dev :=
  (gxp_pm_update_requested_power_state dev_on AUR_OFF false AUR_UD false).2

/-- The arguments of one call of `gxp_pm_update_requested_power_state`: one power-vote
exchange. -/
structure power_exchange where
  origin_state : Nat
  origin_requested_low_clkmux : Bool
  requested_state : Nat
  requested_low_clkmux : Bool
  deriving DecidableEq, Repr

/-- Performs a sequence of power-vote exchanges, first to last (results are not inspected). -/
def run_power_exchanges (gxp : gxp_dev) : List power_exchange → gxp_dev
  | [] => gxp
  | x :: xs =>
    run_power_exchanges
      (gxp_pm_update_requested_power_state gxp x.origin_state x.origin_requested_low_clkmux
        x.requested_state x.requested_low_clkmux).2 xs

/-- The number of adds a sequence makes for state `s` in class `low`. -/
def adds_made (xs : List power_exchange) (s : Nat) (low : Bool) : Nat :=
  xs.countP fun x => decide (x.requested_state = s ∧ x.requested_low_clkmux = low)

/-- The number of revokes a sequence makes for state `s` in class `low`. -/
def revokes_made (xs : List power_exchange) (s : Nat) (low : Bool) : Nat :=
  xs.countP fun x => decide (x.origin_state = s ∧ x.origin_requested_low_clkmux = low)

/-- What one exchange does to a counter holding `c`: `rev` tells whether the exchange
revokes this counter's state and class, `add` whether it adds it. -/
def counter_after_exchange (c : Nat) (rev add : Bool) : Nat :=
  let c1 := if rev then (if c = 0 then c else c - 1) else c
  if add then (c1 + 1) % UINT_MOD else c1

/-- A sequence that revokes a vote never cast: one caller trades a normal-mux `UD` vote it
does not hold for "no vote". -/
def exchanges_spurious_revoke : List power_exchange :=
  [⟨AUR_UD, false, AUR_OFF, false⟩]

/-- A sequence in which every revoke is of a vote held: two callers cast `UD`, a third casts
`SUD`, then the first caller withdraws. -/
def exchanges_held : List power_exchange :=
  [⟨AUR_OFF, false, AUR_UD, false⟩, ⟨AUR_OFF, false, AUR_UD, false⟩,
   ⟨AUR_OFF, false, AUR_SUD, false⟩, ⟨AUR_UD, false, AUR_OFF, false⟩]

/-- Performs a sequence of dispatch requests `gxp_pm_req_state_locked`, first to last, with no
worker executing in between. -/
def run_req_state (gxp : gxp_dev) : List (Nat × Bool) → gxp_dev
  | [] => gxp
  | t :: ts => run_req_state (gxp_pm_req_state_locked gxp t.1 t.2).2 ts

/-- The slot of index `k` is free and every other slot of the pool is in use. -/
def only_free_slot (works : List gxp_set_acpm_state_work) (k : Nat) : Prop :=
  (works.map (·.using_)).get? k = some false ∧
  ∀ j, j < works.length → j ≠ k → (works.map (·.using_)).getD j true = true

instance (works : List gxp_set_acpm_state_work) (k : Nat) : Decidable (only_free_slot works k) := by
  unfold only_free_slot
  infer_instance

/-- Each request of the sequence differs, in state or in clock-mux flag, from the applied
target (`curr_state`, `last_scheduled_low_clkmux`) at the time it is made. -/
def targets_differ (gxp : gxp_dev) : List (Nat × Bool) → Bool
  | [] => true
  | t :: ts =>
    decide (t.1 ≠ gxp.power_mgr.curr_state ∨ t.2 ≠ gxp.power_mgr.last_scheduled_low_clkmux) &&
      targets_differ (gxp_pm_req_state_locked gxp t.1 t.2).2 ts

/-- The device `dev_on` after three dispatch requests (`UD`, `SUD`, `NOM`, normal mux) whose
workers have not run yet: slots 0 to 2 are in use and slot 3 is the only free one. -/
def dev_one_free : gxp_dev :=
  run_req_state dev_on [(AUR_UD, false), (AUR_SUD, false), (AUR_NOM, false)]

/-- A backend whose performance-state write fails (`gxp_soc_pm_set_rate` returns `-EINVAL`)
while the domain power-up succeeds. -/
def backend_set_rate_fails : backend :=
  { gxp_soc_pm_set_rate := fun _ => -EINVAL
    pm_runtime_resume_and_get := 0
    after_blk_power_up := none
    before_blk_power_down := none
    pm_runtime_put_sync := 0
    readl_aur_status := fun _ => 0 }

/-- The device `dev_on` (`UUD` applied) after a dispatch request for `UD`: slot 0 is queued. -/
def dev_ud_requested : gxp_dev := (gxp_pm_req_state_locked dev_on AUR_UD false).2

/-- The device `dev_ud_requested` after the worker of slot 0 ran against a backend whose
performance-state write fails. -/
def dev_ud_write_failed : gxp_dev :=
  gxp_pm_blk_set_state_acpm_async backend_set_rate_fails dev_ud_requested 0

/-- A backend on which the domain power-down fails: `pm_runtime_put_sync` returns `-EBUSY`. -/
def backend_put_sync_fails : backend :=
  { gxp_soc_pm_set_rate := fun _ => 0
    pm_runtime_resume_and_get := 0
    after_blk_power_up := none
    before_blk_power_down := none
    pm_runtime_put_sync := -EBUSY
    readl_aur_status := fun _ => 0 }

/-- A backend on which every call succeeds but the PMU status register always reads 1: the
domain never reports off. -/
def backend_never_off : backend :=
  { gxp_soc_pm_set_rate := fun _ => 0
    pm_runtime_resume_and_get := 0
    after_blk_power_up := none
    before_blk_power_down := none
    pm_runtime_put_sync := 0
    readl_aur_status := fun _ => 1 }

/-- The calls made by `n` iterations of the polling loop: each is a delay followed by a read
of the status register. -/
def poll_trace : Nat → List hw_op
  | 0 => []
  | n + 1 =>
    hw_op.usleep_range SHUTDOWN_DELAY_US_MIN SHUTDOWN_DELAY_US_MAX :: hw_op.readl_aur_status ::
      poll_trace n

/-- The device `dev_on` after a dispatch request for `(UD, low_clkmux = true)` whose worker
has not run yet, followed by `gxp_pm_force_clkmux_normal`: the last-arbitrated flag is true,
the flag recorded by the workers is still false, and the force-normal count is 1. -/
def dev_low_pending_forced : gxp_dev :=
  gxp_pm_force_clkmux_normal (gxp_pm_req_state_locked dev_on AUR_UD true).2

/-- The device `dev_on` after a dispatch request for `(UD, low_clkmux = true)`: slot 0 is
pending with `prev_low_clkmux = false` and target `low_clkmux = true`. -/
def dev_low_pending : gxp_dev := (gxp_pm_req_state_locked dev_on AUR_UD true).2

/-- The device `dev_on` with three requests in flight: `gxp_pm_busy` called three times. -/
def dev_busy3 : gxp_dev := gxp_pm_busy (gxp_pm_busy (gxp_pm_busy dev_on))

/-- The device `dev_one_free` after a fourth dispatch request (`UUD`, normal mux): every slot
of the pool is in use and slot 3 is the most recently scheduled one. -/
def dev_pool_full : gxp_dev := (gxp_pm_req_state_locked dev_one_free AUR_UUD false).2

/-- The device `dev_low_pending` after the worker of slot 0 ran: `UD` with the low clock mux
is in effect, so both `curr_low_clkmux` and `last_scheduled_low_clkmux` are true. -/
def dev_low_applied : gxp_dev := gxp_pm_blk_set_state_acpm_async backend_ok dev_low_pending 0

/-- The device `dev_low_applied` after a successful power-down. -/
def dev_low_powered_down : gxp_dev := (gxp_pm_blk_off backend_ok dev_low_applied).2

/-- The device `dev_low_powered_down` after the next successful power-up. -/
def dev_low_cycled : gxp_dev := (gxp_pm_blk_on backend_ok dev_low_powered_down).2

/-- One step of an execution of the dispatcher: a dispatch request
`gxp_pm_req_state_locked gxp state low_clkmux`, or the work queue running the worker of the
slot that has been queued for the longest time. -/
inductive dispatch_event
  | request (state : Nat) (low_clkmux : Bool)
  | work
  deriving DecidableEq, Repr

/-- The slots that the calls `queue_work` of a sequence of calls queued, in order. -/
def queued_slots : List hw_op → List Nat
  | [] => []
  | .queue_set_acpm_state_work i :: ops => i :: queued_slots ops
  | _ :: ops => queued_slots ops

/-- Runs an execution from the device `gxp`, `pending` being the slots queued and not yet
executed, oldest first: a request appends the slot it queues, if any; a `work` event runs the
worker of the oldest pending slot (and does nothing when no slot is pending). The result is
true when, at the start of every worker execution, the slot's `prev_low_clkmux` equals the
manager's `curr_low_clkmux`. -/
def chain_holds (soc : backend) : gxp_dev → List Nat → List dispatch_event → Bool
  | _, _, [] => true
  | gxp, pending, .request state low_clkmux :: events =>
    let gxp1 := (gxp_pm_req_state_locked gxp state low_clkmux).2
    chain_holds soc gxp1 (pending ++ queued_slots (gxp1.trace.drop gxp.trace.length)) events
  | gxp, [], .work :: events => chain_holds soc gxp [] events
  | gxp, i :: pending, .work :: events =>
    decide ((gxp.power_mgr.set_acpm_state_work.get? i).map (·.prev_low_clkmux) =
        some gxp.power_mgr.curr_low_clkmux) &&
      chain_holds soc (gxp_pm_blk_set_state_acpm_async soc gxp i) pending events

/-- The pending slots form a chain: the oldest records as `prev_low_clkmux` the mode `c`,
each next one records the target mode of the slot before it, all are in use, and the target
mode of the newest is `last_low`. -/
def slot_chain (works : List gxp_set_acpm_state_work) (last_low : Bool) :
    Bool → List Nat → Prop
  | c, [] => last_low = c
  | c, i :: rest =>
    ∃ w, works[i]? = some w ∧ w.prev_low_clkmux = c ∧ w.using_ = true ∧
      slot_chain works last_low w.low_clkmux rest

/-- The invariant of an execution of the dispatcher with the block on: the pending slots are
distinct and form a chain from `curr_low_clkmux` to `last_scheduled_low_clkmux`, every slot
in use is pending, and the newest pending slot is `last_set_acpm_state_worker`. -/
def dispatch_invariant (gxp : gxp_dev) (pending : List Nat) : Prop :=
  gxp.power_mgr.curr_state ≠ AUR_OFF ∧
  0 < gxp.power_mgr.set_acpm_state_work.length ∧
  pending.Nodup ∧
  slot_chain gxp.power_mgr.set_acpm_state_work gxp.power_mgr.last_scheduled_low_clkmux
    gxp.power_mgr.curr_low_clkmux pending ∧
  (∀ j w, gxp.power_mgr.set_acpm_state_work[j]? = some w → w.using_ = true → j ∈ pending) ∧
  (∀ k, pending.getLast? = some k → k = gxp.power_mgr.last_set_acpm_state_worker)

/-- An execution of seven events: with a pool of two slots, the first two requests fill the
pool, the third is coalesced into the newest slot, a worker runs, a fourth request claims
the slot it freed, and two workers run. -/
def chain_events_example : List dispatch_event :=
  [.request AUR_UD true, .request AUR_NOM false, .request AUR_SUD true, .work,
   .request AUR_UUD false, .work, .work]

/-- A device whose block is off and whose ledger holds one normal-mux `UD` vote and one
`MEM_HIGH` vote, both cast on the freshly initialised device. -/
def dev_off_voted : gxp_dev :=
  (gxp_pm_update_requested_memory_power_state
    (gxp_pm_update_requested_power_state (gxp_dev_init 4) AUR_OFF false AUR_UD false).2
    AUR_MEM_UNDEFINED AUR_MEM_HIGH).2

/-- The powered device `dev_on` after the same two votes: its ledger is that of
`dev_off_voted` and its block is on. -/
def dev_on_voted : gxp_dev :=
  (gxp_pm_update_requested_memory_power_state
    (gxp_pm_update_requested_power_state dev_on AUR_OFF false AUR_UD false).2
    AUR_MEM_UNDEFINED AUR_MEM_HIGH).2

/-- The device `dev_on` of a platform whose CMU registers are not mapped (`gxp->cmu.vaddr`
is null or an error pointer): `gxp_pm_init` followed by a successful power-up. -/
def dev_on_unmapped : gxp_dev :=
  (gxp_pm_blk_on backend_ok ⟨gxp_pm_init 4 true, false, []⟩).2

/-- The device `dev_on_unmapped` after a dispatch request for `(UD, low_clkmux = true)` whose
worker has not run yet: slot 0 is pending with `prev_low_clkmux = false`. -/
def dev_low_pending_unmapped : gxp_dev := (gxp_pm_req_state_locked dev_on_unmapped AUR_UD true).2

end GxpPm

/-! ## HDCP authentication state (`auth-state.c`) -/

namespace Hdcp

/-- The enumerator `HDCP_AUTH_RESET` of `enum auth_state`. -/
def HDCP_AUTH_RESET : Nat := 1 <<< 0
/-- The enumerator `HDCP_AUTH_IDLE`. -/
def HDCP_AUTH_IDLE : Nat := 1 <<< 1
/-- The enumerator `HDCP1_AUTH_PROGRESS`. -/
def HDCP1_AUTH_PROGRESS : Nat := 1 <<< 2
/-- The enumerator `HDCP1_AUTH_DONE`. -/
def HDCP1_AUTH_DONE : Nat := 1 <<< 3
/-- The enumerator `HDCP2_AUTH_PROGRESS`. -/
def HDCP2_AUTH_PROGRESS : Nat := 1 <<< 4
/-- The enumerator `HDCP2_AUTH_DONE`. -/
def HDCP2_AUTH_DONE : Nat := 1 <<< 5
/-- The enumerator `HDCP2_AUTH_RP`. -/
def HDCP2_AUTH_RP : Nat := 1 <<< 6
/-- The enumerator `HDCP_AUTH_ABORT`. -/
def HDCP_AUTH_ABORT : Nat := 1 <<< 7
/-- The enumerator `HDCP_AUTH_SHUTDOWN`. -/
def HDCP_AUTH_SHUTDOWN : Nat := 1 <<< 8

/-- The macro `HDCP_V2_3`. -/
def HDCP_V2_3 : Nat := 5
/-- The macro `HDCP_V1`. -/
def HDCP_V1 : Nat := 1
/-- The macro `HDCP_NONE`. -/
def HDCP_NONE : Nat := 0

/-- The two content-protection values `auth-state.c` passes to `hdcp_dplink_update_cp`
(`DRM_MODE_CONTENT_PROTECTION_DESIRED`, `DRM_MODE_CONTENT_PROTECTION_ENABLED`). -/
inductive content_protection
  | DRM_MODE_CONTENT_PROTECTION_DESIRED
  | DRM_MODE_CONTENT_PROTECTION_ENABLED
  deriving DecidableEq, Repr

/-- The calls `auth-state.c` makes outside the file, in the order made. -/
inductive hdcp_op
  | msleep (msecs : Nat)
  | hdcp_tee_set_protection (version : Nat)
  | hdcp_dplink_update_cp (value : content_protection)
  deriving DecidableEq, Repr

/-- The file-scope variables `hdcp_auth_state` and `enc_enabled`, with the calls made so far. -/
structure hdcp_dev where
  hdcp_auth_state : Nat
  enc_enabled : Bool
  trace : List hdcp_op
  deriving DecidableEq, Repr

/-- The trusted-execution side: the value `hdcp_tee_set_protection` (declared in `teeif.h`)
returns for a protection version. -/
structure tee where
  hdcp_tee_set_protection : Nat → Int

/-- Records a call. -/
def hdcp_dev.emit (d : hdcp_dev) (op : hdcp_op) : hdcp_dev :=
  { d with trace := d.trace ++ [op] }

/-- The state at load time: `hdcp_auth_state = HDCP_AUTH_RESET`, `enc_enabled = false`. -/
def hdcp_init : hdcp_dev :=
  { hdcp_auth_state := HDCP_AUTH_RESET, enc_enabled := false, trace := [] }

/-- The C function `hdcp_tee_enable_enc_22`. -/
def hdcp_tee_enable_enc_22 (t : tee) (d : hdcp_dev) : Int × hdcp_dev :=
  if d.enc_enabled then (0, d)
  else
    let d1 := d.emit (.msleep 200)
    let ret := t.hdcp_tee_set_protection HDCP_V2_3
    let d2 := d1.emit (.hdcp_tee_set_protection HDCP_V2_3)
    if ret ≠ 0 then (ret, d2)
    else
      let d3 := d2.emit (.hdcp_dplink_update_cp .DRM_MODE_CONTENT_PROTECTION_ENABLED)
      (0, { d3 with enc_enabled := true })

/-- The C function `hdcp_tee_enable_enc_13`. -/
def hdcp_tee_enable_enc_13 (t : tee) (d : hdcp_dev) : Int × hdcp_dev :=
  if d.enc_enabled then (0, d)
  else
    let ret := t.hdcp_tee_set_protection HDCP_V1
    let d1 := d.emit (.hdcp_tee_set_protection HDCP_V1)
    if ret ≠ 0 then (ret, d1)
    else
      let d2 := d1.emit (.hdcp_dplink_update_cp .DRM_MODE_CONTENT_PROTECTION_ENABLED)
      (0, { d2 with enc_enabled := true })

/-- The C function `hdcp_tee_disable_enc`. -/
def hdcp_tee_disable_enc (t : tee) (d : hdcp_dev) : Int × hdcp_dev :=
  if !d.enc_enabled then (0, d)
  else
    let d1 := d.emit (.hdcp_dplink_update_cp .DRM_MODE_CONTENT_PROTECTION_DESIRED)
    let ret := t.hdcp_tee_set_protection HDCP_NONE
    let d2 := d1.emit (.hdcp_tee_set_protection HDCP_NONE)
    if ret ≠ 0 then (ret, d2)
    else (0, { d2 with enc_enabled := false })

/-- The C function `hdcp_get_auth_state`. -/
def hdcp_get_auth_state (d : hdcp_dev) : Nat := d.hdcp_auth_state

/-- The C function `is_hdcp_auth_aborted`. -/
def is_hdcp_auth_aborted (d : hdcp_dev) : Bool :=
  hdcp_get_auth_state d &&& (HDCP_AUTH_ABORT ||| HDCP_AUTH_SHUTDOWN) != 0

/-- The C function `hdcp_transition_auth_state`; the results of the three encryption calls
are discarded, as in the source. -/
def hdcp_transition_auth_state (t : tee) (d : hdcp_dev) (new_state : Nat) : hdcp_dev :=
  if d.hdcp_auth_state = new_state then d
  else
    let d1 := { d with hdcp_auth_state := new_state }
    let d2 := if new_state &&& HDCP1_AUTH_DONE ≠ 0 then (hdcp_tee_enable_enc_13 t d1).2 else d1
    let d3 := if new_state &&& HDCP2_AUTH_DONE ≠ 0 then (hdcp_tee_enable_enc_22 t d2).2 else d2
    if new_state &&& (HDCP_AUTH_IDLE ||| HDCP_AUTH_ABORT ||| HDCP_AUTH_SHUTDOWN) ≠ 0 then
      (hdcp_tee_disable_enc t d3).2
    else d3

/-- The `switch (hdcp_auth_state)` statement of `hdcp_set_auth_state`, which computes the
local `allowed_state` from the current state; the switch has no default label, so any other
value leaves `allowed_state` at its initial value 0. -/
def allowed_state (hdcp_auth_state : Nat) : Nat :=
  if hdcp_auth_state = HDCP_AUTH_RESET ∨ hdcp_auth_state = HDCP_AUTH_IDLE then
    HDCP2_AUTH_PROGRESS ||| HDCP1_AUTH_PROGRESS
  else if hdcp_auth_state = HDCP2_AUTH_PROGRESS then HDCP2_AUTH_DONE ||| HDCP_AUTH_IDLE
  else if hdcp_auth_state = HDCP1_AUTH_PROGRESS then HDCP1_AUTH_DONE ||| HDCP_AUTH_IDLE
  else if hdcp_auth_state = HDCP1_AUTH_DONE then HDCP_AUTH_IDLE
  else if hdcp_auth_state = HDCP2_AUTH_DONE then HDCP2_AUTH_RP ||| HDCP_AUTH_IDLE
  else if hdcp_auth_state = HDCP2_AUTH_RP then HDCP2_AUTH_PROGRESS
  else if hdcp_auth_state = HDCP_AUTH_ABORT then HDCP_AUTH_RESET
  else if hdcp_auth_state = HDCP_AUTH_SHUTDOWN then 0
  else 0

/-- The C function `hdcp_set_auth_state`. -/
def hdcp_set_auth_state (t : tee) (d : hdcp_dev) (state : Nat) : Int × hdcp_dev :=
  if state &&& (HDCP_AUTH_ABORT ||| HDCP_AUTH_SHUTDOWN) ≠ 0 then
    (0, hdcp_transition_auth_state t d state)
  else if state &&& allowed_state d.hdcp_auth_state = 0 then (-1, d)
  else (0, hdcp_transition_auth_state t d state)

/-! ### Vocabulary of the HDCP properties -/

/-- The nine enumerators of `enum auth_state`: the single-flag states. -/
def auth_states : List Nat :=
  [HDCP_AUTH_RESET, HDCP_AUTH_IDLE, HDCP1_AUTH_PROGRESS, HDCP1_AUTH_DONE, HDCP2_AUTH_PROGRESS,
   HDCP2_AUTH_DONE, HDCP2_AUTH_RP, HDCP_AUTH_ABORT, HDCP_AUTH_SHUTDOWN]

/-- The allowed-successor sets in the words of the specification: RESET/IDLE to HDCP1 or
HDCP2 PROGRESS; HDCP2 PROGRESS to HDCP2 DONE or IDLE; HDCP1 PROGRESS to HDCP1 DONE or IDLE;
HDCP1 DONE to IDLE; HDCP2 DONE to RP or IDLE; RP to HDCP2 PROGRESS; ABORT to RESET; SHUTDOWN
to none. -/
def spec_allowed_successors : List (Nat × List Nat) :=
  [(HDCP_AUTH_RESET, [HDCP1_AUTH_PROGRESS, HDCP2_AUTH_PROGRESS]),
   (HDCP_AUTH_IDLE, [HDCP1_AUTH_PROGRESS, HDCP2_AUTH_PROGRESS]),
   (HDCP2_AUTH_PROGRESS, [HDCP2_AUTH_DONE, HDCP_AUTH_IDLE]),
   (HDCP1_AUTH_PROGRESS, [HDCP1_AUTH_DONE, HDCP_AUTH_IDLE]),
   (HDCP1_AUTH_DONE, [HDCP_AUTH_IDLE]),
   (HDCP2_AUTH_DONE, [HDCP2_AUTH_RP, HDCP_AUTH_IDLE]),
   (HDCP2_AUTH_RP, [HDCP2_AUTH_PROGRESS]),
   (HDCP_AUTH_ABORT, [HDCP_AUTH_RESET]),
   (HDCP_AUTH_SHUTDOWN, [])]

/-- The request `req` is accepted from the state `cur` according to the specification: it is
`HDCP_AUTH_ABORT` or `HDCP_AUTH_SHUTDOWN`, or it lies in the allowed-successor set of `cur`. -/
def spec_accepts (cur req : Nat) : Prop :=
  req = HDCP_AUTH_ABORT ∨ req = HDCP_AUTH_SHUTDOWN ∨
    ∃ p, p ∈ spec_allowed_successors ∧ p.1 = cur ∧ req ∈ p.2

instance (cur req : Nat) : Decidable (spec_accepts cur req) := by
  unfold spec_accepts
  infer_instance

/-- A trusted-execution side whose set-protection calls all succeed. -/
def tee_ok : tee := { hdcp_tee_set_protection := fun _ => 0 }

/-- A trusted-execution side whose set-protection calls all fail. -/
def tee_fails : tee := { hdcp_tee_set_protection := fun _ => -1 }

/-- Performs a sequence of `hdcp_set_auth_state` calls, first to last, whatever each
returns. -/
def run_set_auth_state (t : tee) (d : hdcp_dev) : List Nat → hdcp_dev
  | [] => d
  | state :: states => run_set_auth_state t (hdcp_set_auth_state t d state).2 states

/-- The encryption invariant of the specification: `enc_enabled` is false in the states
RESET, IDLE, HDCP1 PROGRESS, ABORT and SHUTDOWN, and true in the two DONE states. -/
def enc_invariant (d : hdcp_dev) : Prop :=
  (d.hdcp_auth_state ∈ [HDCP_AUTH_RESET, HDCP_AUTH_IDLE, HDCP1_AUTH_PROGRESS, HDCP_AUTH_ABORT,
      HDCP_AUTH_SHUTDOWN] → d.enc_enabled = false) ∧
  (d.hdcp_auth_state ∈ [HDCP1_AUTH_DONE, HDCP2_AUTH_DONE] → d.enc_enabled = true)

instance (d : hdcp_dev) : Decidable (enc_invariant d) := by
  unfold enc_invariant
  infer_instance

end Hdcp

/-! ## Image configuration parser (`gcip-image-config.c`) -/

namespace GcipImageConfig

/-- The error number `EIO`. -/
def EIO : Int := 5
/-- The error number `EOVERFLOW`. -/
def EOVERFLOW : Int := 75
/-- The number of values of `u32`. -/
def U32_MOD : Nat := 4294967296
/-- The number of values of the 64-bit types `dma_addr_t`, `phys_addr_t` and `size_t`. -/
def U64_MOD : Nat := 18446744073709551616

/-- One element of `config->iommu_mappings`. -/
structure iommu_mapping where
  virt_address : Nat
  image_config_value : Nat
  deriving DecidableEq, Repr

/-- The fields of `struct gcip_image_config` the mapping functions read;
`num_iommu_mappings` is the length of `iommu_mappings`. -/
structure gcip_image_config where
  privilege_level : Nat
  iommu_mappings : List iommu_mapping
  deriving DecidableEq, Repr

/-- The macros and inline helpers of `gcip/gcip-image-config.h` that the mapping functions
use. The header is not among the sources, so they are parameters of the model. -/
structure image_config_macros where
  GCIP_IMG_CFG_MAP_FLAGS_MASK : Nat
  GCIP_IMG_CFG_ADDR_MASK : Nat
  GCIP_IMAGE_CONFIG_FLAGS_SECURE : Nat
  GCIP_IMAGE_CONFIG_MAP_36BIT : Nat → Bool
  GCIP_IMAGE_CONFIG_MAP_SHARED : Nat → Bool
  gcip_config_to_size : Nat → Nat
  gcip_image_config_is_secure : gcip_image_config → Bool

/-- The calls made through `parser->ops`, in the order made. -/
inductive iommu_op
  | map (daddr paddr size map_flags cfg_flags : Nat)
  | unmap (daddr size map_flags cfg_flags : Nat)
  deriving DecidableEq, Repr

/-- The value the callback `parser->ops->map` returns for its arguments. -/
structure gcip_image_config_ops where
  map : (daddr paddr size map_flags cfg_flags : Nat) → Int

/-- The C expression `a & ~(m)` for a `u32` value `a`. -/
def and_not (a m : Nat) : Nat := a &&& (m ^^^ (U32_MOD - 1))

/-- The C function `skip_secure_mapping`. -/
def skip_secure_mapping (m : image_config_macros) (config : gcip_image_config)
    (map_flags : Nat) : Bool :=
  m.gcip_image_config_is_secure config && !m.GCIP_IMAGE_CONFIG_MAP_SHARED map_flags

/-- The C function `virt_address_to_dma`; the shift is made on the 64-bit `dma_addr_t`. -/
def virt_address_to_dma (m : image_config_macros) (virt_address : Nat) : Nat :=
  let daddr := and_not virt_address m.GCIP_IMG_CFG_MAP_FLAGS_MASK
  let flags := virt_address &&& m.GCIP_IMG_CFG_MAP_FLAGS_MASK
  if m.GCIP_IMAGE_CONFIG_MAP_36BIT flags then (daddr <<< 4) % U64_MOD else daddr

/-- The loop after the label `err` of `setup_iommu_mappings`: `while (i--)` runs its body
for the indices `i - 1` down to 0. -/
def setup_iommu_mappings_err (m : image_config_macros) (config : gcip_image_config) :
    Nat → List iommu_op → List iommu_op
  | 0, trace => trace
  | i + 1, trace =>
    match config.iommu_mappings.get? i with
    | none => setup_iommu_mappings_err m config i trace
    | some e =>
      let daddr := and_not e.virt_address m.GCIP_IMG_CFG_MAP_FLAGS_MASK
      let map_flags := e.virt_address &&& m.GCIP_IMG_CFG_MAP_FLAGS_MASK
      if skip_secure_mapping m config map_flags then setup_iommu_mappings_err m config i trace
      else
        let size := m.gcip_config_to_size e.image_config_value
        setup_iommu_mappings_err m config i
          (trace ++ [.unmap daddr size map_flags m.GCIP_IMAGE_CONFIG_FLAGS_SECURE])

/-- The `for` loop of `setup_iommu_mappings`, from the index `i` on, `rest` being the
elements of `config->iommu_mappings` from that index. -/
def setup_iommu_mappings_loop (m : image_config_macros) (ops : gcip_image_config_ops)
    (config : gcip_image_config) : List iommu_mapping → Nat → List iommu_op →
    Int × List iommu_op
  | [], _, trace => (0, trace)
  | e :: rest, i, trace =>
    let daddr := virt_address_to_dma m e.virt_address
    let map_flags := e.virt_address &&& m.GCIP_IMG_CFG_MAP_FLAGS_MASK
    if skip_secure_mapping m config map_flags then
      setup_iommu_mappings_loop m ops config rest (i + 1) trace
    else if daddr = 0 then (- EIO, setup_iommu_mappings_err m config i trace)
    else
      let size := m.gcip_config_to_size e.image_config_value
      let paddr := e.image_config_value &&& m.GCIP_IMG_CFG_ADDR_MASK
      if (daddr + size) % U64_MOD ≤ daddr ∨ (paddr + size) % U64_MOD ≤ paddr then
        (-EOVERFLOW, setup_iommu_mappings_err m config i trace)
      else
        let ret := ops.map daddr paddr size map_flags m.GCIP_IMAGE_CONFIG_FLAGS_SECURE
        let trace1 :=
          trace ++ [.map daddr paddr size map_flags m.GCIP_IMAGE_CONFIG_FLAGS_SECURE]
        if ret ≠ 0 then (ret, setup_iommu_mappings_err m config i trace1)
        else setup_iommu_mappings_loop m ops config rest (i + 1) trace1

/-- The C function `setup_iommu_mappings`. -/
def setup_iommu_mappings (m : image_config_macros) (ops : gcip_image_config_ops)
    (config : gcip_image_config) (trace : List iommu_op) : Int × List iommu_op :=
  setup_iommu_mappings_loop m ops config config.iommu_mappings 0 trace

/-- The loop of `clear_iommu_mappings`, which runs its body for the indices `i - 1` down
to 0. -/
def clear_iommu_mappings_loop (m : image_config_macros) (config : gcip_image_config) :
    Nat → List iommu_op → List iommu_op
  | 0, trace => trace
  | i + 1, trace =>
    match config.iommu_mappings.get? i with
    | none => clear_iommu_mappings_loop m config i trace
    | some e =>
      let daddr := virt_address_to_dma m e.virt_address
      let map_flags := e.virt_address &&& m.GCIP_IMG_CFG_MAP_FLAGS_MASK
      if skip_secure_mapping m config map_flags then clear_iommu_mappings_loop m config i trace
      else
        let size := m.gcip_config_to_size e.image_config_value
        clear_iommu_mappings_loop m config i
          (trace ++ [.unmap daddr size map_flags m.GCIP_IMAGE_CONFIG_FLAGS_SECURE])

/-- The C function `clear_iommu_mappings`. -/
def clear_iommu_mappings (m : image_config_macros) (config : gcip_image_config)
    (trace : List iommu_op) : List iommu_op :=
  clear_iommu_mappings_loop m config config.iommu_mappings.length trace

/-! ### Vocabulary of the image-configuration properties -/

/-- The call the loop after `err` makes for a mapping that is not skipped. -/
def rollback_unmap (m : image_config_macros) (e : iommu_mapping) : iommu_op :=
  .unmap (and_not e.virt_address m.GCIP_IMG_CFG_MAP_FLAGS_MASK)
    (m.gcip_config_to_size e.image_config_value)
    (e.virt_address &&& m.GCIP_IMG_CFG_MAP_FLAGS_MASK) m.GCIP_IMAGE_CONFIG_FLAGS_SECURE

/-- An instance of the header's macros, for evaluation: the flags are the low 12 bits of
`virt_address`, bit 0 is the shared flag, bit 3 the 36-bit flag; the size is the number of
4 KiB pages held in the low 12 bits of `image_config_value`; a configuration is secure when
its privilege level is not 3. -/
def macros_example : image_config_macros :=
  { GCIP_IMG_CFG_MAP_FLAGS_MASK := 4095
    GCIP_IMG_CFG_ADDR_MASK := 4294963200
    GCIP_IMAGE_CONFIG_FLAGS_SECURE := 1
    GCIP_IMAGE_CONFIG_MAP_36BIT := fun flags => flags &&& 8 != 0
    GCIP_IMAGE_CONFIG_MAP_SHARED := fun flags => flags &&& 1 != 0
    gcip_config_to_size := fun cfg => (cfg &&& 4095) * 4096
    gcip_image_config_is_secure := fun config => config.privilege_level != 3 }

/-- A map callback that always succeeds. -/
def ops_ok : gcip_image_config_ops := { map := fun _ _ _ _ _ => 0 }

/-- A configuration of two mappings: entry 0 asks for the device address `0x1000` with the
36-bit flag (so it is mapped at `0x10000`), one page at the physical address `0x80000000`;
entry 1 has a zero device address, which makes `setup_iommu_mappings` fail with `-EIO`. -/
def config_36bit_then_zero : gcip_image_config :=
  { privilege_level := 3
    iommu_mappings := [⟨4096 + 8, 2147483648 + 1⟩, ⟨0, 2147487744 + 1⟩] }

/-- The configuration made of entry 0 of `config_36bit_then_zero` alone. -/
def config_36bit : gcip_image_config :=
  { privilege_level := 3, iommu_mappings := [⟨4096 + 8, 2147483648 + 1⟩] }

end GcipImageConfig

namespace GxpPm

/-! ## Arbiter: properties -/

theorem max_voted_index_some {counts : List Nat} {n i : Nat}
    (h : max_voted_index counts n = some i) :
    i < n ∧ 0 < counts.getD i 0 ∧ ∀ j, i < j → j < n → counts.getD j 0 = 0 := by
  induction n with
  | zero => simp [max_voted_index] at h
  | succ n ih =>
    simp only [max_voted_index] at h
    split at h
    · rename_i hpos
      cases h
      exact ⟨Nat.lt_succ_self _, hpos, fun j h1 h2 => absurd h2 (by omega)⟩
    · rename_i hzero
      obtain ⟨h1, h2, h3⟩ := ih h
      refine ⟨Nat.lt_succ_of_lt h1, h2, fun j hj hjn => ?_⟩
      rcases Nat.lt_succ_iff_lt_or_eq.mp hjn with hlt | heq
      · exact h3 j hj hlt
      · subst heq; omega

theorem max_voted_index_none {counts : List Nat} {n : Nat}
    (h : max_voted_index counts n = none) : ∀ j, j < n → counts.getD j 0 = 0 := by
  induction n with
  | zero => intro j hj; omega
  | succ n ih =>
    simp only [max_voted_index] at h
    split at h
    · cases h
    · rename_i hzero
      intro j hj
      rcases Nat.lt_succ_iff_lt_or_eq.mp hj with hlt | heq
      · exact ih h j hlt
      · subst heq; omega

theorem aur_state_array_ne_off {i : Nat} (h0 : 0 < i) (h : i < AUR_NUM_POWER_STATE) :
    aur_state_array.getD i AUR_OFF ≠ AUR_OFF := by
  have h9 : i < 9 := h
  interval_cases i <;> decide

/-- C1. Arbitration (`gxp_pm_get_max_voted_power_state`), for every ledger whose normal-mux
`Off` entry (index 0) holds no votes: if some normal-mux count is nonzero the result is
`aur_state_array[i]` for the largest `i` with `pwr_state_req_count[i] > 0`, with
`low_clkmux = false`, whatever the low-mux table holds; otherwise, if some low-mux count is
nonzero, it is `aur_state_array[i]` for the largest `i` with
`low_clkmux_pwr_state_req_count[i] > 0`, with `low_clkmux = true`; otherwise it is `AUR_OFF`. -/
theorem get_max_voted_power_state_priority (gxp : gxp_dev)
    (hoff : gxp.power_mgr.pwr_state_req_count.getD 0 0 = 0) :
    ((∃ k, k < AUR_NUM_POWER_STATE ∧ 0 < gxp.power_mgr.pwr_state_req_count.getD k 0) →
      ∃ i, i < AUR_NUM_POWER_STATE ∧ 0 < gxp.power_mgr.pwr_state_req_count.getD i 0 ∧
        (∀ j, i < j → j < AUR_NUM_POWER_STATE →
          gxp.power_mgr.pwr_state_req_count.getD j 0 = 0) ∧
        gxp_pm_get_max_voted_power_state gxp = (aur_state_array.getD i AUR_OFF, false)) ∧
    ((∀ k, k < AUR_NUM_POWER_STATE → gxp.power_mgr.pwr_state_req_count.getD k 0 = 0) →
      (∃ k, k < AUR_NUM_POWER_STATE ∧
        0 < gxp.power_mgr.low_clkmux_pwr_state_req_count.getD k 0) →
      ∃ i, i < AUR_NUM_POWER_STATE ∧
        0 < gxp.power_mgr.low_clkmux_pwr_state_req_count.getD i 0 ∧
        (∀ j, i < j → j < AUR_NUM_POWER_STATE →
          gxp.power_mgr.low_clkmux_pwr_state_req_count.getD j 0 = 0) ∧
        gxp_pm_get_max_voted_power_state gxp = (aur_state_array.getD i AUR_OFF, true)) ∧
    ((∀ k, k < AUR_NUM_POWER_STATE → gxp.power_mgr.pwr_state_req_count.getD k 0 = 0) →
      (∀ k, k < AUR_NUM_POWER_STATE →
        gxp.power_mgr.low_clkmux_pwr_state_req_count.getD k 0 = 0) →
      gxp_pm_get_max_voted_power_state gxp = (AUR_OFF, true)) := by
  refine ⟨?_, ?_, ?_⟩
  · rintro ⟨k, hk, hpos⟩
    cases hm : max_voted_index gxp.power_mgr.pwr_state_req_count AUR_NUM_POWER_STATE with
    | none => exact absurd (max_voted_index_none hm k hk) (by omega)
    | some i =>
      obtain ⟨h1, h2, h3⟩ := max_voted_index_some hm
      have hi0 : 0 < i := by
        rcases Nat.eq_zero_or_pos i with h | h
        · subst h; omega
        · exact h
      refine ⟨i, h1, h2, h3, ?_⟩
      simp only [gxp_pm_get_max_voted_power_state, hm]
      rw [if_neg (aur_state_array_ne_off hi0 h1)]
  · rintro hnone ⟨k, hk, hpos⟩
    have hn : max_voted_index gxp.power_mgr.pwr_state_req_count AUR_NUM_POWER_STATE = none := by
      cases hm : max_voted_index gxp.power_mgr.pwr_state_req_count AUR_NUM_POWER_STATE with
      | none => rfl
      | some i =>
        obtain ⟨h1, h2, _⟩ := max_voted_index_some hm
        exact absurd (hnone i h1) (by omega)
    cases hl : max_voted_index gxp.power_mgr.low_clkmux_pwr_state_req_count
        AUR_NUM_POWER_STATE with
    | none => exact absurd (max_voted_index_none hl k hk) (by omega)
    | some i =>
      obtain ⟨h1, h2, h3⟩ := max_voted_index_some hl
      refine ⟨i, h1, h2, h3, ?_⟩
      simp [gxp_pm_get_max_voted_power_state, hn, hl]
  · intro hnone hlnone
    have hn : max_voted_index gxp.power_mgr.pwr_state_req_count AUR_NUM_POWER_STATE = none := by
      cases hm : max_voted_index gxp.power_mgr.pwr_state_req_count AUR_NUM_POWER_STATE with
      | none => rfl
      | some i =>
        obtain ⟨h1, h2, _⟩ := max_voted_index_some hm
        exact absurd (hnone i h1) (by omega)
    have hl : max_voted_index gxp.power_mgr.low_clkmux_pwr_state_req_count
        AUR_NUM_POWER_STATE = none := by
      cases hm : max_voted_index gxp.power_mgr.low_clkmux_pwr_state_req_count
          AUR_NUM_POWER_STATE with
      | none => rfl
      | some i =>
        obtain ⟨h1, h2, _⟩ := max_voted_index_some hm
        exact absurd (hlnone i h1) (by omega)
    simp [gxp_pm_get_max_voted_power_state, hn, hl]

/-- The examples of C1, obtained from `get_max_voted_power_state_priority` at the ledger with
normal-mux counts `{UD: 2, SUD: 1}`: the result is `UD`; with the two `UD` votes revoked it is
`SUD`; with all votes revoked it is `Off`; a lone low-mux `UD` vote gives `(UD, true)`, and
one more normal-mux `SUD` vote gives `(SUD, false)`. -/
theorem get_max_voted_power_state_priority_witness :
    ledger_ud2_sud1.power_mgr.pwr_state_req_count = [0, 0, 0, 0, 1, 0, 2, 0, 0] ∧
    (∃ i, i < AUR_NUM_POWER_STATE ∧ 0 < ledger_ud2_sud1.power_mgr.pwr_state_req_count.getD i 0 ∧
        (∀ j, i < j → j < AUR_NUM_POWER_STATE →
          ledger_ud2_sud1.power_mgr.pwr_state_req_count.getD j 0 = 0) ∧
        gxp_pm_get_max_voted_power_state ledger_ud2_sud1 =
          (aur_state_array.getD i AUR_OFF, false)) ∧
    gxp_pm_get_max_voted_power_state ledger_ud2_sud1 = (AUR_UD, false) ∧
    gxp_pm_get_max_voted_power_state ledger_sud1 = (AUR_SUD, false) ∧
    (gxp_pm_get_max_voted_power_state
      (gxp_pm_revoke_power_state_vote ledger_sud1 AUR_SUD false)).1 = AUR_OFF ∧
    gxp_pm_get_max_voted_power_state ledger_low_ud1 = (AUR_UD, true) ∧
    gxp_pm_get_max_voted_power_state
      (gxp_pm_vote_power_state ledger_low_ud1 AUR_SUD false) = (AUR_SUD, false) :=
  ⟨by decide,
   (get_max_voted_power_state_priority ledger_ud2_sud1 (by decide)).1 ⟨6, by decide, by decide⟩,
   by decide, by decide, by decide, by decide, by decide⟩

/-! ## Vote exchange: properties -/

theorem req_state_locked_ledger (gxp : gxp_dev) (state : Nat) (low : Bool) :
    (gxp_pm_req_state_locked gxp state low).2.ledger = gxp.ledger := by
  simp only [gxp_pm_req_state_locked]
  split_ifs <;> simp [gxp_dev.ledger, gxp_dev.set_mgr, gxp_dev.emit]

theorem req_memory_state_locked_ledger (gxp : gxp_dev) (state : Nat) :
    (gxp_pm_req_memory_state_locked gxp state).2.ledger = gxp.ledger := by
  simp only [gxp_pm_req_memory_state_locked]
  split_ifs <;> simp [gxp_dev.ledger, gxp_dev.set_mgr, gxp_dev.emit]

theorem revoke_memory_ledger_congr {g g' : gxp_dev} (h : g.ledger = g'.ledger) (s : Nat) :
    (gxp_pm_revoke_memory_power_state_vote g s).ledger =
      (gxp_pm_revoke_memory_power_state_vote g' s).ledger := by
  simp only [gxp_dev.ledger, Prod.mk.injEq] at h
  obtain ⟨h1, h2, h3⟩ := h
  simp only [gxp_pm_revoke_memory_power_state_vote]
  split_ifs
  · simp [gxp_dev.ledger, h1, h2, h3]
  · split <;> simp [gxp_dev.ledger, gxp_dev.set_mgr, h1, h2, h3]

theorem vote_memory_ledger_congr {g g' : gxp_dev} (h : g.ledger = g'.ledger) (s : Nat) :
    (gxp_pm_vote_memory_power_state g s).ledger =
      (gxp_pm_vote_memory_power_state g' s).ledger := by
  simp only [gxp_dev.ledger, Prod.mk.injEq] at h
  obtain ⟨h1, h2, h3⟩ := h
  simp only [gxp_pm_vote_memory_power_state]
  split_ifs
  · simp [gxp_dev.ledger, h1, h2, h3]
  · split <;> simp [gxp_dev.ledger, gxp_dev.set_mgr, h1, h2, h3]

theorem update_requested_power_state_ledger (gxp : gxp_dev) (o : Nat) (ol : Bool) (r : Nat)
    (rl : Bool) :
    (gxp_pm_update_requested_power_state gxp o ol r rl).2.ledger =
      (gxp_pm_vote_power_state (gxp_pm_revoke_power_state_vote gxp o ol) r rl).ledger := by
  simp only [gxp_pm_update_requested_power_state]
  exact req_state_locked_ledger _ _ _

theorem update_requested_memory_power_state_ledger (gxp : gxp_dev) (o r : Nat) :
    (gxp_pm_update_requested_memory_power_state gxp o r).2.ledger =
      (gxp_pm_vote_memory_power_state (gxp_pm_revoke_memory_power_state_vote gxp o) r).ledger := by
  simp only [gxp_pm_update_requested_memory_power_state]
  exact req_memory_state_locked_ledger _ _

/-- C2, as stated, fails: with the block off, exchanging `off_states` for the vote
`(UUD, MEM_LOW, normal mux)` returns `-EBUSY` from the power-state part and leaves the memory
table untouched, whereas the four operations of the specification would record the memory
vote. -/
theorem update_requested_power_states_four_operations_counterexample :
    (gxp_pm_update_requested_power_states (gxp_dev_init 4) off_states
        ⟨AUR_UUD, AUR_MEM_LOW, false⟩).1 = -EBUSY ∧
    (gxp_pm_update_requested_power_states (gxp_dev_init 4) off_states
        ⟨AUR_UUD, AUR_MEM_LOW, false⟩).2.power_mgr.mem_pwr_state_req_count =
      [0, 0, 0, 0, 0, 0, 0] ∧
    (cast_vote_four_operations (gxp_dev_init 4) off_states
        ⟨AUR_UUD, AUR_MEM_LOW, false⟩).power_mgr.mem_pwr_state_req_count =
      [0, 0, 0, 1, 0, 0, 0] ∧
    (gxp_pm_update_requested_power_states (gxp_dev_init 4) off_states
        ⟨AUR_UUD, AUR_MEM_LOW, false⟩).2.ledger ≠
      (cast_vote_four_operations (gxp_dev_init 4) off_states
        ⟨AUR_UUD, AUR_MEM_LOW, false⟩).ledger := by
  decide

/-- C2, amended. The vote exchange `gxp_pm_update_requested_power_states(old, new)` revokes
`old.power` and adds `new.power` (each in the table its own `low_clkmux` selects) exactly
when the two votes differ in power state or clock-mux class, and it revokes `old.memory` and
adds `new.memory` exactly when the memory states differ and the power-state part, if it ran,
returned 0; a part that does not run leaves its tables as they were. When both parts run the
ledger is the one the four operations of the specification produce. -/
theorem update_requested_power_states_ledger_effect (gxp : gxp_dev) (old new : gxp_power_states) :
    (gxp_pm_update_requested_power_states gxp old new).2.ledger =
      (let power_differs := old.power ≠ new.power ∨ old.low_clkmux ≠ new.low_clkmux
       let power_ret :=
         if power_differs then
           (gxp_pm_update_requested_power_state gxp old.power old.low_clkmux
             new.power new.low_clkmux).1
         else 0
       let after_power :=
         if power_differs then
           gxp_pm_vote_power_state (gxp_pm_revoke_power_state_vote gxp old.power old.low_clkmux)
             new.power new.low_clkmux
         else gxp
       if power_ret = 0 ∧ old.memory ≠ new.memory then
         (gxp_pm_vote_memory_power_state
           (gxp_pm_revoke_memory_power_state_vote after_power old.memory) new.memory).ledger
       else after_power.ledger) ∧
    ((old.power ≠ new.power ∨ old.low_clkmux ≠ new.low_clkmux) →
      (gxp_pm_update_requested_power_state gxp old.power old.low_clkmux
        new.power new.low_clkmux).1 = 0 →
      old.memory ≠ new.memory →
      (gxp_pm_update_requested_power_states gxp old new).2.ledger =
        (cast_vote_four_operations gxp old new).ledger) := by
  have key : (gxp_pm_update_requested_power_states gxp old new).2.ledger =
      (let power_differs := old.power ≠ new.power ∨ old.low_clkmux ≠ new.low_clkmux
       let power_ret :=
         if power_differs then
           (gxp_pm_update_requested_power_state gxp old.power old.low_clkmux
             new.power new.low_clkmux).1
         else 0
       let after_power :=
         if power_differs then
           gxp_pm_vote_power_state (gxp_pm_revoke_power_state_vote gxp old.power old.low_clkmux)
             new.power new.low_clkmux
         else gxp
       if power_ret = 0 ∧ old.memory ≠ new.memory then
         (gxp_pm_vote_memory_power_state
           (gxp_pm_revoke_memory_power_state_vote after_power old.memory) new.memory).ledger
       else after_power.ledger) := by
    have e1 := update_requested_power_state_ledger gxp old.power old.low_clkmux
      new.power new.low_clkmux
    simp only [gxp_pm_update_requested_power_states]
    by_cases hp : old.power ≠ new.power ∨ old.low_clkmux ≠ new.low_clkmux
    · rw [if_pos hp, if_pos hp, if_pos hp]
      by_cases hr : (gxp_pm_update_requested_power_state gxp old.power old.low_clkmux
          new.power new.low_clkmux).1 = 0
      · rw [if_neg (not_not.mpr hr)]
        by_cases hm : old.memory ≠ new.memory
        · rw [if_pos hm, if_pos ⟨hr, hm⟩, update_requested_memory_power_state_ledger]
          exact vote_memory_ledger_congr (revoke_memory_ledger_congr e1 _) _
        · rw [if_neg hm, if_neg (fun h => hm h.2)]
          exact e1
      · rw [if_pos hr, if_neg (fun h => hr h.1)]
        exact e1
    · rw [if_neg hp, if_neg hp, if_neg hp]
      have h0 : ¬ ((0 : Int) ≠ 0) := by simp
      rw [if_neg h0]
      by_cases hm : old.memory ≠ new.memory
      · rw [if_pos hm, if_pos ⟨rfl, hm⟩]
        exact update_requested_memory_power_state_ledger _ _ _
      · rw [if_neg hm, if_neg (fun h => hm h.2)]
  refine ⟨key, fun hp hr hm => ?_⟩
  rw [key]
  simp only [cast_vote_four_operations]
  rw [if_pos hp, if_pos hp, if_pos ⟨hr, hm⟩]

/-- An instance of `update_requested_power_states_ledger_effect`: with the block on, a first
vote `(UD, MEM_HIGH, low mux)` traded for `off_states` differs in both dimensions and its
power-state part returns 0, so the ledger is the one the four operations produce: one low-mux
`UD` vote and one `MEM_HIGH` vote. -/
theorem update_requested_power_states_ledger_effect_witness :
    (gxp_pm_update_requested_power_state dev_on off_states.power off_states.low_clkmux
      AUR_UD true).1 = 0 ∧
    (cast_vote_four_operations dev_on off_states ⟨AUR_UD, AUR_MEM_HIGH, true⟩).ledger =
      ([0, 0, 0, 0, 0, 0, 0, 0, 0], [0, 0, 0, 0, 0, 0, 1, 0, 0], [0, 0, 0, 0, 1, 0, 0]) ∧
    (gxp_pm_update_requested_power_states dev_on off_states
        ⟨AUR_UD, AUR_MEM_HIGH, true⟩).2.ledger =
      (cast_vote_four_operations dev_on off_states ⟨AUR_UD, AUR_MEM_HIGH, true⟩).ledger :=
  ⟨by decide, by decide,
   (update_requested_power_states_ledger_effect dev_on off_states
      ⟨AUR_UD, AUR_MEM_HIGH, true⟩).2 (by decide) (by decide) (by decide)⟩

/-! ## Applied target: properties -/

theorem revoke_power_state_vote_frame (g : gxp_dev) (s : Nat) (l : Bool) :
    ∃ a b, gxp_pm_revoke_power_state_vote g s l =
      { g with power_mgr := { g.power_mgr with
          pwr_state_req_count := a, low_clkmux_pwr_state_req_count := b } } := by
  simp only [gxp_pm_revoke_power_state_vote]
  split_ifs
  · exact ⟨_, _, rfl⟩
  · split
    · cases l <;>
        simp only [gxp_dev.set_mgr, gxp_power_manager.set_req_count, Bool.not_false,
          Bool.not_true, if_true, if_false] <;> exact ⟨_, _, rfl⟩
    · exact ⟨_, _, rfl⟩

theorem vote_power_state_frame (g : gxp_dev) (s : Nat) (l : Bool) :
    ∃ a b, gxp_pm_vote_power_state g s l =
      { g with power_mgr := { g.power_mgr with
          pwr_state_req_count := a, low_clkmux_pwr_state_req_count := b } } := by
  simp only [gxp_pm_vote_power_state]
  split_ifs
  · exact ⟨_, _, rfl⟩
  · split
    · cases l <;>
        simp only [gxp_dev.set_mgr, gxp_power_manager.set_req_count, Bool.not_false,
          Bool.not_true, if_true, if_false] <;> exact ⟨_, _, rfl⟩
    · exact ⟨_, _, rfl⟩

theorem get_max_voted_power_state_congr {g g' : gxp_dev} (h : g.ledger = g'.ledger) :
    gxp_pm_get_max_voted_power_state g = gxp_pm_get_max_voted_power_state g' := by
  simp only [gxp_dev.ledger, Prod.mk.injEq] at h
  simp only [gxp_pm_get_max_voted_power_state, h.1, h.2.1]

theorem req_state_locked_applied (g : gxp_dev) (s : Nat) (l : Bool)
    (hon : g.power_mgr.curr_state ≠ AUR_OFF) (hret : (gxp_pm_req_state_locked g s l).1 = 0) :
    (s ≠ AUR_OFF →
      (gxp_pm_req_state_locked g s l).2.power_mgr.curr_state = s ∧
      (gxp_pm_req_state_locked g s l).2.power_mgr.last_scheduled_low_clkmux = l) ∧
    (s = AUR_OFF → (gxp_pm_req_state_locked g s l).2 = g) ∧
    (∃ q, (gxp_pm_req_state_locked g s l).2.trace = g.trace ++ q ∧
      ∀ op, op ∈ q → ∃ i, op = hw_op.queue_set_acpm_state_work i) := by
  by_cases h1 : s > AUR_MAX_ALLOW_STATE
  · simp [gxp_pm_req_state_locked, h1, EINVAL] at hret
  by_cases h3 : s = AUR_OFF
  · have h1' : ¬ AUR_OFF > AUR_MAX_ALLOW_STATE := by decide
    subst h3
    simp [gxp_pm_req_state_locked, h1', hon]
  by_cases h4 : s ≠ g.power_mgr.curr_state ∨ l ≠ g.power_mgr.last_scheduled_low_clkmux
  · simp only [gxp_pm_req_state_locked, if_neg h1, if_neg hon, if_neg h3, if_pos h4]
    refine ⟨fun _ => ⟨rfl, rfl⟩, fun h => absurd h h3, ?_⟩
    split_ifs
    · exact ⟨[_], rfl, fun op hop => ⟨_, List.mem_singleton.mp hop⟩⟩
    · exact ⟨[], by simp [gxp_dev.set_mgr], by simp⟩
    · exact ⟨[_], rfl, fun op hop => ⟨_, List.mem_singleton.mp hop⟩⟩
    · exact ⟨[], by simp [gxp_dev.set_mgr], by simp⟩
  · simp only [gxp_pm_req_state_locked, if_neg h1, if_neg hon, if_neg h3, if_neg h4]
    refine ⟨fun _ => ?_, fun h => absurd h h3, [], by simp, by simp⟩
    simp only [not_or, not_not] at h4
    exact ⟨h4.1.symm, h4.2.symm⟩

/-- C3, as stated, fails: with the block on and a single normal-mux `UD` vote applied,
revoking that vote succeeds, the arbiter over the updated ledger returns `AUR_OFF`, and
`curr_state` still reads `UD`. -/
theorem update_requested_power_state_applied_counterexample :
    dev_on_ud.power_mgr.curr_state = AUR_UD ∧
    (gxp_pm_update_requested_power_state dev_on_ud AUR_UD false AUR_OFF false).1 = 0 ∧
    gxp_pm_get_max_voted_power_state
      (gxp_pm_update_requested_power_state dev_on_ud AUR_UD false AUR_OFF false).2 =
        (AUR_OFF, true) ∧
    (gxp_pm_update_requested_power_state dev_on_ud AUR_UD false AUR_OFF false).2.power_mgr.curr_state
      = AUR_UD ∧
    (gxp_pm_update_requested_power_state dev_on_ud AUR_UD false AUR_OFF false).2.power_mgr.curr_state
      ≠ (gxp_pm_get_max_voted_power_state
          (gxp_pm_update_requested_power_state dev_on_ud AUR_UD false AUR_OFF false).2).1 := by
  decide

/-- C3, amended. For every power-vote exchange (`gxp_pm_update_requested_power_state`) that
returns 0 while the block is on: when the arbiter's output over the updated ledger is not
`AUR_OFF`, on return `curr_state` equals that output and `last_scheduled_low_clkmux` equals
its flag; when the output is `AUR_OFF` both fields keep the values they had before the
exchange. In either case the exchange itself makes no hardware write: all it adds to the
calls made is at most the queueing of a slot. -/
theorem update_requested_power_state_applied (gxp : gxp_dev) (o : Nat) (ol : Bool) (r : Nat)
    (rl : Bool) (hon : gxp.power_mgr.curr_state ≠ AUR_OFF)
    (hret : (gxp_pm_update_requested_power_state gxp o ol r rl).1 = 0) :
    ((gxp_pm_get_max_voted_power_state
        (gxp_pm_update_requested_power_state gxp o ol r rl).2).1 ≠ AUR_OFF →
      (gxp_pm_update_requested_power_state gxp o ol r rl).2.power_mgr.curr_state =
        (gxp_pm_get_max_voted_power_state
          (gxp_pm_update_requested_power_state gxp o ol r rl).2).1 ∧
      (gxp_pm_update_requested_power_state gxp o ol r rl).2.power_mgr.last_scheduled_low_clkmux =
        (gxp_pm_get_max_voted_power_state
          (gxp_pm_update_requested_power_state gxp o ol r rl).2).2) ∧
    ((gxp_pm_get_max_voted_power_state
        (gxp_pm_update_requested_power_state gxp o ol r rl).2).1 = AUR_OFF →
      (gxp_pm_update_requested_power_state gxp o ol r rl).2.power_mgr.curr_state =
        gxp.power_mgr.curr_state ∧
      (gxp_pm_update_requested_power_state gxp o ol r rl).2.power_mgr.last_scheduled_low_clkmux =
        gxp.power_mgr.last_scheduled_low_clkmux) ∧
    (∃ q, (gxp_pm_update_requested_power_state gxp o ol r rl).2.trace = gxp.trace ++ q ∧
      ∀ op, op ∈ q → ∃ i, op = hw_op.queue_set_acpm_state_work i) := by
  have hmax := get_max_voted_power_state_congr
    (update_requested_power_state_ledger gxp o ol r rl)
  rw [hmax]
  obtain ⟨a, b, hrev⟩ := revoke_power_state_vote_frame gxp o ol
  obtain ⟨c, d, hvote⟩ := vote_power_state_frame (gxp_pm_revoke_power_state_vote gxp o ol) r rl
  have hg2 : (gxp_pm_vote_power_state (gxp_pm_revoke_power_state_vote gxp o ol) r rl) =
      { gxp with power_mgr := { gxp.power_mgr with
          pwr_state_req_count := c, low_clkmux_pwr_state_req_count := d } } := by
    rw [hvote, hrev]
  have hon2 : (gxp_pm_vote_power_state
      (gxp_pm_revoke_power_state_vote gxp o ol) r rl).power_mgr.curr_state ≠ AUR_OFF := by
    rw [hg2]; exact hon
  simp only [gxp_pm_update_requested_power_state] at hret ⊢
  obtain ⟨p1, p2, p3⟩ := req_state_locked_applied _ _ _ hon2 hret
  refine ⟨p1, fun hoff => ?_, ?_⟩
  · rw [p2 hoff, hg2]
    exact ⟨rfl, rfl⟩
  · obtain ⟨q, hq, hops⟩ := p3
    refine ⟨q, ?_, hops⟩
    rw [hq, hg2]

/-- An instance of `update_requested_power_state_applied`: on `dev_on` (block on, `UUD`
applied) the first `UD` vote succeeds and `curr_state` reads `UD` at once, with the slot only
queued. -/
theorem update_requested_power_state_applied_witness :
    dev_on.power_mgr.curr_state ≠ AUR_OFF ∧
    (gxp_pm_update_requested_power_state dev_on AUR_OFF false AUR_UD false).1 = 0 ∧
    (gxp_pm_get_max_voted_power_state dev_on_ud = (AUR_UD, false)) ∧
    ((gxp_pm_get_max_voted_power_state
        (gxp_pm_update_requested_power_state dev_on AUR_OFF false AUR_UD false).2).1 ≠ AUR_OFF →
      (gxp_pm_update_requested_power_state dev_on AUR_OFF false AUR_UD false).2.power_mgr.curr_state
        = (gxp_pm_get_max_voted_power_state
          (gxp_pm_update_requested_power_state dev_on AUR_OFF false AUR_UD false).2).1 ∧
      (gxp_pm_update_requested_power_state dev_on AUR_OFF false AUR_UD
          false).2.power_mgr.last_scheduled_low_clkmux =
        (gxp_pm_get_max_voted_power_state
          (gxp_pm_update_requested_power_state dev_on AUR_OFF false AUR_UD false).2).2) :=
  ⟨by decide, by decide, by decide,
   (update_requested_power_state_applied dev_on AUR_OFF false AUR_UD false
      (by decide) (by decide)).1⟩

/-! ## Requests while the block is off -/

theorem revoke_memory_power_state_vote_frame (g : gxp_dev) (s : Nat) :
    ∃ a, gxp_pm_revoke_memory_power_state_vote g s =
      { g with power_mgr := { g.power_mgr with mem_pwr_state_req_count := a } } := by
  simp only [gxp_pm_revoke_memory_power_state_vote]
  split_ifs
  · exact ⟨_, rfl⟩
  · split
    · exact ⟨_, rfl⟩
    · exact ⟨_, rfl⟩

theorem vote_memory_power_state_frame (g : gxp_dev) (s : Nat) :
    ∃ a, gxp_pm_vote_memory_power_state g s =
      { g with power_mgr := { g.power_mgr with mem_pwr_state_req_count := a } } := by
  simp only [gxp_pm_vote_memory_power_state]
  split_ifs
  · exact ⟨_, rfl⟩
  · split
    · exact ⟨_, rfl⟩
    · exact ⟨_, rfl⟩

theorem get_max_voted_power_state_le (g : gxp_dev) :
    (gxp_pm_get_max_voted_power_state g).1 ≤ AUR_MAX_ALLOW_STATE := by
  have harr : ∀ i, i < AUR_NUM_POWER_STATE →
      aur_state_array.getD i AUR_OFF ≤ AUR_MAX_ALLOW_STATE := by
    intro i hi
    have h9 : i < 9 := hi
    interval_cases i <;> decide
  simp only [gxp_pm_get_max_voted_power_state]
  split_ifs with h
  · split
    · rename_i i hi
      exact harr i (max_voted_index_some hi).1
    · decide
  · split at h
    · rename_i i hi
      exact harr _ (max_voted_index_some hi).1
    · exact absurd rfl h

theorem get_max_voted_memory_power_state_le (g : gxp_dev) :
    gxp_pm_get_max_voted_memory_power_state g ≤ AUR_MAX_ALLOW_MEMORY_STATE := by
  simp only [gxp_pm_get_max_voted_memory_power_state]
  split
  · rename_i i hi
    have h7 : i < 7 := (max_voted_index_some hi).1
    interval_cases i <;> decide
  · decide

theorem req_state_locked_off (g : gxp_dev) (hoff : g.power_mgr.curr_state = AUR_OFF)
    (s : Nat) (l : Bool) (hs : s ≤ AUR_MAX_ALLOW_STATE) :
    gxp_pm_req_state_locked g s l = (-EBUSY, g) := by
  simp only [gxp_pm_req_state_locked]
  rw [if_neg (Nat.not_lt.mpr hs), if_pos hoff]

theorem req_memory_state_locked_off (g : gxp_dev) (hoff : g.power_mgr.curr_state = AUR_OFF)
    (s : Nat) (hs : s ≤ AUR_MAX_ALLOW_MEMORY_STATE) :
    gxp_pm_req_memory_state_locked g s = (-EBUSY, g) := by
  simp only [gxp_pm_req_memory_state_locked]
  rw [if_neg (Nat.not_lt.mpr hs), if_pos hoff]

theorem update_requested_power_state_off (g : gxp_dev)
    (hoff : g.power_mgr.curr_state = AUR_OFF) (o : Nat) (ol : Bool) (r : Nat) (rl : Bool) :
    (gxp_pm_update_requested_power_state g o ol r rl).1 = -EBUSY := by
  obtain ⟨a, b, hrev⟩ := revoke_power_state_vote_frame g o ol
  obtain ⟨c, d, hvote⟩ := vote_power_state_frame (gxp_pm_revoke_power_state_vote g o ol) r rl
  have hoff2 : (gxp_pm_vote_power_state
      (gxp_pm_revoke_power_state_vote g o ol) r rl).power_mgr.curr_state = AUR_OFF := by
    rw [hvote, hrev]; exact hoff
  simp only [gxp_pm_update_requested_power_state]
  rw [req_state_locked_off _ hoff2 _ _ (get_max_voted_power_state_le _)]

theorem update_requested_memory_power_state_off (g : gxp_dev)
    (hoff : g.power_mgr.curr_state = AUR_OFF) (o r : Nat) :
    (gxp_pm_update_requested_memory_power_state g o r).1 = -EBUSY := by
  obtain ⟨a, hrev⟩ := revoke_memory_power_state_vote_frame g o
  obtain ⟨c, hvote⟩ :=
    vote_memory_power_state_frame (gxp_pm_revoke_memory_power_state_vote g o) r
  have hoff2 : (gxp_pm_vote_memory_power_state
      (gxp_pm_revoke_memory_power_state_vote g o) r).power_mgr.curr_state = AUR_OFF := by
    rw [hvote, hrev]; exact hoff
  simp only [gxp_pm_update_requested_memory_power_state]
  rw [req_memory_state_locked_off _ hoff2 _ (get_max_voted_memory_power_state_le _)]

/-- C4. While the block is off (`curr_state == AUR_OFF`), every power-state request and every
memory-state request with an in-range state returns `-EBUSY` and leaves the whole device as
it was: no slot claimed, no work queued, `curr_state`, `curr_memory_state`,
`last_scheduled_low_clkmux` and the last-worker indices unchanged. The enclosing exchanges
(`gxp_pm_update_requested_power_state`, `gxp_pm_update_requested_memory_power_state`, and
`gxp_pm_update_requested_power_states` whenever the two votes differ, which is when it makes a
request) return that error. -/
theorem requests_rejected_while_off (gxp : gxp_dev)
    (hoff : gxp.power_mgr.curr_state = AUR_OFF) :
    (∀ state low, state ≤ AUR_MAX_ALLOW_STATE →
      gxp_pm_req_state_locked gxp state low = (-EBUSY, gxp)) ∧
    (∀ state, state ≤ AUR_MAX_ALLOW_MEMORY_STATE →
      gxp_pm_req_memory_state_locked gxp state = (-EBUSY, gxp)) ∧
    (∀ o ol r rl, (gxp_pm_update_requested_power_state gxp o ol r rl).1 = -EBUSY) ∧
    (∀ o r, (gxp_pm_update_requested_memory_power_state gxp o r).1 = -EBUSY) ∧
    (∀ old new : gxp_power_states,
      (old.power ≠ new.power ∨ old.low_clkmux ≠ new.low_clkmux ∨ old.memory ≠ new.memory) →
      (gxp_pm_update_requested_power_states gxp old new).1 = -EBUSY) := by
  refine ⟨fun s l hs => req_state_locked_off gxp hoff s l hs,
    fun s hs => req_memory_state_locked_off gxp hoff s hs,
    fun o ol r rl => update_requested_power_state_off gxp hoff o ol r rl,
    fun o r => update_requested_memory_power_state_off gxp hoff o r, ?_⟩
  intro old new hdiff
  have hbusy : (-EBUSY : Int) ≠ 0 := by decide
  simp only [gxp_pm_update_requested_power_states]
  by_cases hp : old.power ≠ new.power ∨ old.low_clkmux ≠ new.low_clkmux
  · have e := update_requested_power_state_off gxp hoff old.power old.low_clkmux
      new.power new.low_clkmux
    rw [if_pos hp, if_pos (by rw [e]; exact hbusy)]
    exact e
  · have hm : old.memory ≠ new.memory := by
      rcases hdiff with h | h | h
      · exact absurd (Or.inl h) hp
      · exact absurd (Or.inr h) hp
      · exact h
    have h0 : ¬ ((0 : Int) ≠ 0) := by simp
    rw [if_neg hp, if_neg h0, if_pos hm]
    exact update_requested_memory_power_state_off gxp hoff _ _

/-- An instance of `requests_rejected_while_off` on a device fresh from `gxp_pm_init`, whose
block is off: a request for `UD` is rejected with `-EBUSY` and changes nothing. -/
theorem requests_rejected_while_off_witness :
    (gxp_dev_init 4).power_mgr.curr_state = AUR_OFF ∧
    gxp_pm_req_state_locked (gxp_dev_init 4) AUR_UD false = (-EBUSY, gxp_dev_init 4) ∧
    gxp_pm_req_memory_state_locked (gxp_dev_init 4) AUR_MEM_HIGH = (-EBUSY, gxp_dev_init 4) ∧
    (gxp_pm_update_requested_power_states (gxp_dev_init 4) off_states uud_states).1 = -EBUSY :=
  ⟨by decide,
   (requests_rejected_while_off (gxp_dev_init 4) (by decide)).1 AUR_UD false (by decide),
   (requests_rejected_while_off (gxp_dev_init 4) (by decide)).2.1 AUR_MEM_HIGH (by decide),
   (requests_rejected_while_off (gxp_dev_init 4) (by decide)).2.2.2.2 off_states uud_states
      (by decide)⟩

/-! ## Ledger: properties -/

theorem find_state_index_some {arr : List Nat} {x k i0 i : Nat}
    (h : find_state_index arr x k i0 = some i) :
    i0 ≤ i ∧ i < i0 + k ∧ arr.getD i 0 = x := by
  induction k generalizing i0 with
  | zero => simp [find_state_index] at h
  | succ k ih =>
    simp only [find_state_index] at h
    split_ifs at h with hx
    · cases h
      exact ⟨Nat.le_refl _, by omega, hx⟩
    · obtain ⟨h1, h2, h3⟩ := ih h
      exact ⟨by omega, by omega, h3⟩

theorem set_req_count_req_count (mgr : gxp_power_manager) (low : Bool) :
    mgr.set_req_count low (mgr.req_count low) = mgr := by
  cases low <;> simp [gxp_power_manager.set_req_count, gxp_power_manager.req_count]

theorem revoke_count_zero {counts : List Nat} {i : Nat} (h : counts.getD i 0 = 0) :
    revoke_count counts i = counts := by
  unfold revoke_count
  rw [if_pos h]

/-- C5. Revoking a vote whose counter is already zero changes nothing: for every device,
state and clock-mux class, if the counter of that state in the selected table is zero then
`gxp_pm_revoke_power_state_vote` returns the device unchanged, so the counter stays zero (it
does not wrap to `UINT_MAX`) and every other counter keeps its value; likewise
`gxp_pm_revoke_memory_power_state_vote` on the memory table. -/
theorem revoke_zero_count_unchanged (gxp : gxp_dev) :
    (∀ (s : Nat) (low : Bool),
      (∀ i, i < AUR_NUM_POWER_STATE → aur_state_array.getD i 0 = s →
        (gxp.power_mgr.req_count low).getD i 0 = 0) →
      gxp_pm_revoke_power_state_vote gxp s low = gxp) ∧
    (∀ s : Nat,
      (∀ i, i < AUR_NUM_MEMORY_POWER_STATE → aur_memory_state_array.getD i 0 = s →
        gxp.power_mgr.mem_pwr_state_req_count.getD i 0 = 0) →
      gxp_pm_revoke_memory_power_state_vote gxp s = gxp) := by
  constructor
  · intro s low hz
    simp only [gxp_pm_revoke_power_state_vote]
    split_ifs
    · rfl
    · split
      · rename_i i hi
        obtain ⟨_, h2, h3⟩ := find_state_index_some hi
        rw [revoke_count_zero (hz i (by omega) h3), set_req_count_req_count]
        rfl
      · rfl
  · intro s hz
    simp only [gxp_pm_revoke_memory_power_state_vote]
    split_ifs
    · rfl
    · split
      · rename_i i hi
        obtain ⟨_, h2, h3⟩ := find_state_index_some hi
        rw [revoke_count_zero (hz i (by omega) h3)]
        rfl
      · rfl

/-- An instance of `revoke_zero_count_unchanged`: in the ledger with normal-mux counts
`{UD: 2, SUD: 1}` the `NOM` counter and every low-mux and memory counter is zero; revoking a
normal-mux `NOM` vote, a low-mux `UD` vote or a `MEM_HIGH` vote leaves the device as it was. -/
theorem revoke_zero_count_unchanged_witness :
    ledger_ud2_sud1.ledger =
      ([0, 0, 0, 0, 1, 0, 2, 0, 0], [0, 0, 0, 0, 0, 0, 0, 0, 0], [0, 0, 0, 0, 0, 0, 0]) ∧
    gxp_pm_revoke_power_state_vote ledger_ud2_sud1 AUR_NOM false = ledger_ud2_sud1 ∧
    gxp_pm_revoke_power_state_vote ledger_ud2_sud1 AUR_UD true = ledger_ud2_sud1 ∧
    gxp_pm_revoke_memory_power_state_vote ledger_ud2_sud1 AUR_MEM_HIGH = ledger_ud2_sud1 :=
  ⟨by decide,
   (revoke_zero_count_unchanged ledger_ud2_sud1).1 AUR_NOM false (by decide),
   (revoke_zero_count_unchanged ledger_ud2_sud1).1 AUR_UD true (by decide),
   (revoke_zero_count_unchanged ledger_ud2_sud1).2 AUR_MEM_HIGH (by decide)⟩

/-- C7. The sentinels are no-ops on the ledger: for every device, revoking or adding
`AUR_OFF` in either clock-mux class returns the device unchanged (both power tables keep
their contents), and revoking or adding `AUR_MEM_UNDEFINED` returns it unchanged (the memory
table keeps its contents). -/
theorem sentinel_vote_unchanged (gxp : gxp_dev) (low : Bool) :
    gxp_pm_revoke_power_state_vote gxp AUR_OFF low = gxp ∧
    gxp_pm_vote_power_state gxp AUR_OFF low = gxp ∧
    gxp_pm_revoke_memory_power_state_vote gxp AUR_MEM_UNDEFINED = gxp ∧
    gxp_pm_vote_memory_power_state gxp AUR_MEM_UNDEFINED = gxp := by
  refine ⟨?_, ?_, ?_, ?_⟩
  · simp [gxp_pm_revoke_power_state_vote]
  · simp [gxp_pm_vote_power_state]
  · simp [gxp_pm_revoke_memory_power_state_vote]
  · simp [gxp_pm_vote_memory_power_state]

/-! ## Ledger counts over sequences of exchanges -/

theorem aur_state_array_injective {i j : Nat} (hi : i < AUR_NUM_POWER_STATE)
    (hj : j < AUR_NUM_POWER_STATE) (h : aur_state_array.getD i 0 = aur_state_array.getD j 0) :
    i = j := by
  have hi9 : i < 9 := hi
  have hj9 : j < 9 := hj
  interval_cases i <;> interval_cases j <;> first | rfl | (exfalso; revert h; decide)

theorem find_state_index_none {arr : List Nat} {x k i0 : Nat}
    (h : find_state_index arr x k i0 = none) :
    ∀ i, i0 ≤ i → i < i0 + k → arr.getD i 0 ≠ x := by
  induction k generalizing i0 with
  | zero => intro i h1 h2; omega
  | succ k ih =>
    simp only [find_state_index] at h
    split_ifs at h with hx
    intro i h1 h2
    rcases Nat.eq_or_lt_of_le h1 with heq | hlt
    · subst heq; exact hx
    · exact ih h i hlt (by omega)

theorem find_state_index_aur {s i : Nat} (hi : i < AUR_NUM_POWER_STATE)
    (h : aur_state_array.getD i 0 = s) :
    find_state_index aur_state_array s AUR_NUM_POWER_STATE 0 = some i := by
  cases hf : find_state_index aur_state_array s AUR_NUM_POWER_STATE 0 with
  | none => exact absurd h (find_state_index_none hf i (Nat.zero_le _) (by omega))
  | some j =>
    obtain ⟨_, h2, h3⟩ := find_state_index_some hf
    rw [aur_state_array_injective (by omega) hi (h3.trans h.symm)]

theorem req_count_set_req_count (mgr : gxp_power_manager) (l low : Bool) (t : List Nat) :
    (mgr.set_req_count l t).req_count low = if l = low then t else mgr.req_count low := by
  cases l <;> cases low <;>
    simp [gxp_power_manager.set_req_count, gxp_power_manager.req_count]

theorem getD_set_zero (t : List Nat) (j i v : Nat) (hj : j < t.length) :
    (t.set j v).getD i 0 = if j = i then v else t.getD i 0 := by
  simp only [List.getD_eq_getElem?_getD, List.getElem?_set]
  split_ifs <;> simp

theorem aur_state_array_zero_iff {i : Nat} (hi : i < AUR_NUM_POWER_STATE) :
    aur_state_array.getD i 0 = AUR_OFF ↔ i = 0 := by
  have hi9 : i < 9 := hi
  interval_cases i <;> decide

theorem revoke_power_counter (g : gxp_dev) (s : Nat) (l low : Bool) (i : Nat)
    (hi : i < AUR_NUM_POWER_STATE) (hi0 : 0 < i) :
    ((gxp_pm_revoke_power_state_vote g s l).power_mgr.req_count low).getD i 0 =
      if aur_state_array.getD i 0 = s ∧ l = low then
        (if (g.power_mgr.req_count low).getD i 0 = 0 then (g.power_mgr.req_count low).getD i 0
          else (g.power_mgr.req_count low).getD i 0 - 1)
      else (g.power_mgr.req_count low).getD i 0 := by
  have hne : aur_state_array.getD i 0 ≠ AUR_OFF := fun h =>
    absurd ((aur_state_array_zero_iff hi).mp h) (by omega)
  by_cases hs0 : s = AUR_OFF
  · have hc : ¬ (aur_state_array.getD i 0 = s ∧ l = low) := fun h => hne (h.1.trans hs0)
    rw [if_neg hc]
    simp only [gxp_pm_revoke_power_state_vote, if_pos hs0]
  · simp only [gxp_pm_revoke_power_state_vote, if_neg hs0]
    by_cases hc : aur_state_array.getD i 0 = s ∧ l = low
    · rw [if_pos hc]
      obtain ⟨hs, hl⟩ := hc
      subst hl
      rw [find_state_index_aur hi hs]
      simp only [gxp_dev.set_mgr, req_count_set_req_count, if_true, revoke_count]
      by_cases h3 : (g.power_mgr.req_count l).getD i 0 = 0
      · rw [if_pos h3, if_pos h3]
      · rw [if_neg h3, if_neg h3]
        have hlen : i < (g.power_mgr.req_count l).length := by
          by_contra hc
          apply h3
          rw [List.getD_eq_default _ _ (Nat.le_of_not_lt hc)]
        rw [getD_set_zero _ _ _ _ hlen, if_pos rfl]
    · rw [if_neg hc]
      split
      · rename_i j hj
        obtain ⟨_, hj2, hj3⟩ := find_state_index_some hj
        simp only [gxp_dev.set_mgr, req_count_set_req_count]
        by_cases hl : l = low
        · rw [if_pos hl]
          have hji : j ≠ i := by
            intro hji
            subst hji
            exact hc ⟨hj3, hl⟩
          subst hl
          simp only [revoke_count]
          by_cases hz : (g.power_mgr.req_count l).getD j 0 = 0
          · rw [if_pos hz]
          · rw [if_neg hz]
            have hlen : j < (g.power_mgr.req_count l).length := by
              by_contra hc
              apply hz
              rw [List.getD_eq_default _ _ (Nat.le_of_not_lt hc)]
            rw [getD_set_zero _ _ _ _ hlen, if_neg hji]
        · rw [if_neg hl]
      · rfl

theorem vote_power_counter (g : gxp_dev) (s : Nat) (l low : Bool) (i : Nat)
    (hi : i < AUR_NUM_POWER_STATE) (hi0 : 0 < i)
    (hlen : i < (g.power_mgr.req_count low).length) :
    ((gxp_pm_vote_power_state g s l).power_mgr.req_count low).getD i 0 =
      if aur_state_array.getD i 0 = s ∧ l = low then
        ((g.power_mgr.req_count low).getD i 0 + 1) % UINT_MOD
      else (g.power_mgr.req_count low).getD i 0 := by
  have hne : aur_state_array.getD i 0 ≠ AUR_OFF := fun h =>
    absurd ((aur_state_array_zero_iff hi).mp h) (by omega)
  by_cases hs0 : s = AUR_OFF
  · have hc : ¬ (aur_state_array.getD i 0 = s ∧ l = low) := fun h => hne (h.1.trans hs0)
    rw [if_neg hc]
    simp only [gxp_pm_vote_power_state, if_pos hs0]
  · simp only [gxp_pm_vote_power_state, if_neg hs0]
    by_cases hc : aur_state_array.getD i 0 = s ∧ l = low
    · rw [if_pos hc]
      obtain ⟨hs, hl⟩ := hc
      subst hl
      rw [find_state_index_aur hi hs]
      simp only [gxp_dev.set_mgr, req_count_set_req_count, if_true, vote_count]
      rw [getD_set_zero _ _ _ _ hlen, if_pos rfl]
    · rw [if_neg hc]
      split
      · rename_i j hj
        obtain ⟨_, hj2, hj3⟩ := find_state_index_some hj
        simp only [gxp_dev.set_mgr, req_count_set_req_count]
        by_cases hl : l = low
        · rw [if_pos hl]
          have hji : j ≠ i := by
            intro hji
            subst hji
            exact hc ⟨hj3, hl⟩
          subst hl
          simp only [vote_count]
          by_cases hjl : j < (g.power_mgr.req_count l).length
          · rw [getD_set_zero _ _ _ _ hjl, if_neg hji]
          · rw [List.set_eq_of_length_le (Nat.le_of_not_lt hjl)]
        · rw [if_neg hl]
      · rfl

theorem revoke_power_length (g : gxp_dev) (s : Nat) (l low : Bool) :
    ((gxp_pm_revoke_power_state_vote g s l).power_mgr.req_count low).length =
      (g.power_mgr.req_count low).length := by
  simp only [gxp_pm_revoke_power_state_vote]
  split_ifs
  · rfl
  · split
    · simp only [gxp_dev.set_mgr, req_count_set_req_count, revoke_count]
      by_cases hl : l = low
      · subst hl
        rw [if_pos rfl]
        split_ifs <;> simp
      · rw [if_neg hl]
    · rfl

theorem vote_power_length (g : gxp_dev) (s : Nat) (l low : Bool) :
    ((gxp_pm_vote_power_state g s l).power_mgr.req_count low).length =
      (g.power_mgr.req_count low).length := by
  simp only [gxp_pm_vote_power_state]
  split_ifs
  · rfl
  · split
    · simp only [gxp_dev.set_mgr, req_count_set_req_count, vote_count]
      by_cases hl : l = low
      · subst hl
        rw [if_pos rfl]
        simp
      · rw [if_neg hl]
    · rfl

theorem req_count_of_ledger {g g' : gxp_dev} (h : g.ledger = g'.ledger) (low : Bool) :
    g.power_mgr.req_count low = g'.power_mgr.req_count low := by
  simp only [gxp_dev.ledger, Prod.mk.injEq] at h
  simp only [gxp_power_manager.req_count, h.1, h.2.1]

theorem exchange_counter (g : gxp_dev) (x : power_exchange) (low : Bool) (i : Nat)
    (hi : i < AUR_NUM_POWER_STATE) (hi0 : 0 < i)
    (hlen : i < (g.power_mgr.req_count low).length) :
    (((gxp_pm_update_requested_power_state g x.origin_state x.origin_requested_low_clkmux
        x.requested_state x.requested_low_clkmux).2.power_mgr.req_count low).getD i 0 =
      counter_after_exchange ((g.power_mgr.req_count low).getD i 0)
        (decide (x.origin_state = aur_state_array.getD i 0 ∧
          x.origin_requested_low_clkmux = low))
        (decide (x.requested_state = aur_state_array.getD i 0 ∧
          x.requested_low_clkmux = low))) ∧
    ((gxp_pm_update_requested_power_state g x.origin_state x.origin_requested_low_clkmux
        x.requested_state x.requested_low_clkmux).2.power_mgr.req_count low).length =
      (g.power_mgr.req_count low).length := by
  rw [req_count_of_ledger (update_requested_power_state_ledger _ _ _ _ _) low]
  refine ⟨?_, by rw [vote_power_length, revoke_power_length]⟩
  rw [vote_power_counter _ _ _ _ _ hi hi0 (by rw [revoke_power_length]; exact hlen),
    revoke_power_counter _ _ _ _ _ hi hi0]
  simp only [counter_after_exchange, decide_eq_true_eq]
  have e1 : (aur_state_array.getD i 0 = x.origin_state ∧ x.origin_requested_low_clkmux = low) ↔
      (x.origin_state = aur_state_array.getD i 0 ∧ x.origin_requested_low_clkmux = low) :=
    and_congr_left fun _ => eq_comm
  have e2 : (aur_state_array.getD i 0 = x.requested_state ∧ x.requested_low_clkmux = low) ↔
      (x.requested_state = aur_state_array.getD i 0 ∧ x.requested_low_clkmux = low) :=
    and_congr_left fun _ => eq_comm
  simp only [e1, e2]

theorem counter_after_exchange_bounds (c : Nat) (rev add : Bool) (hc : c + 1 < UINT_MOD) :
    counter_after_exchange c rev add ≤ c + (if add then 1 else 0) ∧
    c + (if add then 1 else 0) ≤ counter_after_exchange c rev add + (if rev then 1 else 0) ∧
    ((rev = true → 0 < c) →
      counter_after_exchange c rev add + (if rev then 1 else 0) = c + (if add then 1 else 0)) := by
  simp only [UINT_MOD] at hc
  cases rev <;> cases add <;> simp only [counter_after_exchange, UINT_MOD] <;>
    by_cases h0 : c = 0 <;> simp [h0] <;> omega

theorem fold_counter (R A : power_exchange → Bool) (xs : List power_exchange) :
    ∀ c0 : Nat, c0 + xs.length < UINT_MOD →
      xs.foldl (fun c x => counter_after_exchange c (R x) (A x)) c0 ≤ c0 + xs.countP A ∧
      c0 + xs.countP A ≤
        xs.foldl (fun c x => counter_after_exchange c (R x) (A x)) c0 + xs.countP R ∧
      ((∀ k (hk : k < xs.length), R xs[k] = true →
          (xs.take k).countP R < c0 + (xs.take k).countP A) →
        xs.foldl (fun c x => counter_after_exchange c (R x) (A x)) c0 + xs.countP R =
          c0 + xs.countP A) := by
  induction xs with
  | nil => intro c0 _; simp
  | cons x t ih =>
    intro c0 hlen
    simp only [List.length_cons] at hlen
    obtain ⟨b1, b2, b3⟩ := counter_after_exchange_bounds c0 (R x) (A x) (by omega)
    have hlen1 : counter_after_exchange c0 (R x) (A x) + t.length < UINT_MOD := by
      have : (if A x = true then 1 else 0) ≤ 1 := by split_ifs <;> omega
      omega
    obtain ⟨i1, i2, i3⟩ := ih _ hlen1
    simp only [List.foldl_cons, List.countP_cons]
    refine ⟨by omega, by omega, fun hd => ?_⟩
    have hx : R x = true → 0 < c0 := by
      intro hr
      have := hd 0 (by simp) (by simpa using hr)
      simpa using this
    have e := b3 hx
    have ht := i3 (by
      intro k hk hr
      have := hd (k + 1) (by simpa using hk) (by simpa using hr)
      simp only [List.take_succ_cons, List.countP_cons] at this
      omega)
    omega

theorem run_power_exchanges_counter (low : Bool) (i : Nat) (hi : i < AUR_NUM_POWER_STATE)
    (hi0 : 0 < i) (xs : List power_exchange) :
    ∀ g : gxp_dev, i < (g.power_mgr.req_count low).length →
      ((run_power_exchanges g xs).power_mgr.req_count low).getD i 0 =
        xs.foldl (fun c x => counter_after_exchange c
          (decide (x.origin_state = aur_state_array.getD i 0 ∧
            x.origin_requested_low_clkmux = low))
          (decide (x.requested_state = aur_state_array.getD i 0 ∧
            x.requested_low_clkmux = low)))
          ((g.power_mgr.req_count low).getD i 0) := by
  induction xs with
  | nil => intro g _; rfl
  | cons x t ih =>
    intro g hlen
    obtain ⟨e1, e2⟩ := exchange_counter g x low i hi hi0 hlen
    simp only [run_power_exchanges, List.foldl_cons]
    rw [ih _ (by rw [e2]; exact hlen), e1]

theorem off_entry_unchanged (g : gxp_dev) (x : power_exchange) (low : Bool) :
    ((gxp_pm_update_requested_power_state g x.origin_state x.origin_requested_low_clkmux
        x.requested_state x.requested_low_clkmux).2.power_mgr.req_count low).getD 0 0 =
      (g.power_mgr.req_count low).getD 0 0 := by
  have hidx : ∀ {s j : Nat}, s ≠ AUR_OFF →
      find_state_index aur_state_array s AUR_NUM_POWER_STATE 0 = some j → j ≠ 0 := by
    intro s j hs hj h0
    subst h0
    exact hs (find_state_index_some hj).2.2.symm
  have hset : ∀ (t : List Nat) (j v : Nat), j ≠ 0 → (t.set j v).getD 0 0 = t.getD 0 0 := by
    intro t j v hj
    by_cases hl : j < t.length
    · rw [getD_set_zero _ _ _ _ hl, if_neg hj]
    · rw [List.set_eq_of_length_le (Nat.le_of_not_lt hl)]
  have hrev : ∀ (g : gxp_dev) (s : Nat) (l : Bool),
      ((gxp_pm_revoke_power_state_vote g s l).power_mgr.req_count low).getD 0 0 =
        (g.power_mgr.req_count low).getD 0 0 := by
    intro g s l
    simp only [gxp_pm_revoke_power_state_vote]
    by_cases hs : s = AUR_OFF
    · rw [if_pos hs]
    · rw [if_neg hs]
      split
      · rename_i j hj
        simp only [gxp_dev.set_mgr, req_count_set_req_count, revoke_count]
        by_cases hl : l = low
        · subst hl
          rw [if_pos rfl]
          split_ifs
          · rfl
          · exact hset _ _ _ (hidx hs hj)
        · rw [if_neg hl]
      · rfl
  have hvote : ∀ (g : gxp_dev) (s : Nat) (l : Bool),
      ((gxp_pm_vote_power_state g s l).power_mgr.req_count low).getD 0 0 =
        (g.power_mgr.req_count low).getD 0 0 := by
    intro g s l
    simp only [gxp_pm_vote_power_state]
    by_cases hs : s = AUR_OFF
    · rw [if_pos hs]
    · rw [if_neg hs]
      split
      · rename_i j hj
        simp only [gxp_dev.set_mgr, req_count_set_req_count, vote_count]
        by_cases hl : l = low
        · subst hl
          rw [if_pos rfl]
          exact hset _ _ _ (hidx hs hj)
        · rw [if_neg hl]
      · rfl
  rw [req_count_of_ledger (update_requested_power_state_ledger _ _ _ _ _) low, hvote, hrev]

theorem run_power_exchanges_off_entry (low : Bool) (xs : List power_exchange) :
    ∀ g : gxp_dev, ((run_power_exchanges g xs).power_mgr.req_count low).getD 0 0 =
      (g.power_mgr.req_count low).getD 0 0 := by
  induction xs with
  | nil => intro g; rfl
  | cons x t ih =>
    intro g
    simp only [run_power_exchanges]
    rw [ih, off_entry_unchanged]

/-- C6, as stated, fails: starting from the empty ledger with the block on, the one-exchange
sequence that trades a normal-mux `UD` vote never cast for "no vote" makes no add and one
revoke for `UD`, so adds minus revokes is -1, while the `UD` counter (index 6) is 0. -/
theorem power_exchanges_net_count_counterexample :
    dev_on.ledger =
      (List.replicate 9 0, List.replicate 9 0, List.replicate 7 0) ∧
    aur_state_array.getD 6 0 = AUR_UD ∧
    adds_made exchanges_spurious_revoke AUR_UD false = 0 ∧
    revokes_made exchanges_spurious_revoke AUR_UD false = 1 ∧
    ((run_power_exchanges dev_on exchanges_spurious_revoke).power_mgr.req_count false).getD 6 0
      = 0 ∧
    ((((run_power_exchanges dev_on exchanges_spurious_revoke).power_mgr.req_count false).getD 6 0
        : Nat) : Int) ≠
      (adds_made exchanges_spurious_revoke AUR_UD false : Int) -
        (revokes_made exchanges_spurious_revoke AUR_UD false : Int) := by
  decide

/-- C6, amended. For every sequence of fewer than `2 ^ 32` power-vote exchanges starting from
the empty ledger, and for every counter of a state other than `Off` (index `i > 0`, state
`aur_state_array[i]`) in either table: the counter is at most the number of adds made for
that state and class, it is at least the adds minus the revokes, and it equals adds minus
revokes whenever every revoke made for that state and class found a vote to revoke (before
the `k`-th exchange, if it revokes this state and class, the revokes are fewer than the
adds). The `Off` entries stay zero. No counter wraps below zero. -/
theorem power_exchanges_net_count (gxp : gxp_dev) (xs : List power_exchange) (i : Nat)
    (low : Bool)
    (hempty : gxp.power_mgr.pwr_state_req_count = List.replicate AUR_NUM_POWER_STATE 0 ∧
      gxp.power_mgr.low_clkmux_pwr_state_req_count = List.replicate AUR_NUM_POWER_STATE 0)
    (hlen : xs.length < UINT_MOD) (hi0 : 0 < i) (hi : i < AUR_NUM_POWER_STATE) :
    ((run_power_exchanges gxp xs).power_mgr.req_count low).getD i 0 ≤
      adds_made xs (aur_state_array.getD i 0) low ∧
    adds_made xs (aur_state_array.getD i 0) low ≤
      ((run_power_exchanges gxp xs).power_mgr.req_count low).getD i 0 +
        revokes_made xs (aur_state_array.getD i 0) low ∧
    ((∀ k (hk : k < xs.length),
        (xs[k].origin_state = aur_state_array.getD i 0 ∧
          xs[k].origin_requested_low_clkmux = low) →
        revokes_made (xs.take k) (aur_state_array.getD i 0) low <
          adds_made (xs.take k) (aur_state_array.getD i 0) low) →
      ((run_power_exchanges gxp xs).power_mgr.req_count low).getD i 0 +
        revokes_made xs (aur_state_array.getD i 0) low =
          adds_made xs (aur_state_array.getD i 0) low) ∧
    ((run_power_exchanges gxp xs).power_mgr.req_count low).getD 0 0 = 0 := by
  have hcount : gxp.power_mgr.req_count low = List.replicate AUR_NUM_POWER_STATE 0 := by
    cases low <;> simp [gxp_power_manager.req_count, hempty.1, hempty.2]
  have hlen9 : i < (gxp.power_mgr.req_count low).length := by
    rw [hcount, List.length_replicate]; exact hi
  have hzero : ∀ j, (gxp.power_mgr.req_count low).getD j 0 = 0 := by
    intro j
    rw [hcount]
    simp only [List.getD_eq_getElem?_getD, List.getElem?_replicate]
    split_ifs <;> rfl
  have hrun := run_power_exchanges_counter low i hi hi0 xs gxp hlen9
  rw [hzero i] at hrun
  obtain ⟨f1, f2, f3⟩ := fold_counter
    (fun x => decide (x.origin_state = aur_state_array.getD i 0 ∧
      x.origin_requested_low_clkmux = low))
    (fun x => decide (x.requested_state = aur_state_array.getD i 0 ∧
      x.requested_low_clkmux = low)) xs 0 (by omega)
  simp only [Nat.zero_add] at f1 f2 f3
  rw [← hrun] at f1 f2 f3
  refine ⟨f1, f2, fun hd => f3 fun k hk hr => ?_, ?_⟩
  · exact hd k hk (by simpa using hr)
  · rw [run_power_exchanges_off_entry, hzero 0]

/-- An instance of `power_exchanges_net_count`: after the sequence `exchanges_held` on a
powered-on device with an empty ledger, the normal-mux `UD` counter (index 6) holds
2 adds - 1 revoke = 1. -/
theorem power_exchanges_net_count_witness :
    exchanges_held.length < UINT_MOD ∧
    adds_made exchanges_held AUR_UD false = 2 ∧
    revokes_made exchanges_held AUR_UD false = 1 ∧
    ((run_power_exchanges dev_on exchanges_held).power_mgr.req_count false).getD 6 0 = 1 ∧
    ((run_power_exchanges dev_on exchanges_held).power_mgr.req_count false).getD 6 0 +
        revokes_made exchanges_held (aur_state_array.getD 6 0) false =
      adds_made exchanges_held (aur_state_array.getD 6 0) false :=
  ⟨by decide, by decide, by decide, by decide,
   (power_exchanges_net_count dev_on exchanges_held 6 false (by decide) (by decide)
      (by decide) (by decide)).2.2.1 (by decide)⟩

/-! ## Coalescing: properties -/

theorem getD_set_of_lt {α : Type} (t : List α) (j i : Nat) (v d : α) (hj : j < t.length) :
    (t.set j v).getD i d = if j = i then v else t.getD i d := by
  simp only [List.getD_eq_getElem?_getD, List.getElem?_set]
  split_ifs <;> simp

theorem find_available_worker_free (us : List Bool) :
    ∀ (i0 k : Nat), us[k]? = some false → (∀ j, j < k → us.getD j true = true) →
      find_available_worker us i0 = i0 + k := by
  induction us with
  | nil => intro i0 k h; simp at h
  | cons u rest ih =>
    intro i0 k hk hbefore
    cases k with
    | zero =>
      simp only [List.getElem?_cons_zero, Option.some.injEq] at hk
      subst hk
      simp [find_available_worker]
    | succ k =>
      have hu : u = true := by simpa using hbefore 0 (Nat.succ_pos _)
      subst hu
      simp only [find_available_worker, Bool.not_true, Bool.false_eq_true, if_false]
      rw [ih (i0 + 1) k (by simpa using hk) (fun j hj => by
        simpa using hbefore (j + 1) (by omega))]
      omega

theorem find_available_worker_full (us : List Bool) :
    ∀ i0 : Nat, (∀ j, j < us.length → us.getD j true = true) →
      find_available_worker us i0 = i0 + us.length := by
  induction us with
  | nil => intro i0 _; rfl
  | cons u rest ih =>
    intro i0 hall
    have hu : u = true := by simpa using hall 0 (by simp)
    subst hu
    simp only [find_available_worker, Bool.not_true, Bool.false_eq_true, if_false,
      List.length_cons]
    rw [ih (i0 + 1) (fun j hj => by simpa using hall (j + 1) (by simpa using hj))]
    omega

theorem array_update_of_getElem? {α : Type} {arr : List α} {i : Nat} {a : α} (f : α → α)
    (h : arr[i]? = some a) : array_update arr i f = arr.set i (f a) := by
  simp [array_update, h]

theorem req_state_locked_claim (g : gxp_dev) (s : Nat) (l : Bool) (k : Nat)
    (hon : g.power_mgr.curr_state ≠ AUR_OFF) (hs0 : s ≠ AUR_OFF) (hs : s ≤ AUR_MAX_ALLOW_STATE)
    (hd : s ≠ g.power_mgr.curr_state ∨ l ≠ g.power_mgr.last_scheduled_low_clkmux)
    (hk : (g.power_mgr.set_acpm_state_work.map (·.using_))[k]? = some false)
    (hbefore : ∀ j, j < k → (g.power_mgr.set_acpm_state_work.map (·.using_)).getD j true = true) :
    gxp_pm_req_state_locked g s l =
      (0, { g with
        trace := g.trace ++ [hw_op.queue_set_acpm_state_work k]
        power_mgr := { g.power_mgr with
          set_acpm_state_work := g.power_mgr.set_acpm_state_work.set k
            ⟨s, g.power_mgr.curr_state, l, g.power_mgr.last_scheduled_low_clkmux, true⟩
          curr_state := s
          last_scheduled_low_clkmux := l
          last_set_acpm_state_worker := k } }) := by
  have hfound := find_available_worker_free _ 0 k hk hbefore
  rw [Nat.zero_add] at hfound
  obtain ⟨w0, hw0, hfree⟩ : ∃ w0, g.power_mgr.set_acpm_state_work[k]? = some w0 ∧
      w0.using_ = false := by
    simpa using hk
  have hklt : k < g.power_mgr.set_acpm_state_work.length := by
    obtain ⟨h, _⟩ := List.getElem?_eq_some.mp hw0
    exact h
  simp only [gxp_pm_req_state_locked, if_neg (Nat.not_lt.mpr hs), if_neg hon, if_neg hs0,
    if_pos hd, hfound, if_neg (Nat.ne_of_lt hklt)]
  rw [array_update_of_getElem? _ hw0]
  rw [array_update_of_getElem? _ (List.getElem?_set_self hklt)]
  simp only [List.get?_eq_getElem?, List.getElem?_set_self (by simpa using hklt : k <
    (g.power_mgr.set_acpm_state_work.set k _).length), Option.any_some, hfree, Bool.not_false,
    if_true]
  rw [array_update_of_getElem? _ (List.getElem?_set_self (by simpa using hklt))]
  simp only [List.set_set, gxp_dev.set_mgr, gxp_dev.emit]

theorem req_state_locked_coalesce (g : gxp_dev) (s : Nat) (l : Bool)
    (w : gxp_set_acpm_state_work)
    (hon : g.power_mgr.curr_state ≠ AUR_OFF) (hs0 : s ≠ AUR_OFF) (hs : s ≤ AUR_MAX_ALLOW_STATE)
    (hd : s ≠ g.power_mgr.curr_state ∨ l ≠ g.power_mgr.last_scheduled_low_clkmux)
    (hfull : ∀ j, j < g.power_mgr.set_acpm_state_work.length →
      (g.power_mgr.set_acpm_state_work.map (·.using_)).getD j true = true)
    (hw : g.power_mgr.set_acpm_state_work[g.power_mgr.last_set_acpm_state_worker]? = some w) :
    gxp_pm_req_state_locked g s l =
      (0, { g with
        power_mgr := { g.power_mgr with
          set_acpm_state_work := g.power_mgr.set_acpm_state_work.set
            g.power_mgr.last_set_acpm_state_worker { w with state := s, low_clkmux := l }
          curr_state := s
          last_scheduled_low_clkmux := l } }) := by
  have hfound := find_available_worker_full (g.power_mgr.set_acpm_state_work.map (·.using_)) 0
    (by simpa using hfull)
  rw [Nat.zero_add, List.length_map] at hfound
  have hklt : g.power_mgr.last_set_acpm_state_worker < g.power_mgr.set_acpm_state_work.length := by
    obtain ⟨h, _⟩ := List.getElem?_eq_some.mp hw
    exact h
  have husing : w.using_ = true := by
    have := hfull _ hklt
    simpa [hw] using this
  simp only [gxp_pm_req_state_locked, if_neg (Nat.not_lt.mpr hs), if_neg hon, if_neg hs0,
    if_pos hd, hfound, if_true]
  rw [array_update_of_getElem? _ hw]
  simp only [List.get?_eq_getElem?, List.getElem?_set_self hklt, Option.any_some, husing,
    Bool.not_true, Bool.false_eq_true, if_false, gxp_dev.set_mgr]

theorem set_getElem?_self {α : Type} (arr : List α) :
    ∀ (i : Nat) (a : α), arr[i]? = some a → arr.set i a = arr := by
  induction arr with
  | nil => intro i a h; simp at h
  | cons b rest ih =>
    intro i a h
    cases i with
    | zero =>
      simp only [List.getElem?_cons_zero, Option.some.injEq] at h
      subst h
      rfl
    | succ i =>
      simp only [List.getElem?_cons_succ] at h
      simp only [List.set_cons_succ, ih i a h]

theorem run_req_state_full (ts : List (Nat × Bool)) :
    ∀ (g : gxp_dev) (w : gxp_set_acpm_state_work),
      g.power_mgr.curr_state ≠ AUR_OFF →
      (∀ t, t ∈ ts → t.1 ≠ AUR_OFF ∧ t.1 ≤ AUR_MAX_ALLOW_STATE) →
      targets_differ g ts = true →
      (∀ j, j < g.power_mgr.set_acpm_state_work.length →
        (g.power_mgr.set_acpm_state_work.map (·.using_)).getD j true = true) →
      g.power_mgr.set_acpm_state_work[g.power_mgr.last_set_acpm_state_worker]? = some w →
      w.state = g.power_mgr.curr_state →
      w.low_clkmux = g.power_mgr.last_scheduled_low_clkmux →
      run_req_state g ts =
        { g with power_mgr := { g.power_mgr with
            set_acpm_state_work := g.power_mgr.set_acpm_state_work.set
              g.power_mgr.last_set_acpm_state_worker
              { w with
                state := (ts.getLastD
                  (g.power_mgr.curr_state, g.power_mgr.last_scheduled_low_clkmux)).1
                low_clkmux := (ts.getLastD
                  (g.power_mgr.curr_state, g.power_mgr.last_scheduled_low_clkmux)).2 }
            curr_state := (ts.getLastD
              (g.power_mgr.curr_state, g.power_mgr.last_scheduled_low_clkmux)).1
            last_scheduled_low_clkmux := (ts.getLastD
              (g.power_mgr.curr_state, g.power_mgr.last_scheduled_low_clkmux)).2 } } := by
  induction ts with
  | nil =>
    intro g w _ _ _ _ hw e1 e2
    cases w with
    | mk a b c d e =>
      simp only at e1 e2
      subst e1 e2
      simp only [run_req_state, List.getLastD]
      rw [set_getElem?_self _ _ _ hw]
  | cons t rest ih =>
    intro g w hon hvalid hdiff hfull hw e1 e2
    obtain ⟨hs0, hs⟩ := hvalid t (List.mem_cons_self _ _)
    simp only [targets_differ, Bool.and_eq_true, decide_eq_true_eq] at hdiff
    obtain ⟨hd, hrest⟩ := hdiff
    have hstep := req_state_locked_coalesce g t.1 t.2 w hon hs0 hs hd hfull hw
    have hklt : g.power_mgr.last_set_acpm_state_worker <
        g.power_mgr.set_acpm_state_work.length := by
      obtain ⟨h, _⟩ := List.getElem?_eq_some.mp hw
      exact h
    have husing : w.using_ = true := by
      have := hfull _ hklt
      simpa [hw] using this
    rw [hstep] at hrest
    simp only [run_req_state, hstep]
    rw [ih _ { w with state := t.1, low_clkmux := t.2 } hs0
      (fun u hu => hvalid u (List.mem_cons_of_mem _ hu)) hrest ?_ ?_ rfl rfl]
    · simp only [List.set_set, List.getLastD_cons]
    · intro j hj
      simp only [List.length_set] at hj
      have := hfull j hj
      simp only [List.map_set]
      rw [getD_set_of_lt _ _ _ _ _ (by simpa using hklt)]
      split_ifs
      · exact husing
      · exact this
    · exact List.getElem?_set_self hklt

theorem worker_trace (soc : backend) (g : gxp_dev) (i : Nat) (w : gxp_set_acpm_state_work)
    (hw : g.power_mgr.set_acpm_state_work[i]? = some w)
    (hon : g.power_mgr.curr_state ≠ AUR_OFF) :
    ∃ mux, (∀ op, op ∈ mux → ∃ v, op = hw_op.writel_pll_aur v ∨ op = hw_op.writel_noc_user v) ∧
      (gxp_pm_blk_set_state_acpm_async soc g i).trace =
        g.trace ++ mux ++ [hw_op.pm_set_rate (aur_power_state2rate.getD w.state .AUR_OFF_RATE)] := by
  simp only [gxp_pm_blk_set_state_acpm_async, List.get?_eq_getElem?, hw, if_neg hon,
    gxp_pm_blk_set_state_acpm, gxp_pm_blk_set_rate_acpm, gxp_dev.set_mgr, gxp_dev.emit,
    set_cmu_noc_user_mux_state, set_cmu_pll_aur_mux_state]
  have hn : ∀ op, op ∈ ([] : List hw_op) →
      ∃ v, op = hw_op.writel_pll_aur v ∨ op = hw_op.writel_noc_user v := by
    intro op h; simp at h
  have hm : ∀ v0 op, op ∈ [hw_op.writel_pll_aur v0, hw_op.writel_noc_user v0] →
      ∃ v, op = hw_op.writel_pll_aur v ∨ op = hw_op.writel_noc_user v := by
    intro v0 op h
    simp only [List.mem_cons, List.mem_singleton, List.not_mem_nil, or_false] at h
    rcases h with h | h
    · exact ⟨v0, Or.inl h⟩
    · exact ⟨v0, Or.inr h⟩
  split_ifs
  all_goals first
    | (refine ⟨[], hn, ?_⟩; simp; done)
    | (refine ⟨_, hm .AUR_CMU_MUX_NORMAL, ?_⟩; simp; done)
    | (refine ⟨_, hm .AUR_CMU_MUX_LOW, ?_⟩; simp)

/-- C8, as stated, fails: on `dev_one_free` (block on, `NOM` applied, slot 3 the only free
slot) the single request for `AUR_OFF` differs from the applied target, yet it claims no slot
and the applied state stays `NOM` instead of becoming the requested target. -/
theorem coalescing_one_free_slot_counterexample :
    dev_one_free.power_mgr.curr_state = AUR_NOM ∧
    only_free_slot dev_one_free.power_mgr.set_acpm_state_work 3 ∧
    targets_differ dev_one_free [(AUR_OFF, false)] = true ∧
    run_req_state dev_one_free [(AUR_OFF, false)] = dev_one_free ∧
    only_free_slot (run_req_state dev_one_free [(AUR_OFF, false)]).power_mgr.set_acpm_state_work
      3 ∧
    (run_req_state dev_one_free [(AUR_OFF, false)]).power_mgr.curr_state ≠ AUR_OFF := by
  decide

/-- C8, amended. Coalescing: with the block on, if slot `k` is the only free slot and no
worker executes in between, then `N >= 1` successive requests `gxp_pm_req_state_locked` for
valid targets other than `AUR_OFF` (`0 < t <= AUR_MAX_ALLOW_STATE`), each differing from the
applied target at the time it is made, claim exactly one slot: slot `k` is queued once and
ends in use with `prev_state` / `prev_low_clkmux` equal to the applied target before the first
request and its target equal to the last request `tN`; every other slot and field is
unchanged, except that the applied target is `tN` and `last_set_acpm_state_worker` is `k`.
When the worker of slot `k` then runs, it appends to the calls made at most the clock-mux
writes and exactly one performance-state write, for `tN`. -/
theorem coalescing_one_free_slot (soc : backend) (g : gxp_dev) (k : Nat)
    (ts : List (Nat × Bool)) (hne : ts ≠ [])
    (hon : g.power_mgr.curr_state ≠ AUR_OFF)
    (hfree : only_free_slot g.power_mgr.set_acpm_state_work k)
    (hvalid : ∀ t, t ∈ ts → t.1 ≠ AUR_OFF ∧ t.1 ≤ AUR_MAX_ALLOW_STATE)
    (hdiff : targets_differ g ts = true) :
    run_req_state g ts =
      { g with
        trace := g.trace ++ [hw_op.queue_set_acpm_state_work k]
        power_mgr := { g.power_mgr with
          set_acpm_state_work := g.power_mgr.set_acpm_state_work.set k
            ⟨(ts.getLast hne).1, g.power_mgr.curr_state, (ts.getLast hne).2,
              g.power_mgr.last_scheduled_low_clkmux, true⟩
          curr_state := (ts.getLast hne).1
          last_scheduled_low_clkmux := (ts.getLast hne).2
          last_set_acpm_state_worker := k } } ∧
    ∃ mux, (∀ op, op ∈ mux → ∃ v, op = hw_op.writel_pll_aur v ∨ op = hw_op.writel_noc_user v) ∧
      (gxp_pm_blk_set_state_acpm_async soc (run_req_state g ts) k).trace =
        g.trace ++ [hw_op.queue_set_acpm_state_work k] ++ mux ++
          [hw_op.pm_set_rate (aur_power_state2rate.getD (ts.getLast hne).1 .AUR_OFF_RATE)] := by
  obtain ⟨hk, hothers⟩ := hfree
  rw [List.get?_eq_getElem?] at hk
  have hklt : k < g.power_mgr.set_acpm_state_work.length := by
    obtain ⟨h, _⟩ := List.getElem?_eq_some.mp hk
    simpa using h
  have hrun : run_req_state g ts =
      { g with
        trace := g.trace ++ [hw_op.queue_set_acpm_state_work k]
        power_mgr := { g.power_mgr with
          set_acpm_state_work := g.power_mgr.set_acpm_state_work.set k
            ⟨(ts.getLast hne).1, g.power_mgr.curr_state, (ts.getLast hne).2,
              g.power_mgr.last_scheduled_low_clkmux, true⟩
          curr_state := (ts.getLast hne).1
          last_scheduled_low_clkmux := (ts.getLast hne).2
          last_set_acpm_state_worker := k } } := by
    cases ts with
    | nil => exact absurd rfl hne
    | cons t rest =>
      obtain ⟨hs0, hs⟩ := hvalid t (List.mem_cons_self _ _)
      simp only [targets_differ, Bool.and_eq_true, decide_eq_true_eq] at hdiff
      obtain ⟨hd, hrest⟩ := hdiff
      have hstep := req_state_locked_claim g t.1 t.2 k hon hs0 hs hd hk
        (fun j hj => hothers j (by omega) (by omega))
      rw [hstep] at hrest
      simp only [run_req_state, hstep]
      rw [run_req_state_full rest _ ⟨t.1, g.power_mgr.curr_state, t.2,
        g.power_mgr.last_scheduled_low_clkmux, true⟩ hs0
        (fun u hu => hvalid u (List.mem_cons_of_mem _ hu)) hrest ?_
        (List.getElem?_set_self hklt) rfl rfl]
      · simp only [List.set_set, List.getLast_eq_getLastD]
      · intro j hj
        simp only [List.length_set] at hj
        simp only [List.map_set]
        rw [getD_set_of_lt _ _ _ _ _ (by simpa using hklt)]
        split_ifs with hjk
        · rfl
        · exact hothers j hj (fun h => hjk h.symm)
  refine ⟨hrun, ?_⟩
  have hlast := hvalid _ (List.getLast_mem hne)
  obtain ⟨mux, hmux, htrace⟩ := worker_trace soc (run_req_state g ts) k
    ⟨(ts.getLast hne).1, g.power_mgr.curr_state, (ts.getLast hne).2,
      g.power_mgr.last_scheduled_low_clkmux, true⟩
    (by rw [hrun]; exact List.getElem?_set_self hklt)
    (by rw [hrun]; exact hlast.1)
  refine ⟨mux, hmux, ?_⟩
  rw [htrace, hrun]

/-- An instance of `coalescing_one_free_slot` on `dev_one_free` (`NOM` applied, slot 3 free):
the requests `UD`, low-mux `SUD`, `UUD` leave slot 3 in use with `prev = (NOM, false)` and
target `(UUD, false)`, the applied state is `UUD`, one slot was queued, and the worker of
slot 3 then makes the single performance-state write for `UUD`. -/
theorem coalescing_one_free_slot_witness :
    dev_one_free.power_mgr.curr_state = AUR_NOM ∧
    only_free_slot dev_one_free.power_mgr.set_acpm_state_work 3 ∧
    (run_req_state dev_one_free
        [(AUR_UD, false), (AUR_SUD, true), (AUR_UUD, false)]).power_mgr.set_acpm_state_work.get? 3
      = some ⟨AUR_UUD, AUR_NOM, false, false, true⟩ ∧
    (run_req_state dev_one_free
        [(AUR_UD, false), (AUR_SUD, true), (AUR_UUD, false)]).power_mgr.curr_state = AUR_UUD ∧
    (gxp_pm_blk_set_state_acpm_async backend_ok
        (run_req_state dev_one_free [(AUR_UD, false), (AUR_SUD, true), (AUR_UUD, false)]) 3).trace
      = dev_one_free.trace ++
        [hw_op.queue_set_acpm_state_work 3, hw_op.pm_set_rate .AUR_UUD_RATE] ∧
    run_req_state dev_one_free [(AUR_UD, false), (AUR_SUD, true), (AUR_UUD, false)] =
      { dev_one_free with
        trace := dev_one_free.trace ++ [hw_op.queue_set_acpm_state_work 3]
        power_mgr := { dev_one_free.power_mgr with
          set_acpm_state_work := dev_one_free.power_mgr.set_acpm_state_work.set 3
            ⟨AUR_UUD, dev_one_free.power_mgr.curr_state, false,
              dev_one_free.power_mgr.last_scheduled_low_clkmux, true⟩
          curr_state := AUR_UUD
          last_scheduled_low_clkmux := false
          last_set_acpm_state_worker := 3 } } :=
  ⟨by decide, by decide, by decide, by decide, by decide,
   (coalescing_one_free_slot backend_ok dev_one_free 3
      [(AUR_UD, false), (AUR_SUD, true), (AUR_UUD, false)] (by decide) (by decide) (by decide)
      (by decide) (by decide)).1⟩

/-! ## Backend failures -/

theorem worker_backend_independent (soc soc' : backend) (g : gxp_dev) (i : Nat) :
    gxp_pm_blk_set_state_acpm_async soc g i = gxp_pm_blk_set_state_acpm_async soc' g i := by
  simp only [gxp_pm_blk_set_state_acpm_async, gxp_pm_blk_set_state_acpm,
    gxp_pm_blk_set_rate_acpm]

theorem worker_applied_frame (soc : backend) (g : gxp_dev) (i : Nat) :
    (gxp_pm_blk_set_state_acpm_async soc g i).power_mgr.curr_state = g.power_mgr.curr_state ∧
    (gxp_pm_blk_set_state_acpm_async soc g i).power_mgr.last_scheduled_low_clkmux =
      g.power_mgr.last_scheduled_low_clkmux := by
  simp only [gxp_pm_blk_set_state_acpm_async, gxp_pm_blk_set_state_acpm,
    gxp_pm_blk_set_rate_acpm, gxp_dev.set_mgr, gxp_dev.emit, set_cmu_noc_user_mux_state,
    set_cmu_pll_aur_mux_state]
  split
  · exact ⟨rfl, rfl⟩
  · split_ifs <;> exact ⟨rfl, rfl⟩

theorem req_state_locked_ret (g : gxp_dev) (s : Nat) (l : Bool)
    (hon : g.power_mgr.curr_state ≠ AUR_OFF) (hs : s ≤ AUR_MAX_ALLOW_STATE) :
    (gxp_pm_req_state_locked g s l).1 = 0 := by
  simp only [gxp_pm_req_state_locked, if_neg (Nat.not_lt.mpr hs), if_neg hon]
  split_ifs <;> rfl

/-- C9, as stated, fails: on `dev_on` (`UUD` applied) a request for `UD` is dispatched and its
worker runs against a backend whose performance-state write returns an error; `curr_state`
then reads `UD`, not the `UUD` it had before the request, and the identical request made
again returns 0 without claiming a slot or queueing anything, so the write is not retried. -/
theorem backend_write_failure_counterexample :
    dev_on.power_mgr.curr_state = AUR_UUD ∧
    (gxp_pm_blk_set_state_acpm backend_set_rate_fails dev_ud_requested AUR_UD).1 ≠ 0 ∧
    dev_ud_write_failed.trace =
      dev_on.trace ++ [hw_op.queue_set_acpm_state_work 0, hw_op.pm_set_rate .AUR_UD_RATE] ∧
    dev_ud_write_failed.power_mgr.curr_state = AUR_UD ∧
    dev_ud_write_failed.power_mgr.curr_state ≠ dev_on.power_mgr.curr_state ∧
    gxp_pm_req_state_locked dev_ud_write_failed AUR_UD false = (0, dev_ud_write_failed) := by
  decide

/-- C9, amended. The result of the performance-state write made by a worker is discarded:
whatever the backend returns, an error included, the worker leaves the same device behind.
After a request for a valid target `(s, l)` other than `AUR_OFF` with the block on,
`curr_state` and `last_scheduled_low_clkmux` hold the requested target at once, they still
hold it after any slot's worker has run against any backend, and the identical request made
again is then suppressed: it returns 0 and changes nothing, so the write is not retried. -/
theorem worker_write_result_discarded (soc : backend) (g : gxp_dev) (s : Nat) (l : Bool)
    (i : Nat) (hon : g.power_mgr.curr_state ≠ AUR_OFF) (hs0 : s ≠ AUR_OFF)
    (hs : s ≤ AUR_MAX_ALLOW_STATE) :
    (∀ soc' : backend,
      gxp_pm_blk_set_state_acpm_async soc' (gxp_pm_req_state_locked g s l).2 i =
        gxp_pm_blk_set_state_acpm_async soc (gxp_pm_req_state_locked g s l).2 i) ∧
    (gxp_pm_req_state_locked g s l).2.power_mgr.curr_state = s ∧
    (gxp_pm_req_state_locked g s l).2.power_mgr.last_scheduled_low_clkmux = l ∧
    (gxp_pm_blk_set_state_acpm_async soc
      (gxp_pm_req_state_locked g s l).2 i).power_mgr.curr_state = s ∧
    (gxp_pm_blk_set_state_acpm_async soc
      (gxp_pm_req_state_locked g s l).2 i).power_mgr.last_scheduled_low_clkmux = l ∧
    gxp_pm_req_state_locked
        (gxp_pm_blk_set_state_acpm_async soc (gxp_pm_req_state_locked g s l).2 i) s l =
      (0, gxp_pm_blk_set_state_acpm_async soc (gxp_pm_req_state_locked g s l).2 i) := by
  obtain ⟨happ, _, _⟩ := req_state_locked_applied g s l hon (req_state_locked_ret g s l hon hs)
  obtain ⟨h1, h2⟩ := happ hs0
  obtain ⟨f1, f2⟩ := worker_applied_frame soc (gxp_pm_req_state_locked g s l).2 i
  rw [h1] at f1
  rw [h2] at f2
  refine ⟨fun soc' => worker_backend_independent _ _ _ _, h1, h2, f1, f2, ?_⟩
  have hc : ¬ (s ≠ (gxp_pm_blk_set_state_acpm_async soc
      (gxp_pm_req_state_locked g s l).2 i).power_mgr.curr_state ∨
      l ≠ (gxp_pm_blk_set_state_acpm_async soc
        (gxp_pm_req_state_locked g s l).2 i).power_mgr.last_scheduled_low_clkmux) := by
    rw [f1, f2]
    simp
  have hon' : (gxp_pm_blk_set_state_acpm_async soc
      (gxp_pm_req_state_locked g s l).2 i).power_mgr.curr_state ≠ AUR_OFF := by
    rw [f1]; exact hs0
  generalize gxp_pm_blk_set_state_acpm_async soc (gxp_pm_req_state_locked g s l).2 i = g2
    at hc hon' ⊢
  simp only [gxp_pm_req_state_locked, if_neg (Nat.not_lt.mpr hs), if_neg hon', if_neg hs0,
    if_neg hc]

/-- An instance of `worker_write_result_discarded`: on `dev_on` the request for `UD`, followed
by the worker of slot 0 against the failing backend, leaves `curr_state = UD`, and the
identical request is suppressed. -/
theorem worker_write_result_discarded_witness :
    dev_on.power_mgr.curr_state ≠ AUR_OFF ∧
    (gxp_pm_blk_set_state_acpm backend_set_rate_fails dev_ud_requested AUR_UD).1 = -EINVAL ∧
    (gxp_pm_blk_set_state_acpm_async backend_set_rate_fails
      (gxp_pm_req_state_locked dev_on AUR_UD false).2 0).power_mgr.curr_state = AUR_UD ∧
    gxp_pm_req_state_locked
        (gxp_pm_blk_set_state_acpm_async backend_set_rate_fails
          (gxp_pm_req_state_locked dev_on AUR_UD false).2 0) AUR_UD false =
      (0, gxp_pm_blk_set_state_acpm_async backend_set_rate_fails
          (gxp_pm_req_state_locked dev_on AUR_UD false).2 0) :=
  ⟨by decide, by decide,
   (worker_write_result_discarded backend_set_rate_fails dev_on AUR_UD false 0
      (by decide) (by decide) (by decide)).2.2.2.1,
   (worker_write_result_discarded backend_set_rate_fails dev_on AUR_UD false 0
      (by decide) (by decide) (by decide)).2.2.2.2.2⟩

/-- C10, as stated, fails: powering up a fresh device against a backend whose
performance-state write fails (the domain power-up itself succeeding) returns 0 and records
the block as on: `curr_state` is `AUR_INIT_DVFS_STATE`, `blk_switch_count` went from 0 to 1
and the busy counter left the powered-off sentinel for 0. -/
theorem blk_on_initial_state_failure_counterexample :
    (gxp_pm_blk_set_state_acpm backend_set_rate_fails (gxp_dev_init 4) AUR_INIT_DVFS_STATE).1
      ≠ 0 ∧
    (gxp_dev_init 4).power_mgr.curr_state = AUR_OFF ∧
    (gxp_dev_init 4).power_mgr.blk_switch_count = 0 ∧
    (gxp_dev_init 4).power_mgr.busy_count = BUSY_COUNT_OFF ∧
    (gxp_pm_blk_on backend_set_rate_fails (gxp_dev_init 4)).1 = 0 ∧
    (gxp_pm_blk_on backend_set_rate_fails (gxp_dev_init 4)).2.power_mgr.curr_state =
      AUR_INIT_DVFS_STATE ∧
    (gxp_pm_blk_on backend_set_rate_fails (gxp_dev_init 4)).2.power_mgr.blk_switch_count = 1 ∧
    (gxp_pm_blk_on backend_set_rate_fails (gxp_dev_init 4)).2.power_mgr.busy_count = 0 := by
  decide

/-- C10, amended. During power-up (`gxp_pm_blk_on`) the result of the backend call that sets
the initial default performance state is discarded: whenever the domain power-up
(`gxp_pm_blkpwr_up`) succeeds, `gxp_pm_blk_on` returns 0 and records the block as on
(`curr_state = AUR_INIT_DVFS_STATE`, `blk_switch_count` incremented, busy tracking re-armed
with `busy_count = 0`), whatever the performance-state write returned. Power-up is aborted
only when the domain power-up fails: then `gxp_pm_blk_on` returns that error and the power
manager is unchanged. -/
theorem blk_on_initial_state_result_discarded (soc : backend) (gxp : gxp_dev) :
    ((gxp_pm_blkpwr_up soc gxp).1 = 0 →
      (gxp_pm_blk_on soc gxp).1 = 0 ∧
      (gxp_pm_blk_on soc gxp).2.power_mgr.curr_state = AUR_INIT_DVFS_STATE ∧
      (gxp_pm_blk_on soc gxp).2.power_mgr.blk_switch_count =
        (gxp.power_mgr.blk_switch_count + 1) % U64_MOD ∧
      (gxp_pm_blk_on soc gxp).2.power_mgr.busy_count = 0) ∧
    ((gxp_pm_blkpwr_up soc gxp).1 ≠ 0 →
      (gxp_pm_blk_on soc gxp).1 = (gxp_pm_blkpwr_up soc gxp).1 ∧
      (gxp_pm_blk_on soc gxp).2.power_mgr = gxp.power_mgr) := by
  have hmgr : (gxp_pm_blkpwr_up soc gxp).2.power_mgr = gxp.power_mgr := by
    simp only [gxp_pm_blkpwr_up, gxp_dev.emit]
    split_ifs
    · rfl
    · split
      · split_ifs <;> rfl
      · rfl
  constructor
  · intro hup
    have h0 : ¬ (gxp_pm_blkpwr_up soc gxp).1 ≠ 0 := not_not.mpr hup
    simp only [gxp_pm_blk_on, if_neg h0, gxp_pm_blk_set_state_acpm, gxp_pm_blk_set_rate_acpm,
      gxp_dev.set_mgr, gxp_dev.emit, gxp_pm_can_busy, hmgr]
    exact ⟨hup, trivial, trivial, trivial⟩
  · intro hup
    simp only [gxp_pm_blk_on, if_pos hup]
    exact ⟨trivial, hmgr⟩

/-- An instance of `blk_on_initial_state_result_discarded`: against the backend whose
performance-state write fails, the domain power-up of a fresh device succeeds and
`gxp_pm_blk_on` returns 0 with `curr_state = AUR_INIT_DVFS_STATE` and `busy_count = 0`. -/
theorem blk_on_initial_state_result_discarded_witness :
    (gxp_pm_blkpwr_up backend_set_rate_fails (gxp_dev_init 4)).1 = 0 ∧
    (backend_set_rate_fails.gxp_soc_pm_set_rate .AUR_UUD_RATE ≠ 0) ∧
    ((gxp_pm_blk_on backend_set_rate_fails (gxp_dev_init 4)).1 = 0 ∧
      (gxp_pm_blk_on backend_set_rate_fails (gxp_dev_init 4)).2.power_mgr.curr_state =
        AUR_INIT_DVFS_STATE ∧
      (gxp_pm_blk_on backend_set_rate_fails (gxp_dev_init 4)).2.power_mgr.blk_switch_count =
        ((gxp_dev_init 4).power_mgr.blk_switch_count + 1) % U64_MOD ∧
      (gxp_pm_blk_on backend_set_rate_fails (gxp_dev_init 4)).2.power_mgr.busy_count = 0) :=
  ⟨by decide, by decide,
   (blk_on_initial_state_result_discarded backend_set_rate_fails (gxp_dev_init 4)).1
      (by decide)⟩

/-! ## Block power-down and reboot: properties -/

theorem blkpwr_down_power_mgr (soc : backend) (g : gxp_dev) :
    (gxp_pm_blkpwr_down soc g).2.power_mgr = g.power_mgr := by
  simp only [gxp_pm_blkpwr_down, blkpwr_down_put, gxp_dev.emit]
  split
  · split_ifs <;> rfl
  · rfl

theorem blk_off_ret_zero_off (soc : backend) (g : gxp_dev)
    (h : (gxp_pm_blk_off soc g).1 = 0) :
    (gxp_pm_blk_off soc g).2.power_mgr.curr_state = AUR_OFF := by
  simp only [gxp_pm_blk_off] at h ⊢
  by_cases hoff : g.power_mgr.curr_state = AUR_OFF
  · rw [if_pos hoff]; exact hoff
  · rw [if_neg hoff] at h ⊢
    split_ifs at h ⊢ with hd
    · rfl
    · exact absurd h hd

/-- C11, as stated, fails: on a powered-on device, a first power-down against a backend whose
`pm_runtime_put_sync` fails returns the error and leaves the block recorded as on; the second
consecutive call is then no no-op: it returns the error again, not 0, and issues the
clock-mux writes and the backend calls once more. -/
theorem blk_off_twice_counterexample :
    (gxp_pm_blk_off backend_put_sync_fails dev_on).1 = -EBUSY ∧
    (gxp_pm_blk_off backend_put_sync_fails dev_on).2.power_mgr.curr_state = AUR_UUD ∧
    (gxp_pm_blk_off backend_put_sync_fails
      (gxp_pm_blk_off backend_put_sync_fails dev_on).2).1 ≠ 0 ∧
    (gxp_pm_blk_off backend_put_sync_fails
      (gxp_pm_blk_off backend_put_sync_fails dev_on).2).2.trace =
      (gxp_pm_blk_off backend_put_sync_fails dev_on).2.trace ++
        [hw_op.writel_pll_aur .AUR_CMU_MUX_NORMAL, hw_op.writel_noc_user .AUR_CMU_MUX_NORMAL,
         hw_op.gxp_soc_lpm_destroy, hw_op.pm_runtime_put_sync, hw_op.gxp_soc_pm_reset] := by
  decide

/-- C11, amended. For every power-manager state and every backend, if a call of
`gxp_pm_blk_off` returned 0 (the block was powered down, or was off already), the next
consecutive call is a no-op: it returns 0, issues no backend call (no clock-mux write, no LPM
destroy, no domain power-down) and changes no field of the power manager. -/
theorem blk_off_twice (soc1 soc2 : backend) (gxp : gxp_dev)
    (hfirst : (gxp_pm_blk_off soc1 gxp).1 = 0) :
    gxp_pm_blk_off soc2 (gxp_pm_blk_off soc1 gxp).2 = (0, (gxp_pm_blk_off soc1 gxp).2) := by
  have hoff := blk_off_ret_zero_off soc1 gxp hfirst
  generalize (gxp_pm_blk_off soc1 gxp).2 = g1 at hoff
  simp only [gxp_pm_blk_off, if_pos hoff]

/-- An instance of `blk_off_twice`: powering `dev_on` down against a backend on which every
call succeeds returns 0, and the second power-down returns 0 and leaves the device as it
was. -/
theorem blk_off_twice_witness :
    (gxp_pm_blk_off backend_ok dev_on).1 = 0 ∧
    (gxp_pm_blk_off backend_ok dev_on).2.trace =
      dev_on.trace ++
        [hw_op.writel_pll_aur .AUR_CMU_MUX_NORMAL, hw_op.writel_noc_user .AUR_CMU_MUX_NORMAL,
         hw_op.gxp_soc_lpm_destroy, hw_op.pm_runtime_put_sync, hw_op.gxp_soc_pm_reset] ∧
    gxp_pm_blk_off backend_ok (gxp_pm_blk_off backend_ok dev_on).2 =
      (0, (gxp_pm_blk_off backend_ok dev_on).2) :=
  ⟨by decide, by decide, blk_off_twice backend_ok backend_ok dev_on (by decide)⟩

theorem blk_down_poll_never_off (soc : backend) (maxd : Nat) :
    ∀ (fuel cnt : Nat) (g : gxp_dev),
      (∀ k, cnt ≤ k → k < max (cnt + 1) maxd → soc.readl_aur_status k ≠ 0) →
      max 1 (maxd - cnt) ≤ fuel →
      blk_down_poll soc maxd fuel cnt g =
        (false, { g with trace := g.trace ++ poll_trace (max 1 (maxd - cnt)) }) := by
  intro fuel
  induction fuel with
  | zero =>
    intro cnt g _ hfuel
    have : 1 ≤ max 1 (maxd - cnt) := Nat.le_max_left _ _
    omega
  | succ fuel ih =>
    intro cnt g hreads hfuel
    have hr : soc.readl_aur_status cnt ≠ 0 :=
      hreads cnt (Nat.le_refl _) (lt_of_lt_of_le (Nat.lt_succ_self _) (Nat.le_max_left _ _))
    simp only [blk_down_poll, if_neg hr]
    by_cases hc : cnt + 1 < maxd
    · rw [if_pos hc]
      have hm : max 1 (maxd - cnt) = max 1 (maxd - (cnt + 1)) + 1 := by
        rw [Nat.max_def, Nat.max_def]
        split_ifs <;> omega
      rw [ih (cnt + 1) _ (fun k hk1 hk2 => hreads k (by omega) (by
          rw [Nat.max_def] at hk2 ⊢
          split_ifs at hk2 ⊢ <;> omega)) (by omega)]
      rw [hm]
      simp [gxp_dev.emit, poll_trace]
    · rw [if_neg hc]
      have hm : max 1 (maxd - cnt) = 1 := by
        rw [Nat.max_def]
        split_ifs <;> omega
      rw [hm]
      simp [gxp_dev.emit, poll_trace]

theorem blk_off_aur_status (soc : backend) (g : gxp_dev) :
    (gxp_pm_blk_off soc g).2.power_mgr.aur_status = g.power_mgr.aur_status := by
  simp only [gxp_pm_blk_off]
  split_ifs
  · rfl
  · simp only [gxp_dev.set_mgr, blkpwr_down_power_mgr]
    simp only [gxp_dev.emit, reset_cmu_mux_state, set_cmu_noc_user_mux_state,
      set_cmu_pll_aur_mux_state, gxp_pm_no_busy]
    split_ifs <;> rfl
  · rw [blkpwr_down_power_mgr]
    simp only [gxp_dev.emit, reset_cmu_mux_state, set_cmu_noc_user_mux_state,
      set_cmu_pll_aur_mux_state, gxp_pm_no_busy, gxp_dev.set_mgr]
    split_ifs <;> rfl

/-- C12. Reboot (`gxp_pm_blk_reboot`) with a timeout of `timeout_ms`: if the power-down
returns 0 and the status register, being present, reads nonzero at every poll within the
bound (`max(1, max_delay_count)` reads), the reboot returns `-EBUSY`, the block stays recorded
as off (`curr_state == AUR_OFF`, the power manager being as the power-down left it), and after
the power-down nothing is called but the delays and reads of the polling: no power-up is
attempted. If the power-down fails, the reboot returns its error and stops there, without
polling or powering up. -/
theorem blk_reboot_timeout (soc soc_on : backend) (gxp : gxp_dev) (timeout_ms : Nat) :
    ((gxp_pm_blk_off soc gxp).1 = 0 → gxp.power_mgr.aur_status = true →
      (∀ k, k < max 1 ((timeout_ms * 1000 % UINT_MOD) / SHUTDOWN_DELAY_US_MIN) →
        soc.readl_aur_status k ≠ 0) →
      (gxp_pm_blk_reboot soc soc_on gxp timeout_ms).1 = -EBUSY ∧
      (gxp_pm_blk_reboot soc soc_on gxp timeout_ms).2.power_mgr.curr_state = AUR_OFF ∧
      (gxp_pm_blk_reboot soc soc_on gxp timeout_ms).2.power_mgr =
        (gxp_pm_blk_off soc gxp).2.power_mgr ∧
      (gxp_pm_blk_reboot soc soc_on gxp timeout_ms).2.trace =
        (gxp_pm_blk_off soc gxp).2.trace ++
          poll_trace (max 1 ((timeout_ms * 1000 % UINT_MOD) / SHUTDOWN_DELAY_US_MIN))) ∧
    ((gxp_pm_blk_off soc gxp).1 ≠ 0 →
      gxp_pm_blk_reboot soc soc_on gxp timeout_ms = gxp_pm_blk_off soc gxp) := by
  constructor
  · intro hoff hstatus hreads
    have hcurr := blk_off_ret_zero_off soc gxp hoff
    have hst : (gxp_pm_blk_off soc gxp).2.power_mgr.aur_status = true := by
      rw [blk_off_aur_status]; exact hstatus
    have h0 : ¬ (gxp_pm_blk_off soc gxp).1 ≠ 0 := not_not.mpr hoff
    have hfuel : ∀ m : Nat, max 1 (m - 0) ≤ m + 1 := by
      intro m
      rw [Nat.sub_zero, Nat.max_def]
      split_ifs <;> omega
    have hpoll := blk_down_poll_never_off soc
      ((timeout_ms * 1000 % UINT_MOD) / SHUTDOWN_DELAY_US_MIN)
      ((timeout_ms * 1000 % UINT_MOD) / SHUTDOWN_DELAY_US_MIN + 1) 0
      (gxp_pm_blk_off soc gxp).2
      (fun k _ hk => hreads k (by simpa using hk))
      (hfuel _)
    rw [Nat.sub_zero] at hpoll
    simp only [gxp_pm_blk_reboot, if_neg h0, gxp_pm_is_blk_down_timeout, hst, Bool.not_true,
      Bool.false_eq_true, if_false, hpoll, Bool.not_false, if_true]
    exact ⟨trivial, hcurr, trivial, trivial⟩
  · intro hfail
    simp only [gxp_pm_blk_reboot, if_pos hfail]

/-- An instance of `blk_reboot_timeout`: rebooting `dev_on` with a 1 ms timeout against a
backend whose status register always reads 1 powers the block down, polls
`1 * 1000 / 200 = 5` times, returns `-EBUSY` and leaves the block off; against a backend whose
power-down fails the reboot returns that error at once. -/
theorem blk_reboot_timeout_witness :
    (gxp_pm_blk_off backend_never_off dev_on).1 = 0 ∧
    (gxp_pm_blk_reboot backend_never_off backend_ok dev_on 1).1 = -EBUSY ∧
    (gxp_pm_blk_reboot backend_never_off backend_ok dev_on 1).2.power_mgr.curr_state = AUR_OFF ∧
    (gxp_pm_blk_reboot backend_never_off backend_ok dev_on 1).2.trace =
      (gxp_pm_blk_off backend_never_off dev_on).2.trace ++ poll_trace 5 ∧
    gxp_pm_blk_reboot backend_put_sync_fails backend_ok dev_on 1 =
      gxp_pm_blk_off backend_put_sync_fails dev_on :=
  ⟨by decide,
   ((blk_reboot_timeout backend_never_off backend_ok dev_on 1).1 (by decide) (by decide)
      (fun _ _ => Nat.one_ne_zero)).1,
   ((blk_reboot_timeout backend_never_off backend_ok dev_on 1).1 (by decide) (by decide)
      (fun _ _ => Nat.one_ne_zero)).2.1,
   ((blk_reboot_timeout backend_never_off backend_ok dev_on 1).1 (by decide) (by decide)
      (fun _ _ => Nat.one_ne_zero)).2.2.2,
   (blk_reboot_timeout backend_put_sync_fails backend_ok dev_on 1).2 (by decide)⟩

/-! ## Range checks: properties -/

theorem req_state_locked_ret_cases (g : gxp_dev) (s : Nat) (l : Bool)
    (hs : s ≤ AUR_MAX_ALLOW_STATE) :
    (gxp_pm_req_state_locked g s l).1 = -EBUSY ∨ (gxp_pm_req_state_locked g s l).1 = 0 := by
  simp only [gxp_pm_req_state_locked, if_neg (Nat.not_lt.mpr hs)]
  split_ifs
  · exact Or.inl rfl
  all_goals exact Or.inr rfl

theorem req_memory_state_locked_ret_cases (g : gxp_dev) (s : Nat)
    (hs : s ≤ AUR_MAX_ALLOW_MEMORY_STATE) :
    (gxp_pm_req_memory_state_locked g s).1 = -EBUSY ∨
      (gxp_pm_req_memory_state_locked g s).1 = 0 := by
  simp only [gxp_pm_req_memory_state_locked, if_neg (Nat.not_lt.mpr hs)]
  split_ifs
  · exact Or.inl rfl
  all_goals exact Or.inr rfl

theorem update_requested_power_state_not_einval (g : gxp_dev) (o : Nat) (ol : Bool) (r : Nat)
    (rl : Bool) : (gxp_pm_update_requested_power_state g o ol r rl).1 ≠ -EINVAL := by
  simp only [gxp_pm_update_requested_power_state]
  rcases req_state_locked_ret_cases
    (gxp_pm_vote_power_state (gxp_pm_revoke_power_state_vote g o ol) r rl) _ 
    (gxp_pm_get_max_voted_power_state _).2 (get_max_voted_power_state_le _) with h | h <;>
    rw [h] <;> decide

theorem update_requested_memory_power_state_not_einval (g : gxp_dev) (o r : Nat) :
    (gxp_pm_update_requested_memory_power_state g o r).1 ≠ -EINVAL := by
  simp only [gxp_pm_update_requested_memory_power_state]
  rcases req_memory_state_locked_ret_cases
    (gxp_pm_vote_memory_power_state (gxp_pm_revoke_memory_power_state_vote g o) r) _
    (get_max_voted_memory_power_state_le _) with h | h <;>
    rw [h] <;> decide

/-- C13, as stated, fails: with the block on, the power-vote exchange that requests the
out-of-range state 9 (`> AUR_MAX_ALLOW_STATE`) returns 0 and leaves the ledger as it was, and
so does the memory-vote exchange that requests the out-of-range memory state 7 and the
combined exchange that requests both. -/
theorem update_requested_power_states_range_counterexample :
    AUR_MAX_ALLOW_STATE < 9 ∧ AUR_MAX_ALLOW_MEMORY_STATE < 7 ∧
    (gxp_pm_update_requested_power_state dev_on AUR_OFF false 9 false).1 = 0 ∧
    (gxp_pm_update_requested_power_state dev_on AUR_OFF false 9 false).2 = dev_on ∧
    (gxp_pm_update_requested_memory_power_state dev_on AUR_MEM_UNDEFINED 7).1 = 0 ∧
    (gxp_pm_update_requested_memory_power_state dev_on AUR_MEM_UNDEFINED 7).2 = dev_on ∧
    (gxp_pm_update_requested_power_states dev_on off_states ⟨9, 7, false⟩).1 = 0 := by
  decide

/-- C13, amended. The range checks guard the dispatch requests, not the votes:
`gxp_pm_req_state_locked` called with a state `> AUR_MAX_ALLOW_STATE` and
`gxp_pm_req_memory_state_locked` called with a state `> AUR_MAX_ALLOW_MEMORY_STATE` return
`-EINVAL` and change nothing. A vote exchange passes them the arbiter's output, which is
always in range, so no vote exchange returns `-EINVAL`; adding an out-of-range power or memory
state is a no-op on the device. -/
theorem range_check_on_dispatch_only (gxp : gxp_dev) :
    (∀ (s : Nat) (l : Bool), s > AUR_MAX_ALLOW_STATE →
      gxp_pm_req_state_locked gxp s l = (-EINVAL, gxp)) ∧
    (∀ s : Nat, s > AUR_MAX_ALLOW_MEMORY_STATE →
      gxp_pm_req_memory_state_locked gxp s = (-EINVAL, gxp)) ∧
    (∀ (o : Nat) (ol : Bool) (r : Nat) (rl : Bool),
      (gxp_pm_update_requested_power_state gxp o ol r rl).1 ≠ -EINVAL) ∧
    (∀ o r : Nat, (gxp_pm_update_requested_memory_power_state gxp o r).1 ≠ -EINVAL) ∧
    (∀ old new : gxp_power_states,
      (gxp_pm_update_requested_power_states gxp old new).1 ≠ -EINVAL) ∧
    (∀ (r : Nat) (rl : Bool), r > AUR_MAX_ALLOW_STATE → gxp_pm_vote_power_state gxp r rl = gxp) ∧
    (∀ r : Nat, r > AUR_MAX_ALLOW_MEMORY_STATE → gxp_pm_vote_memory_power_state gxp r = gxp) := by
  refine ⟨?_, ?_, fun o ol r rl => update_requested_power_state_not_einval gxp o ol r rl,
    fun o r => update_requested_memory_power_state_not_einval gxp o r, ?_, ?_, ?_⟩
  · intro s l hs
    simp only [gxp_pm_req_state_locked, if_pos hs]
  · intro s hs
    simp only [gxp_pm_req_memory_state_locked, if_pos hs]
  · intro old new
    have hr1 : ∀ r1 : Int × gxp_dev, r1.1 ≠ -EINVAL →
        (if r1.1 ≠ 0 then r1
          else if old.memory ≠ new.memory then
            gxp_pm_update_requested_memory_power_state r1.2 old.memory new.memory
          else r1).1 ≠ -EINVAL := by
      intro r1 h
      split_ifs
      · exact h
      · exact update_requested_memory_power_state_not_einval _ _ _
      · exact h
    simp only [gxp_pm_update_requested_power_states]
    apply hr1
    split_ifs
    · exact update_requested_power_state_not_einval _ _ _ _ _
    · show (0 : Int) ≠ -EINVAL
      decide
  · intro r rl hr
    have h0 : r ≠ AUR_OFF := by
      intro h; rw [h] at hr; exact absurd hr (by decide)
    simp only [gxp_pm_vote_power_state, if_neg h0]
    split
    · rename_i i hi
      obtain ⟨_, h2, h3⟩ := find_state_index_some hi
      have h9 : i < 9 := by simpa [AUR_NUM_POWER_STATE, AUR_MAX_ALLOW_STATE, AUR_UD_PLUS] using h2
      have hr9 : 8 < r := hr
      exfalso
      interval_cases i <;> simp [aur_state_array, AUR_OFF, AUR_READY, AUR_UUD, AUR_UUD_PLUS,
        AUR_SUD, AUR_SUD_PLUS, AUR_UD, AUR_UD_PLUS, AUR_NOM] at h3 <;> omega
    · rfl
  · intro r hr
    have h0 : r ≠ AUR_MEM_UNDEFINED := by
      intro h; rw [h] at hr; exact absurd hr (by decide)
    simp only [gxp_pm_vote_memory_power_state, if_neg h0]
    split
    · rename_i i hi
      obtain ⟨_, h2, h3⟩ := find_state_index_some hi
      have h7 : i < 7 := by
        simpa [AUR_NUM_MEMORY_POWER_STATE, AUR_MAX_ALLOW_MEMORY_STATE, AUR_MEM_MAX] using h2
      have hr6 : 6 < r := hr
      exfalso
      interval_cases i <;> simp [aur_memory_state_array, AUR_MEM_UNDEFINED, AUR_MEM_MIN,
        AUR_MEM_VERY_LOW, AUR_MEM_LOW, AUR_MEM_HIGH, AUR_MEM_VERY_HIGH, AUR_MEM_MAX] at h3 <;>
        omega
    · rfl

/-- An instance of `range_check_on_dispatch_only` on `dev_on`: a dispatch request for state 9
is rejected with `-EINVAL`, and adding state 9 to the ledger changes nothing. -/
theorem range_check_on_dispatch_only_witness :
    9 > AUR_MAX_ALLOW_STATE ∧
    gxp_pm_req_state_locked dev_on 9 false = (-EINVAL, dev_on) ∧
    gxp_pm_req_memory_state_locked dev_on 7 = (-EINVAL, dev_on) ∧
    gxp_pm_vote_power_state dev_on 9 false = dev_on :=
  ⟨by decide,
   (range_check_on_dispatch_only dev_on).1 9 false (by decide),
   (range_check_on_dispatch_only dev_on).2.1 7 (by decide),
   (range_check_on_dispatch_only dev_on).2.2.2.2.2.1 9 false (by decide)⟩

/-! ## Clock-mux force-normal guard: properties -/

/-- C14, as stated, fails: on `dev_low_pending_forced` the last-arbitrated target has
`low_clkmux = true` and the force-normal count is 1; `gxp_pm_resume_clkmux` brings the count
to zero and writes no clock-mux register, because the flag it tests is `curr_low_clkmux`,
which the pending worker has not set yet. -/
theorem resume_clkmux_counterexample :
    dev_low_pending_forced.power_mgr.last_scheduled_low_clkmux = true ∧
    dev_low_pending_forced.power_mgr.curr_low_clkmux = false ∧
    dev_low_pending_forced.power_mgr.force_mux_normal_count = 1 ∧
    dev_low_pending_forced.cmu_vaddr_ok = true ∧
    (gxp_pm_resume_clkmux dev_low_pending_forced).power_mgr.force_mux_normal_count = 0 ∧
    (gxp_pm_resume_clkmux dev_low_pending_forced).trace = dev_low_pending_forced.trace := by
  decide

/-- C14, amended. `gxp_pm_resume_clkmux` decrements the force-normal count and changes no
other field of the power manager; it writes both clock muxes to Low (the CMU registers being
mapped) exactly when the count reaches zero and `curr_low_clkmux`, the flag recorded by the
most recently executed worker, is true; in every other case, in particular when the count
stays nonzero, it writes no clock-mux register. -/
theorem resume_clkmux_effect (gxp : gxp_dev) :
    (gxp_pm_resume_clkmux gxp).power_mgr =
      { gxp.power_mgr with
        force_mux_normal_count := gxp.power_mgr.force_mux_normal_count - 1 } ∧
    (gxp_pm_resume_clkmux gxp).cmu_vaddr_ok = gxp.cmu_vaddr_ok ∧
    (gxp_pm_resume_clkmux gxp).trace =
      gxp.trace ++
        (if gxp.power_mgr.force_mux_normal_count - 1 = 0 ∧ gxp.power_mgr.curr_low_clkmux = true ∧
            gxp.cmu_vaddr_ok = true then
          [hw_op.writel_pll_aur .AUR_CMU_MUX_LOW, hw_op.writel_noc_user .AUR_CMU_MUX_LOW]
        else []) := by
  simp only [gxp_pm_resume_clkmux, gxp_dev.set_mgr, set_cmu_noc_user_mux_state,
    set_cmu_pll_aur_mux_state, gxp_dev.emit]
  by_cases h0 : gxp.power_mgr.force_mux_normal_count - 1 = 0
  · by_cases hl : gxp.power_mgr.curr_low_clkmux = true
    · by_cases hc : gxp.cmu_vaddr_ok = true
      · simp [h0, hl, hc]
      · simp [h0, hl, hc]
    · simp [h0, hl]
  · simp [h0]

theorem worker_on_eq (soc : backend) (g : gxp_dev) (i : Nat) (w : gxp_set_acpm_state_work)
    (hw : g.power_mgr.set_acpm_state_work[i]? = some w)
    (hon : g.power_mgr.curr_state ≠ AUR_OFF) :
    gxp_pm_blk_set_state_acpm_async soc g i =
      { g with
        trace := g.trace ++
          (if g.cmu_vaddr_ok = true ∧ w.low_clkmux ≠ w.prev_low_clkmux ∧
              g.power_mgr.force_mux_normal_count = 0 then
            if w.prev_low_clkmux then
              [hw_op.writel_pll_aur .AUR_CMU_MUX_NORMAL, hw_op.writel_noc_user .AUR_CMU_MUX_NORMAL]
            else if w.low_clkmux then
              [hw_op.writel_pll_aur .AUR_CMU_MUX_LOW, hw_op.writel_noc_user .AUR_CMU_MUX_LOW]
            else []
          else []) ++
          [hw_op.pm_set_rate (aur_power_state2rate.getD w.state .AUR_OFF_RATE)]
        power_mgr := { g.power_mgr with
          curr_low_clkmux := w.low_clkmux
          set_acpm_state_work :=
            g.power_mgr.set_acpm_state_work.set i { w with using_ := false } } } := by
  obtain ⟨mgr, cmu, tr⟩ := g
  obtain ⟨ws, wp, wl, wpl, wu⟩ := w
  simp only at hw hon
  cases cmu <;> cases wpl <;> cases wl <;>
    by_cases hf : mgr.force_mux_normal_count = 0 <;>
    simp [gxp_pm_blk_set_state_acpm_async, hw, hon, hf, array_update,
      gxp_pm_blk_set_state_acpm, gxp_pm_blk_set_rate_acpm, gxp_dev.set_mgr, gxp_dev.emit,
      set_cmu_noc_user_mux_state, set_cmu_pll_aur_mux_state]

theorem worker_off_eq (soc : backend) (g : gxp_dev) (i : Nat) (w : gxp_set_acpm_state_work)
    (hw : g.power_mgr.set_acpm_state_work[i]? = some w)
    (hoff : g.power_mgr.curr_state = AUR_OFF) :
    gxp_pm_blk_set_state_acpm_async soc g i =
      { g with
        power_mgr := { g.power_mgr with
          set_acpm_state_work :=
            g.power_mgr.set_acpm_state_work.set i { w with using_ := false } } } := by
  simp only [gxp_pm_blk_set_state_acpm_async, List.get?_eq_getElem?, hw, if_pos hoff,
    gxp_dev.set_mgr, array_update]

theorem force_clkmux_normal_effect (g : gxp_dev) :
    (gxp_pm_force_clkmux_normal g).power_mgr =
      { g.power_mgr with force_mux_normal_count := g.power_mgr.force_mux_normal_count + 1 } ∧
    (gxp_pm_force_clkmux_normal g).cmu_vaddr_ok = g.cmu_vaddr_ok := by
  simp only [gxp_pm_force_clkmux_normal, gxp_dev.set_mgr, set_cmu_noc_user_mux_state,
    set_cmu_pll_aur_mux_state, gxp_dev.emit]
  split_ifs <;> exact ⟨rfl, rfl⟩

theorem worker_while_forced (soc : backend) (g : gxp_dev) (i : Nat)
    (w : gxp_set_acpm_state_work) (hw : g.power_mgr.set_acpm_state_work[i]? = some w)
    (hon : g.power_mgr.curr_state ≠ AUR_OFF)
    (hforced : g.power_mgr.force_mux_normal_count ≠ 0) :
    (gxp_pm_blk_set_state_acpm_async soc g i).trace =
      g.trace ++ [hw_op.pm_set_rate (aur_power_state2rate.getD w.state .AUR_OFF_RATE)] ∧
    (gxp_pm_blk_set_state_acpm_async soc g i).power_mgr.force_mux_normal_count =
      g.power_mgr.force_mux_normal_count ∧
    (gxp_pm_blk_set_state_acpm_async soc g i).power_mgr.curr_low_clkmux = w.low_clkmux ∧
    (gxp_pm_blk_set_state_acpm_async soc g i).cmu_vaddr_ok = g.cmu_vaddr_ok := by
  have hboot : ¬ (w.low_clkmux ≠ w.prev_low_clkmux ∧
      ¬ g.power_mgr.force_mux_normal_count ≠ 0) := fun h => h.2 hforced
  simp only [gxp_pm_blk_set_state_acpm_async, List.get?_eq_getElem?, hw, if_neg hon,
    if_neg hboot, gxp_pm_blk_set_state_acpm, gxp_pm_blk_set_rate_acpm, gxp_dev.set_mgr,
    gxp_dev.emit]
  exact ⟨trivial, trivial, trivial, trivial⟩

theorem resume_clkmux_last_low (g : gxp_dev) (hc : g.power_mgr.force_mux_normal_count = 1)
    (hl : g.power_mgr.curr_low_clkmux = true) (hcmu : g.cmu_vaddr_ok = true) :
    (gxp_pm_resume_clkmux g).power_mgr.force_mux_normal_count = 0 ∧
    (gxp_pm_resume_clkmux g).trace =
      g.trace ++ [hw_op.writel_pll_aur .AUR_CMU_MUX_LOW, hw_op.writel_noc_user .AUR_CMU_MUX_LOW] := by
  simp [gxp_pm_resume_clkmux, gxp_dev.set_mgr, hc, hl, hcmu, set_cmu_noc_user_mux_state,
    set_cmu_pll_aur_mux_state, gxp_dev.emit]

theorem resume_clkmux_from_one (g : gxp_dev) (hc : g.power_mgr.force_mux_normal_count = 1)
    (hl : g.power_mgr.curr_low_clkmux = true) :
    (gxp_pm_resume_clkmux g).power_mgr.force_mux_normal_count = 0 ∧
    (gxp_pm_resume_clkmux g).trace =
      g.trace ++
        (if g.cmu_vaddr_ok = true then
          [hw_op.writel_pll_aur .AUR_CMU_MUX_LOW, hw_op.writel_noc_user .AUR_CMU_MUX_LOW]
        else []) := by
  cases hcmu : g.cmu_vaddr_ok <;>
    simp [gxp_pm_resume_clkmux, gxp_dev.set_mgr, hc, hl, hcmu, set_cmu_noc_user_mux_state,
      set_cmu_pll_aur_mux_state, gxp_dev.emit]

/-- C15, as stated, fails: on `dev_low_pending_unmapped` slot 0 is pending with
`prev_low_clkmux = false` and target `low_clkmux = true`, the block is on and the CMU
registers are not mapped; after `gxp_pm_force_clkmux_normal` the worker of slot 0 only makes
the performance-state write, and `gxp_pm_resume_clkmux` returns the count to zero without
writing any clock-mux register. -/
theorem deferred_clkmux_edge_counterexample :
    dev_low_pending_unmapped.power_mgr.set_acpm_state_work.get? 0 =
      some ⟨AUR_UD, AUR_UUD, true, false, true⟩ ∧
    dev_low_pending_unmapped.power_mgr.curr_state ≠ AUR_OFF ∧
    dev_low_pending_unmapped.cmu_vaddr_ok = false ∧
    (gxp_pm_force_clkmux_normal dev_low_pending_unmapped).power_mgr.force_mux_normal_count = 1 ∧
    (gxp_pm_blk_set_state_acpm_async backend_ok
        (gxp_pm_force_clkmux_normal dev_low_pending_unmapped) 0).trace =
      (gxp_pm_force_clkmux_normal dev_low_pending_unmapped).trace ++
        [hw_op.pm_set_rate .AUR_UD_RATE] ∧
    (gxp_pm_resume_clkmux
      (gxp_pm_blk_set_state_acpm_async backend_ok
        (gxp_pm_force_clkmux_normal dev_low_pending_unmapped)
        0)).power_mgr.force_mux_normal_count = 0 ∧
    (gxp_pm_resume_clkmux
      (gxp_pm_blk_set_state_acpm_async backend_ok
        (gxp_pm_force_clkmux_normal dev_low_pending_unmapped) 0)).trace =
      (gxp_pm_blk_set_state_acpm_async backend_ok
        (gxp_pm_force_clkmux_normal dev_low_pending_unmapped) 0).trace := by
  decide

/-- C15, amended. Deferred clock-mux edge. Let slot `i` hold a pending dispatch with
`prev_low_clkmux = false` and target `low_clkmux = true`, on a powered-on device whose
force-normal count is 0. In the sequence `gxp_pm_force_clkmux_normal`, worker of slot `i`,
`gxp_pm_resume_clkmux`: the worker writes no clock-mux register (its only call is the
performance-state write), and `gxp_pm_resume_clkmux`, which returns the count to zero, writes
both clock muxes to Low when the CMU registers are mapped, and writes nothing when they are
not. The edge is the one the worker would have written itself had it run before
`gxp_pm_force_clkmux_normal`. -/
theorem deferred_clkmux_edge (soc : backend) (g : gxp_dev) (i : Nat)
    (w : gxp_set_acpm_state_work)
    (hw : g.power_mgr.set_acpm_state_work[i]? = some w)
    (hprev : w.prev_low_clkmux = false) (htarget : w.low_clkmux = true)
    (hon : g.power_mgr.curr_state ≠ AUR_OFF)
    (hcount : g.power_mgr.force_mux_normal_count = 0) :
    (gxp_pm_blk_set_state_acpm_async soc g i).trace =
      g.trace ++
        (if g.cmu_vaddr_ok = true then
          [hw_op.writel_pll_aur .AUR_CMU_MUX_LOW, hw_op.writel_noc_user .AUR_CMU_MUX_LOW]
        else []) ++
        [hw_op.pm_set_rate (aur_power_state2rate.getD w.state .AUR_OFF_RATE)] ∧
    (gxp_pm_force_clkmux_normal g).power_mgr.force_mux_normal_count = 1 ∧
    (gxp_pm_blk_set_state_acpm_async soc (gxp_pm_force_clkmux_normal g) i).trace =
      (gxp_pm_force_clkmux_normal g).trace ++
        [hw_op.pm_set_rate (aur_power_state2rate.getD w.state .AUR_OFF_RATE)] ∧
    (gxp_pm_resume_clkmux
      (gxp_pm_blk_set_state_acpm_async soc
        (gxp_pm_force_clkmux_normal g) i)).power_mgr.force_mux_normal_count = 0 ∧
    (gxp_pm_resume_clkmux
      (gxp_pm_blk_set_state_acpm_async soc (gxp_pm_force_clkmux_normal g) i)).trace =
      (gxp_pm_blk_set_state_acpm_async soc (gxp_pm_force_clkmux_normal g) i).trace ++
        (if g.cmu_vaddr_ok = true then
          [hw_op.writel_pll_aur .AUR_CMU_MUX_LOW, hw_op.writel_noc_user .AUR_CMU_MUX_LOW]
        else []) := by
  have hnow : (gxp_pm_blk_set_state_acpm_async soc g i).trace =
      g.trace ++
        (if g.cmu_vaddr_ok = true then
          [hw_op.writel_pll_aur .AUR_CMU_MUX_LOW, hw_op.writel_noc_user .AUR_CMU_MUX_LOW]
        else []) ++
        [hw_op.pm_set_rate (aur_power_state2rate.getD w.state .AUR_OFF_RATE)] := by
    rw [worker_on_eq soc g i w hw hon]
    cases hc : g.cmu_vaddr_ok <;> simp [hprev, htarget, hcount]
  refine ⟨hnow, ?_⟩
  obtain ⟨hmgr, hcmu1⟩ := force_clkmux_normal_effect g
  rw [hcount] at hmgr
  generalize gxp_pm_force_clkmux_normal g = g1 at hmgr hcmu1 ⊢
  have hw1 : g1.power_mgr.set_acpm_state_work[i]? = some w := by rw [hmgr]; exact hw
  have hon1 : g1.power_mgr.curr_state ≠ AUR_OFF := by rw [hmgr]; exact hon
  have hc1 : g1.power_mgr.force_mux_normal_count = 1 := by rw [hmgr]; rfl
  obtain ⟨t1, t2, t3, t4⟩ := worker_while_forced soc g1 i w hw1 hon1 (by rw [hc1]; decide)
  obtain ⟨r1, r2⟩ := resume_clkmux_from_one (gxp_pm_blk_set_state_acpm_async soc g1 i)
    (by rw [t2, hc1]) (by rw [t3, htarget])
  rw [t4, hcmu1] at r2
  exact ⟨hc1, t1, r1, r2⟩

/-- An instance of `deferred_clkmux_edge` on `dev_low_pending`, whose CMU registers are
mapped and whose slot 0 is pending with `prev_low_clkmux = false` and target
`(UD, low_clkmux = true)`: after `gxp_pm_force_clkmux_normal` the worker only makes the
performance-state write for `UD`, and `gxp_pm_resume_clkmux` then writes both muxes to
Low. -/
theorem deferred_clkmux_edge_witness :
    dev_low_pending.power_mgr.set_acpm_state_work.get? 0 =
      some ⟨AUR_UD, AUR_UUD, true, false, true⟩ ∧
    dev_low_pending.cmu_vaddr_ok = true ∧
    (gxp_pm_blk_set_state_acpm_async backend_ok
        (gxp_pm_force_clkmux_normal dev_low_pending) 0).trace =
      (gxp_pm_force_clkmux_normal dev_low_pending).trace ++ [hw_op.pm_set_rate .AUR_UD_RATE] ∧
    (gxp_pm_resume_clkmux
      (gxp_pm_blk_set_state_acpm_async backend_ok
        (gxp_pm_force_clkmux_normal dev_low_pending) 0)).trace =
      (gxp_pm_blk_set_state_acpm_async backend_ok
        (gxp_pm_force_clkmux_normal dev_low_pending) 0).trace ++
        [hw_op.writel_pll_aur .AUR_CMU_MUX_LOW, hw_op.writel_noc_user .AUR_CMU_MUX_LOW] :=
  ⟨by decide, by decide,
   (deferred_clkmux_edge backend_ok dev_low_pending 0 ⟨AUR_UD, AUR_UUD, true, false, true⟩
      (by decide) rfl rfl (by decide) (by decide)).2.2.1,
   (deferred_clkmux_edge backend_ok dev_low_pending 0 ⟨AUR_UD, AUR_UUD, true, false, true⟩
      (by decide) rfl rfl (by decide) (by decide)).2.2.2.2⟩

/-! ## Busy tracking: properties -/

/-- C16, as stated, fails: the counter is not saturating. On a device fresh from
`gxp_pm_init` the counter holds the sentinel and `gxp_pm_busy` moves it out of the sentinel,
to 0; on `dev_on` the counter is 0 and `gxp_pm_idle` does not leave it at 0 but wraps it to
`BUSY_COUNT_OFF`, the sentinel. -/
theorem busy_count_saturating_counterexample :
    (gxp_dev_init 4).power_mgr.busy_count = BUSY_COUNT_OFF ∧
    (gxp_pm_busy (gxp_dev_init 4)).power_mgr.busy_count = 0 ∧
    dev_on.power_mgr.busy_count = 0 ∧
    (gxp_pm_idle true dev_on).power_mgr.busy_count = BUSY_COUNT_OFF := by
  decide

/-- C16, amended. The busy counter is a `u64` with a reserved powered-off value.
`gxp_pm_idle` tests it: while the counter holds `BUSY_COUNT_OFF` the call changes nothing and
writes no clock-mux register. `gxp_pm_busy` does not test it (its caller must have powered the
block): from `BUSY_COUNT_OFF` it wraps the counter to 0, writing no clock-mux register. Away
from the ends of the range both calls move the counter by exactly one without wrapping and
without reaching the sentinel: `gxp_pm_busy` from a count `c` with `c + 1 < BUSY_COUNT_OFF`,
`gxp_pm_idle` from a count `c` with `0 < c < BUSY_COUNT_OFF`. A successful power-up sets the
counter to 0 and a power-down from an on state sets it to the sentinel. -/
theorem busy_count_sentinel (slow : Bool) (soc : backend) (gxp : gxp_dev) :
    (gxp.power_mgr.busy_count = BUSY_COUNT_OFF → gxp_pm_idle slow gxp = gxp) ∧
    (gxp.power_mgr.busy_count = BUSY_COUNT_OFF →
      (gxp_pm_busy gxp).power_mgr.busy_count = 0 ∧ (gxp_pm_busy gxp).trace = gxp.trace) ∧
    (gxp.power_mgr.busy_count + 1 < BUSY_COUNT_OFF →
      (gxp_pm_busy gxp).power_mgr.busy_count = gxp.power_mgr.busy_count + 1) ∧
    (0 < gxp.power_mgr.busy_count → gxp.power_mgr.busy_count < BUSY_COUNT_OFF →
      (gxp_pm_idle slow gxp).power_mgr.busy_count = gxp.power_mgr.busy_count - 1) ∧
    ((gxp_pm_blkpwr_up soc gxp).1 = 0 → (gxp_pm_blk_on soc gxp).2.power_mgr.busy_count = 0) ∧
    (gxp.power_mgr.curr_state ≠ AUR_OFF →
      (gxp_pm_blk_off soc gxp).2.power_mgr.busy_count = BUSY_COUNT_OFF) := by
  have hmux : ∀ (g : gxp_dev) (v : cmu_mux),
      (set_cmu_noc_user_mux_state (set_cmu_pll_aur_mux_state g v) v).power_mgr = g.power_mgr := by
    intro g v
    simp only [set_cmu_noc_user_mux_state, set_cmu_pll_aur_mux_state, gxp_dev.emit]
    split_ifs <;> rfl
  refine ⟨?_, ?_, ?_, ?_, ?_, ?_⟩
  · intro h
    simp only [gxp_pm_idle, if_pos h]
  · intro h
    have h1 : (gxp.power_mgr.busy_count + 1) % U64_MOD = 0 := by
      rw [h]; decide
    have h2 : ¬ ((0 : Nat) = 1) := by decide
    simp only [gxp_pm_busy, gxp_dev.set_mgr, h1]
    rw [if_neg h2]
    exact ⟨rfl, rfl⟩
  · intro h
    have hlt : gxp.power_mgr.busy_count + 1 < U64_MOD := by
      have : BUSY_COUNT_OFF < U64_MOD := by decide
      omega
    simp only [gxp_pm_busy, gxp_dev.set_mgr, gxp_pm_on_busy]
    split_ifs
    · rw [hmux]; exact Nat.mod_eq_of_lt hlt
    · exact Nat.mod_eq_of_lt hlt
  · intro h0 hlt
    have hoff : BUSY_COUNT_OFF = U64_MOD - 1 := rfl
    have hpos : 0 < U64_MOD := by decide
    have hval : (gxp.power_mgr.busy_count + U64_MOD - 1) % U64_MOD =
        gxp.power_mgr.busy_count - 1 := by
      have e : gxp.power_mgr.busy_count + U64_MOD - 1 =
          (gxp.power_mgr.busy_count - 1) + U64_MOD := by omega
      rw [e, Nat.add_mod_right]
      exact Nat.mod_eq_of_lt (by omega)
    simp only [gxp_pm_idle, if_neg (Nat.ne_of_lt hlt), gxp_dev.set_mgr, gxp_pm_on_idle]
    split_ifs
    · rw [hmux]; exact hval
    · exact hval
    · exact hval
  · intro hup
    have h0 : ¬ (gxp_pm_blkpwr_up soc gxp).1 ≠ 0 := not_not.mpr hup
    simp only [gxp_pm_blk_on, if_neg h0, gxp_dev.set_mgr, gxp_pm_can_busy]
  · intro hon
    simp only [gxp_pm_blk_off, if_neg hon]
    split_ifs
    · simp only [gxp_dev.set_mgr, blkpwr_down_power_mgr, gxp_dev.emit, reset_cmu_mux_state,
        hmux, gxp_pm_no_busy]
    · simp only [gxp_dev.set_mgr, blkpwr_down_power_mgr, gxp_dev.emit, reset_cmu_mux_state,
        hmux, gxp_pm_no_busy]

/-- An instance of `busy_count_sentinel`: on a device fresh from `gxp_pm_init` the counter
holds the sentinel, `gxp_pm_idle` changes nothing and `gxp_pm_busy` wraps the counter to 0;
powering `dev_on` down sets the sentinel again. -/
theorem busy_count_sentinel_witness :
    (gxp_dev_init 4).power_mgr.busy_count = BUSY_COUNT_OFF ∧
    gxp_pm_idle true (gxp_dev_init 4) = gxp_dev_init 4 ∧
    ((gxp_pm_busy (gxp_dev_init 4)).power_mgr.busy_count = 0 ∧
      (gxp_pm_busy (gxp_dev_init 4)).trace = (gxp_dev_init 4).trace) ∧
    (gxp_pm_blk_off backend_ok dev_on).2.power_mgr.busy_count = BUSY_COUNT_OFF :=
  ⟨by decide,
   (busy_count_sentinel true backend_ok (gxp_dev_init 4)).1 (by decide),
   (busy_count_sentinel true backend_ok (gxp_dev_init 4)).2.1 (by decide),
   (busy_count_sentinel true backend_ok dev_on).2.2.2.2.2 (by decide)⟩

/-- C17, as stated, fails: on `dev_on_unmapped` the busy counter is 0 and `gxp_pm_busy`
moves it to 1, yet the call writes no clock-mux register, because the CMU registers are not
mapped; likewise the following `gxp_pm_idle`, with slow-clock-on-idle enabled, moves the
counter from 1 to 0 and writes nothing. -/
theorem busy_idle_unmapped_counterexample :
    dev_on_unmapped.cmu_vaddr_ok = false ∧
    dev_on_unmapped.power_mgr.busy_count = 0 ∧
    (gxp_pm_busy dev_on_unmapped).power_mgr.busy_count = 1 ∧
    (gxp_pm_busy dev_on_unmapped).trace = dev_on_unmapped.trace ∧
    (gxp_pm_idle true (gxp_pm_busy dev_on_unmapped)).power_mgr.busy_count = 0 ∧
    (gxp_pm_idle true (gxp_pm_busy dev_on_unmapped)).trace =
      (gxp_pm_busy dev_on_unmapped).trace := by
  decide

/-- C17, amended. Clock-mux edges of the busy counter, for every value of the `u64` counter.
`gxp_pm_busy` writes the clock muxes (both, to Normal) exactly when the call moves the
counter from 0 to 1, which it does exactly when the counter was 0, and the CMU registers are
mapped. `gxp_pm_idle` writes the clock muxes (both, to Low) exactly when the call moves the
counter from 1 to 0, which it does exactly when the counter was 1, slow-clock-on-idle is
enabled and the CMU registers are mapped. Every other busy or idle call writes no clock-mux
register. -/
theorem busy_idle_clkmux_edges (slow : Bool) (gxp : gxp_dev)
    (hrange : gxp.power_mgr.busy_count < U64_MOD) :
    (gxp_pm_busy gxp).trace =
      gxp.trace ++
        (if (gxp.power_mgr.busy_count = 0 ∧ (gxp_pm_busy gxp).power_mgr.busy_count = 1) ∧
            gxp.cmu_vaddr_ok = true then
          [hw_op.writel_pll_aur .AUR_CMU_MUX_NORMAL, hw_op.writel_noc_user .AUR_CMU_MUX_NORMAL]
        else []) ∧
    ((gxp.power_mgr.busy_count = 0 ∧ (gxp_pm_busy gxp).power_mgr.busy_count = 1) ↔
      gxp.power_mgr.busy_count = 0) ∧
    ((gxp_pm_busy gxp).power_mgr.busy_count = 1 → gxp.power_mgr.busy_count = 0) ∧
    (gxp_pm_idle slow gxp).trace =
      gxp.trace ++
        (if ((gxp.power_mgr.busy_count = 1 ∧ (gxp_pm_idle slow gxp).power_mgr.busy_count = 0) ∧
            slow = true) ∧ gxp.cmu_vaddr_ok = true then
          [hw_op.writel_pll_aur .AUR_CMU_MUX_LOW, hw_op.writel_noc_user .AUR_CMU_MUX_LOW]
        else []) ∧
    ((gxp.power_mgr.busy_count = 1 ∧ (gxp_pm_idle slow gxp).power_mgr.busy_count = 0) ↔
      gxp.power_mgr.busy_count = 1) ∧
    ((gxp_pm_idle slow gxp).power_mgr.busy_count = 0 → gxp.power_mgr.busy_count = 1) := by
  have hmux : ∀ (g : gxp_dev) (v : cmu_mux),
      set_cmu_noc_user_mux_state (set_cmu_pll_aur_mux_state g v) v =
        { g with trace := g.trace ++
            (if g.cmu_vaddr_ok = true then [hw_op.writel_pll_aur v, hw_op.writel_noc_user v]
              else []) } := by
    intro g v
    obtain ⟨mgr, cmu, tr⟩ := g
    cases cmu <;> simp [set_cmu_noc_user_mux_state, set_cmu_pll_aur_mux_state, gxp_dev.emit]
  have hU : U64_MOD = 18446744073709551616 := rfl
  have hO : BUSY_COUNT_OFF = 18446744073709551615 := by decide
  rw [hU] at hrange
  -- the busy side
  have hb1 : (gxp.power_mgr.busy_count + 1) % U64_MOD = 1 ↔ gxp.power_mgr.busy_count = 0 := by
    rw [hU]; omega
  have hbusy : gxp_pm_busy gxp =
      if gxp.power_mgr.busy_count = 0 then
        { gxp with
          power_mgr := { gxp.power_mgr with busy_count := 1 }
          trace := gxp.trace ++
            (if gxp.cmu_vaddr_ok = true then
              [hw_op.writel_pll_aur .AUR_CMU_MUX_NORMAL,
                hw_op.writel_noc_user .AUR_CMU_MUX_NORMAL]
            else []) }
      else
        { gxp with power_mgr := { gxp.power_mgr with
            busy_count := (gxp.power_mgr.busy_count + 1) % U64_MOD } } := by
    by_cases h0 : gxp.power_mgr.busy_count = 0
    · rw [if_pos h0]
      simp only [gxp_pm_busy, gxp_dev.set_mgr, hb1.mpr h0, if_true, gxp_pm_on_busy]
      exact hmux _ _
    · rw [if_neg h0]
      simp only [gxp_pm_busy, gxp_dev.set_mgr, if_neg (fun h => h0 (hb1.mp h))]
  -- the idle side
  have hi0 : gxp.power_mgr.busy_count ≠ BUSY_COUNT_OFF →
      ((gxp.power_mgr.busy_count + U64_MOD - 1) % U64_MOD = 0 ↔ gxp.power_mgr.busy_count = 1) := by
    intro _
    rw [hU]; omega
  have hidle : gxp_pm_idle slow gxp =
      if gxp.power_mgr.busy_count = BUSY_COUNT_OFF then gxp
      else if gxp.power_mgr.busy_count = 1 then
        { gxp with
          power_mgr := { gxp.power_mgr with busy_count := 0 }
          trace := gxp.trace ++
            (if slow = true ∧ gxp.cmu_vaddr_ok = true then
              [hw_op.writel_pll_aur .AUR_CMU_MUX_LOW, hw_op.writel_noc_user .AUR_CMU_MUX_LOW]
            else []) }
      else
        { gxp with power_mgr := { gxp.power_mgr with
            busy_count := (gxp.power_mgr.busy_count + U64_MOD - 1) % U64_MOD } } := by
    by_cases hoff : gxp.power_mgr.busy_count = BUSY_COUNT_OFF
    · rw [if_pos hoff]
      simp only [gxp_pm_idle, if_pos hoff]
    · rw [if_neg hoff]
      by_cases h1 : gxp.power_mgr.busy_count = 1
      · rw [if_pos h1]
        simp only [gxp_pm_idle, if_neg hoff, gxp_dev.set_mgr, (hi0 hoff).mpr h1, if_true,
          gxp_pm_on_idle]
        cases slow
        · simp
        · simp only [if_true, true_and]
          exact hmux _ _
      · rw [if_neg h1]
        simp only [gxp_pm_idle, if_neg hoff, gxp_dev.set_mgr,
          if_neg (fun h => h1 ((hi0 hoff).mp h))]
  refine ⟨?_, ?_, ?_, ?_, ?_, ?_⟩
  · rw [hbusy]
    by_cases h0 : gxp.power_mgr.busy_count = 0
    · cases hc : gxp.cmu_vaddr_ok <;> simp [h0, hc]
    · simp [h0]
  · rw [hbusy]
    constructor
    · exact fun h => h.1
    · intro h0
      simp [h0]
  · rw [hbusy]
    by_cases h0 : gxp.power_mgr.busy_count = 0
    · intro _; exact h0
    · rw [if_neg h0]
      intro h
      exact hb1.mp h
  · rw [hidle]
    by_cases hoff : gxp.power_mgr.busy_count = BUSY_COUNT_OFF
    · have h1 : ¬ gxp.power_mgr.busy_count = 1 := by rw [hoff, hO]; decide
      simp [hoff, h1]
      intro h
      rw [hO] at h
      exact absurd h (by decide)
    · by_cases h1 : gxp.power_mgr.busy_count = 1
      · rw [if_neg hoff, if_pos h1]
        cases slow <;> cases hc : gxp.cmu_vaddr_ok <;> simp [h1, hc]
      · simp [hoff, h1]
  · rw [hidle]
    constructor
    · exact fun h => h.1
    · intro h1
      have hoff : ¬ gxp.power_mgr.busy_count = BUSY_COUNT_OFF := by rw [h1, hO]; decide
      rw [if_neg hoff, if_pos h1]
      exact ⟨h1, rfl⟩
  · rw [hidle]
    by_cases hoff : gxp.power_mgr.busy_count = BUSY_COUNT_OFF
    · rw [if_pos hoff]
      intro h
      rw [hoff, hO] at h
      exact absurd h (by decide)
    · rw [if_neg hoff]
      by_cases h1 : gxp.power_mgr.busy_count = 1
      · intro _; exact h1
      · rw [if_neg h1]
        intro h
        exact (hi0 hoff).mp h

/-- An instance of `busy_idle_clkmux_edges`: on `dev_on`, whose CMU registers are mapped, the
counter is 0 and `gxp_pm_busy` writes both muxes to Normal; on `dev_busy3` the counter is 3
and neither call writes a clock-mux register; after one `gxp_pm_busy` on `dev_on` the counter
is 1 and `gxp_pm_idle` writes both muxes to Low. -/
theorem busy_idle_clkmux_edges_witness :
    dev_on.power_mgr.busy_count = 0 ∧
    dev_on.cmu_vaddr_ok = true ∧
    (gxp_pm_busy dev_on).trace =
      dev_on.trace ++
        [hw_op.writel_pll_aur .AUR_CMU_MUX_NORMAL, hw_op.writel_noc_user .AUR_CMU_MUX_NORMAL] ∧
    dev_busy3.power_mgr.busy_count = 3 ∧
    (gxp_pm_busy dev_busy3).trace = dev_busy3.trace ∧
    (gxp_pm_idle true dev_busy3).trace = dev_busy3.trace ∧
    (gxp_pm_idle true (gxp_pm_busy dev_on)).trace =
      (gxp_pm_busy dev_on).trace ++
        [hw_op.writel_pll_aur .AUR_CMU_MUX_LOW, hw_op.writel_noc_user .AUR_CMU_MUX_LOW] ∧
    ((gxp_pm_busy dev_on).power_mgr.busy_count = 1 → dev_on.power_mgr.busy_count = 0) :=
  ⟨by decide, by decide,
   (busy_idle_clkmux_edges true dev_on (by decide)).1.trans (by decide),
   by decide,
   (busy_idle_clkmux_edges true dev_busy3 (by decide)).1.trans (by decide),
   (busy_idle_clkmux_edges true dev_busy3 (by decide)).2.2.2.1.trans (by decide),
   (busy_idle_clkmux_edges true (gxp_pm_busy dev_on) (by decide)).2.2.2.1.trans (by decide),
   (busy_idle_clkmux_edges true dev_on (by decide)).2.2.1⟩

/-! ## Block lifecycle: properties -/

theorem blkpwr_up_power_mgr (soc : backend) (g : gxp_dev) :
    (gxp_pm_blkpwr_up soc g).2.power_mgr = g.power_mgr := by
  simp only [gxp_pm_blkpwr_up, gxp_dev.emit]
  split_ifs
  · rfl
  · split
    · split_ifs <;> rfl
    · rfl

/-- C18. Power-up (`gxp_pm_blk_on`), from any state of the power manager, on or off. When the
backend domain power-up (`gxp_pm_blkpwr_up`) succeeds, the call returns 0, requests the
initial default performance state from the backend (the rate of `AUR_INIT_DVFS_STATE`), sets
`curr_state` to `AUR_INIT_DVFS_STATE`, sets `busy_count` to 0 and increments the `u64`
`blk_switch_count` by exactly one, leaving the other fields of the power manager as they
were. Nothing depends on the block being off, so a call on a block already on does all of it
again. When the backend domain power-up fails the call returns that error and changes no field
of the power manager. -/
theorem blk_on_effect (soc : backend) (gxp : gxp_dev) :
    ((gxp_pm_blkpwr_up soc gxp).1 = 0 →
      (gxp_pm_blk_on soc gxp).1 = 0 ∧
      (gxp_pm_blk_on soc gxp).2.trace =
        (gxp_pm_blkpwr_up soc gxp).2.trace ++
          [hw_op.pm_set_rate (aur_power_state2rate.getD AUR_INIT_DVFS_STATE .AUR_OFF_RATE),
           hw_op.gxp_iommu_setup_shareability, hw_op.gxp_soc_lpm_init] ∧
      (gxp_pm_blk_on soc gxp).2.power_mgr =
        { gxp.power_mgr with
          curr_state := AUR_INIT_DVFS_STATE
          blk_switch_count := (gxp.power_mgr.blk_switch_count + 1) % U64_MOD
          busy_count := 0 } ∧
      (gxp.power_mgr.blk_switch_count + 1 < U64_MOD →
        (gxp_pm_blk_on soc gxp).2.power_mgr.blk_switch_count =
          gxp.power_mgr.blk_switch_count + 1)) ∧
    ((gxp_pm_blkpwr_up soc gxp).1 ≠ 0 →
      (gxp_pm_blk_on soc gxp).1 = (gxp_pm_blkpwr_up soc gxp).1 ∧
      (gxp_pm_blk_on soc gxp).2.power_mgr = gxp.power_mgr) := by
  have hmgr := blkpwr_up_power_mgr soc gxp
  constructor
  · intro hup
    have h0 : ¬ (gxp_pm_blkpwr_up soc gxp).1 ≠ 0 := not_not.mpr hup
    simp only [gxp_pm_blk_on, if_neg h0, gxp_pm_blk_set_state_acpm, gxp_pm_blk_set_rate_acpm,
      gxp_dev.set_mgr, gxp_dev.emit, gxp_pm_can_busy, hmgr, List.append_assoc,
      List.singleton_append]
    refine ⟨hup, by simp, trivial, fun hlt => ?_⟩
    exact Nat.mod_eq_of_lt hlt
  · intro hup
    simp only [gxp_pm_blk_on, if_pos hup]
    exact ⟨trivial, hmgr⟩

/-- An instance of `blk_on_effect`: powering up a fresh device returns 0, requests the `UUD`
rate and counts one block switch; powering the device up again, although it is on, requests
the rate again and counts a second switch; against a backend whose
`pm_runtime_resume_and_get` fails the power manager is left unchanged. -/
theorem blk_on_effect_witness :
    (gxp_pm_blkpwr_up backend_ok (gxp_dev_init 4)).1 = 0 ∧
    (gxp_pm_blk_on backend_ok (gxp_dev_init 4)).1 = 0 ∧
    dev_on.power_mgr.curr_state = AUR_INIT_DVFS_STATE ∧
    dev_on.power_mgr.blk_switch_count = 1 ∧
    (gxp_pm_blk_on backend_ok dev_on).1 = 0 ∧
    (gxp_pm_blk_on backend_ok dev_on).2.power_mgr.blk_switch_count = 2 ∧
    (gxp_pm_blk_on backend_ok dev_on).2.trace =
      dev_on.trace ++
        [hw_op.pm_runtime_resume_and_get, hw_op.pm_set_rate .AUR_UUD_RATE,
         hw_op.gxp_iommu_setup_shareability, hw_op.gxp_soc_lpm_init] ∧
    (gxp_pm_blk_on { backend_ok with pm_runtime_resume_and_get := -EINVAL }
      (gxp_dev_init 4)).2.power_mgr = (gxp_dev_init 4).power_mgr :=
  ⟨by decide,
   ((blk_on_effect backend_ok (gxp_dev_init 4)).1 (by decide)).1,
   by decide, by decide,
   ((blk_on_effect backend_ok dev_on).1 (by decide)).1,
   by decide, by decide,
   ((blk_on_effect { backend_ok with pm_runtime_resume_and_get := -EINVAL }
      (gxp_dev_init 4)).2 (by decide)).2⟩

/-- C19, as stated, fails: on `dev_on_unmapped` the block is on and the CMU registers are not
mapped; `gxp_pm_blk_off` returns 0, sets the sentinel and turns the block off, yet it writes
no clock-mux register: its calls are the LPM destroy and the backend power-down only. -/
theorem blk_off_unmapped_counterexample :
    dev_on_unmapped.power_mgr.curr_state ≠ AUR_OFF ∧
    dev_on_unmapped.cmu_vaddr_ok = false ∧
    (gxp_pm_blk_off backend_ok dev_on_unmapped).1 = 0 ∧
    (gxp_pm_blk_off backend_ok dev_on_unmapped).2.power_mgr.busy_count = BUSY_COUNT_OFF ∧
    (gxp_pm_blk_off backend_ok dev_on_unmapped).2.power_mgr.curr_state = AUR_OFF ∧
    (gxp_pm_blk_off backend_ok dev_on_unmapped).2.trace =
      dev_on_unmapped.trace ++
        [hw_op.gxp_soc_lpm_destroy, hw_op.pm_runtime_put_sync, hw_op.gxp_soc_pm_reset] := by
  decide

/-- C19, amended. Power-down from an on state (`gxp_pm_blk_off` with
`curr_state != AUR_OFF`). The backend is asked to power the domain down
(`gxp_pm_blkpwr_down`) on a device whose busy counter already holds the sentinel and on which
both clock muxes have been written to Normal, when the CMU registers are mapped (no
clock-mux register is written when they are not), and the LPM destroyed, in that order. The
calls of the backend power-down follow in the trace: `pm_runtime_put_sync` and
`gxp_soc_pm_reset`, preceded by the `before_blk_power_down` callback when one is installed,
which ends the power-down when it fails. The busy counter holds the sentinel on return.
`curr_state` becomes `AUR_OFF` if and only if the backend power-down returns 0; otherwise
`curr_state` is unchanged and the result of the call is the value the backend returned. No
other field of the power manager changes. -/
theorem blk_off_effect (soc : backend) (gxp : gxp_dev)
    (hon : gxp.power_mgr.curr_state ≠ AUR_OFF) :
    (gxp_pm_blk_off soc gxp).1 =
      (gxp_pm_blkpwr_down soc
        { gxp with
          power_mgr := { gxp.power_mgr with busy_count := BUSY_COUNT_OFF }
          trace := (gxp.trace ++
            (if gxp.cmu_vaddr_ok = true then
              [hw_op.writel_pll_aur .AUR_CMU_MUX_NORMAL,
                hw_op.writel_noc_user .AUR_CMU_MUX_NORMAL]
            else []) ++ [hw_op.gxp_soc_lpm_destroy]) }).1 ∧
    (gxp_pm_blk_off soc gxp).2.trace =
      (gxp_pm_blkpwr_down soc
        { gxp with
          power_mgr := { gxp.power_mgr with busy_count := BUSY_COUNT_OFF }
          trace := (gxp.trace ++
            (if gxp.cmu_vaddr_ok = true then
              [hw_op.writel_pll_aur .AUR_CMU_MUX_NORMAL,
                hw_op.writel_noc_user .AUR_CMU_MUX_NORMAL]
            else []) ++ [hw_op.gxp_soc_lpm_destroy]) }).2.trace ∧
    (soc.before_blk_power_down = none →
      (gxp_pm_blk_off soc gxp).1 = soc.pm_runtime_put_sync ∧
      (gxp_pm_blk_off soc gxp).2.trace =
        gxp.trace ++
          (if gxp.cmu_vaddr_ok = true then
            [hw_op.writel_pll_aur .AUR_CMU_MUX_NORMAL, hw_op.writel_noc_user .AUR_CMU_MUX_NORMAL]
          else []) ++
          [hw_op.gxp_soc_lpm_destroy, hw_op.pm_runtime_put_sync, hw_op.gxp_soc_pm_reset]) ∧
    (soc.before_blk_power_down = some 0 →
      (gxp_pm_blk_off soc gxp).1 = soc.pm_runtime_put_sync ∧
      (gxp_pm_blk_off soc gxp).2.trace =
        gxp.trace ++
          (if gxp.cmu_vaddr_ok = true then
            [hw_op.writel_pll_aur .AUR_CMU_MUX_NORMAL, hw_op.writel_noc_user .AUR_CMU_MUX_NORMAL]
          else []) ++
          [hw_op.gxp_soc_lpm_destroy, hw_op.before_blk_power_down, hw_op.pm_runtime_put_sync,
           hw_op.gxp_soc_pm_reset]) ∧
    (∀ ret : Int, soc.before_blk_power_down = some ret → ret ≠ 0 →
      (gxp_pm_blk_off soc gxp).1 = ret ∧
      (gxp_pm_blk_off soc gxp).2.trace =
        gxp.trace ++
          (if gxp.cmu_vaddr_ok = true then
            [hw_op.writel_pll_aur .AUR_CMU_MUX_NORMAL, hw_op.writel_noc_user .AUR_CMU_MUX_NORMAL]
          else []) ++
          [hw_op.gxp_soc_lpm_destroy, hw_op.before_blk_power_down]) ∧
    (gxp_pm_blk_off soc gxp).2.power_mgr.busy_count = BUSY_COUNT_OFF ∧
    ((gxp_pm_blk_off soc gxp).2.power_mgr.curr_state = AUR_OFF ↔
      (gxp_pm_blk_off soc gxp).1 = 0) ∧
    ((gxp_pm_blk_off soc gxp).1 = 0 →
      (gxp_pm_blk_off soc gxp).2.power_mgr =
        { gxp.power_mgr with busy_count := BUSY_COUNT_OFF, curr_state := AUR_OFF }) ∧
    ((gxp_pm_blk_off soc gxp).1 ≠ 0 →
      (gxp_pm_blk_off soc gxp).2.power_mgr =
        { gxp.power_mgr with busy_count := BUSY_COUNT_OFF } ∧
      (gxp_pm_blk_off soc gxp).2.power_mgr.curr_state = gxp.power_mgr.curr_state) ∧
    (gxp_pm_blk_off soc gxp).2.cmu_vaddr_ok = gxp.cmu_vaddr_ok := by
  have hpre : (reset_cmu_mux_state (gxp.set_mgr (gxp_pm_no_busy gxp.power_mgr))).emit
      hw_op.gxp_soc_lpm_destroy =
      { gxp with
        power_mgr := { gxp.power_mgr with busy_count := BUSY_COUNT_OFF }
        trace := (gxp.trace ++
          (if gxp.cmu_vaddr_ok = true then
            [hw_op.writel_pll_aur .AUR_CMU_MUX_NORMAL,
              hw_op.writel_noc_user .AUR_CMU_MUX_NORMAL]
          else []) ++ [hw_op.gxp_soc_lpm_destroy]) } := by
    obtain ⟨mgr, cmu, tr⟩ := gxp
    cases cmu <;>
      simp [reset_cmu_mux_state, set_cmu_noc_user_mux_state, set_cmu_pll_aur_mux_state,
        gxp_dev.emit, gxp_dev.set_mgr, gxp_pm_no_busy]
  have hoff : gxp_pm_blk_off soc gxp =
      if (gxp_pm_blkpwr_down soc
          ((reset_cmu_mux_state (gxp.set_mgr (gxp_pm_no_busy gxp.power_mgr))).emit
            hw_op.gxp_soc_lpm_destroy)).1 = 0 then
        ((gxp_pm_blkpwr_down soc
          ((reset_cmu_mux_state (gxp.set_mgr (gxp_pm_no_busy gxp.power_mgr))).emit
            hw_op.gxp_soc_lpm_destroy)).1,
         (gxp_pm_blkpwr_down soc
          ((reset_cmu_mux_state (gxp.set_mgr (gxp_pm_no_busy gxp.power_mgr))).emit
            hw_op.gxp_soc_lpm_destroy)).2.set_mgr
          { (gxp_pm_blkpwr_down soc
              ((reset_cmu_mux_state (gxp.set_mgr (gxp_pm_no_busy gxp.power_mgr))).emit
                hw_op.gxp_soc_lpm_destroy)).2.power_mgr with curr_state := AUR_OFF })
      else gxp_pm_blkpwr_down soc
          ((reset_cmu_mux_state (gxp.set_mgr (gxp_pm_no_busy gxp.power_mgr))).emit
            hw_op.gxp_soc_lpm_destroy) := by
    simp only [gxp_pm_blk_off, if_neg hon]
  rw [hpre] at hoff
  generalize hmuxdef : (if gxp.cmu_vaddr_ok = true then
      [hw_op.writel_pll_aur cmu_mux.AUR_CMU_MUX_NORMAL,
        hw_op.writel_noc_user cmu_mux.AUR_CMU_MUX_NORMAL]
    else []) = mux at hoff ⊢
  have hmgr := blkpwr_down_power_mgr soc
    { gxp with
      power_mgr := { gxp.power_mgr with busy_count := BUSY_COUNT_OFF }
      trace := (gxp.trace ++ mux ++ [hw_op.gxp_soc_lpm_destroy]) }
  have hcmu : (gxp_pm_blkpwr_down soc
      { gxp with
        power_mgr := { gxp.power_mgr with busy_count := BUSY_COUNT_OFF }
        trace := (gxp.trace ++ mux ++ [hw_op.gxp_soc_lpm_destroy]) }).2.cmu_vaddr_ok =
      gxp.cmu_vaddr_ok := by
    simp only [gxp_pm_blkpwr_down, blkpwr_down_put, gxp_dev.emit]
    split
    · split_ifs <;> rfl
    · rfl
  have hnone : soc.before_blk_power_down = none →
      gxp_pm_blkpwr_down soc
        { gxp with
          power_mgr := { gxp.power_mgr with busy_count := BUSY_COUNT_OFF }
          trace := (gxp.trace ++ mux ++ [hw_op.gxp_soc_lpm_destroy]) } =
        (soc.pm_runtime_put_sync,
         { gxp with
          power_mgr := { gxp.power_mgr with busy_count := BUSY_COUNT_OFF }
          trace := (gxp.trace ++ mux ++
            [hw_op.gxp_soc_lpm_destroy, hw_op.pm_runtime_put_sync, hw_op.gxp_soc_pm_reset]) }) := by
    intro h
    simp [gxp_pm_blkpwr_down, blkpwr_down_put, gxp_dev.emit, h]
  have hzero : soc.before_blk_power_down = some 0 →
      gxp_pm_blkpwr_down soc
        { gxp with
          power_mgr := { gxp.power_mgr with busy_count := BUSY_COUNT_OFF }
          trace := (gxp.trace ++ mux ++ [hw_op.gxp_soc_lpm_destroy]) } =
        (soc.pm_runtime_put_sync,
         { gxp with
          power_mgr := { gxp.power_mgr with busy_count := BUSY_COUNT_OFF }
          trace := (gxp.trace ++ mux ++
            [hw_op.gxp_soc_lpm_destroy, hw_op.before_blk_power_down,
              hw_op.pm_runtime_put_sync, hw_op.gxp_soc_pm_reset]) }) := by
    intro h
    simp [gxp_pm_blkpwr_down, blkpwr_down_put, gxp_dev.emit, h]
  have hfail : ∀ ret : Int, soc.before_blk_power_down = some ret → ret ≠ 0 →
      gxp_pm_blkpwr_down soc
        { gxp with
          power_mgr := { gxp.power_mgr with busy_count := BUSY_COUNT_OFF }
          trace := (gxp.trace ++ mux ++ [hw_op.gxp_soc_lpm_destroy]) } =
        (ret,
         { gxp with
          power_mgr := { gxp.power_mgr with busy_count := BUSY_COUNT_OFF }
          trace := (gxp.trace ++ mux ++
            [hw_op.gxp_soc_lpm_destroy, hw_op.before_blk_power_down]) }) := by
    intro ret h hret
    simp [gxp_pm_blkpwr_down, blkpwr_down_put, gxp_dev.emit, h, hret]
  generalize gxp_pm_blkpwr_down soc
    { gxp with
      power_mgr := { gxp.power_mgr with busy_count := BUSY_COUNT_OFF }
      trace := (gxp.trace ++ mux ++ [hw_op.gxp_soc_lpm_destroy]) } = down
    at hoff hmgr hcmu hnone hzero hfail ⊢
  rw [hoff]
  by_cases hd : down.1 = 0
  · rw [if_pos hd]
    simp only [gxp_dev.set_mgr, hmgr]
    refine ⟨trivial, trivial, ?_, ?_, ?_, trivial, ?_, fun _ => trivial,
      fun h => absurd hd h, hcmu⟩
    · intro h; rw [hnone h]; exact ⟨rfl, rfl⟩
    · intro h; rw [hzero h]; exact ⟨rfl, rfl⟩
    · intro ret h hret; rw [hfail ret h hret]; exact ⟨rfl, rfl⟩
    · exact ⟨fun _ => hd, fun _ => trivial⟩
  · rw [if_neg hd]
    refine ⟨rfl, rfl, ?_, ?_, ?_, by rw [hmgr], ?_, fun h => absurd h hd,
      fun _ => ⟨hmgr, by rw [hmgr]⟩, hcmu⟩
    · intro h; rw [hnone h]; exact ⟨rfl, rfl⟩
    · intro h; rw [hzero h]; exact ⟨rfl, rfl⟩
    · intro ret h hret; rw [hfail ret h hret]; exact ⟨rfl, rfl⟩
    · rw [hmgr]
      exact ⟨fun h => absurd h hon, fun h => absurd h hd⟩

/-- An instance of `blk_off_effect` on `dev_on`, whose CMU registers are mapped: against a
backend on which every call succeeds the call writes both muxes to Normal, destroys the LPM
and powers the domain down, and the block ends off with the sentinel in the busy counter;
against a backend whose `pm_runtime_put_sync` fails the error is returned and `curr_state`
stays `UUD`, the sentinel being set all the same. -/
theorem blk_off_effect_witness :
    dev_on.power_mgr.curr_state ≠ AUR_OFF ∧ dev_on.cmu_vaddr_ok = true ∧
    (gxp_pm_blk_off backend_ok dev_on).1 = 0 ∧
    (gxp_pm_blk_off backend_ok dev_on).2.trace =
      dev_on.trace ++
        [hw_op.writel_pll_aur .AUR_CMU_MUX_NORMAL, hw_op.writel_noc_user .AUR_CMU_MUX_NORMAL,
         hw_op.gxp_soc_lpm_destroy, hw_op.pm_runtime_put_sync, hw_op.gxp_soc_pm_reset] ∧
    (gxp_pm_blk_off backend_ok dev_on).2.power_mgr =
      { dev_on.power_mgr with busy_count := BUSY_COUNT_OFF, curr_state := AUR_OFF } ∧
    (gxp_pm_blk_off backend_put_sync_fails dev_on).1 = -EBUSY ∧
    ((gxp_pm_blk_off backend_put_sync_fails dev_on).2.power_mgr =
        { dev_on.power_mgr with busy_count := BUSY_COUNT_OFF } ∧
      (gxp_pm_blk_off backend_put_sync_fails dev_on).2.power_mgr.curr_state =
        dev_on.power_mgr.curr_state) :=
  ⟨by decide, by decide, by decide,
   ((blk_off_effect backend_ok dev_on (by decide)).2.2.1 rfl).2.trans (by decide),
   (blk_off_effect backend_ok dev_on (by decide)).2.2.2.2.2.2.2.1 (by decide),
   by decide,
   (blk_off_effect backend_put_sync_fails dev_on (by decide)).2.2.2.2.2.2.2.2.1 (by decide)⟩

/-! ## Redundant requests: properties -/

theorem req_state_locked_idem (g : gxp_dev) (s : Nat) (l : Bool) :
    gxp_pm_req_state_locked (gxp_pm_req_state_locked g s l).2 s l =
      gxp_pm_req_state_locked g s l := by
  by_cases h1 : s > AUR_MAX_ALLOW_STATE
  · simp only [gxp_pm_req_state_locked, if_pos h1]
  by_cases hoff : g.power_mgr.curr_state = AUR_OFF
  · simp only [gxp_pm_req_state_locked, if_neg h1, if_pos hoff]
  by_cases h3 : s = AUR_OFF
  · simp only [gxp_pm_req_state_locked, if_neg h1, if_neg hoff, if_pos h3]
  by_cases h4 : s ≠ g.power_mgr.curr_state ∨ l ≠ g.power_mgr.last_scheduled_low_clkmux
  · obtain ⟨happ, _, _⟩ := req_state_locked_applied g s l hoff
      (req_state_locked_ret g s l hoff (Nat.le_of_not_lt h1))
    obtain ⟨e1, e2⟩ := happ h3
    have hret := req_state_locked_ret g s l hoff (Nat.le_of_not_lt h1)
    have hon2 : (gxp_pm_req_state_locked g s l).2.power_mgr.curr_state ≠ AUR_OFF := by
      rw [e1]; exact h3
    have hsame : ¬ (s ≠ (gxp_pm_req_state_locked g s l).2.power_mgr.curr_state ∨
        l ≠ (gxp_pm_req_state_locked g s l).2.power_mgr.last_scheduled_low_clkmux) := by
      rw [e1, e2]; simp
    generalize gxp_pm_req_state_locked g s l = res at hret hon2 hsame ⊢
    simp only [gxp_pm_req_state_locked, if_neg h1, if_neg hon2, if_neg h3, if_neg hsame]
    rw [← hret]
  · simp only [gxp_pm_req_state_locked, if_neg h1, if_neg hoff, if_neg h3, if_neg h4]

theorem req_memory_state_locked_idem (g : gxp_dev) (s : Nat) :
    gxp_pm_req_memory_state_locked (gxp_pm_req_memory_state_locked g s).2 s =
      gxp_pm_req_memory_state_locked g s := by
  by_cases h1 : s > AUR_MAX_ALLOW_MEMORY_STATE
  · simp only [gxp_pm_req_memory_state_locked, if_pos h1]
  by_cases hoff : g.power_mgr.curr_state = AUR_OFF
  · simp only [gxp_pm_req_memory_state_locked, if_neg h1, if_pos hoff]
  by_cases h4 : s ≠ g.power_mgr.curr_memory_state
  · have hstep : gxp_pm_req_memory_state_locked g s =
        (0, (gxp_pm_req_memory_state_locked g s).2) ∧
        (gxp_pm_req_memory_state_locked g s).2.power_mgr.curr_state = g.power_mgr.curr_state ∧
        (gxp_pm_req_memory_state_locked g s).2.power_mgr.curr_memory_state = s := by
      simp only [gxp_pm_req_memory_state_locked, if_neg h1, if_neg hoff, if_pos h4,
        gxp_dev.set_mgr, gxp_dev.emit]
      exact ⟨trivial, trivial, trivial⟩
    obtain ⟨e0, e1, e2⟩ := hstep
    have hon2 : (gxp_pm_req_memory_state_locked g s).2.power_mgr.curr_state ≠ AUR_OFF := by
      rw [e1]; exact hoff
    have hsame : ¬ (s ≠ (gxp_pm_req_memory_state_locked g s).2.power_mgr.curr_memory_state) := by
      rw [e2]; simp
    generalize gxp_pm_req_memory_state_locked g s = res at e0 hon2 hsame ⊢
    simp only [gxp_pm_req_memory_state_locked, if_neg h1, if_neg hon2, if_neg hsame]
    exact e0.symm
  · simp only [gxp_pm_req_memory_state_locked, if_neg h1, if_neg hoff, if_neg h4]

/-- C20. Redundant requests are suppressed. With the block on, a request
`gxp_pm_req_state_locked` for an in-range `(state, low_clkmux)` equal to
`(curr_state, last_scheduled_low_clkmux)` returns 0 and leaves the whole device as it was: no
slot claimed, no work queued, no field changed; likewise `gxp_pm_req_memory_state_locked` for
an in-range memory state equal to `curr_memory_state`. Consequently, for every device and
every request whatsoever, issuing the same request twice in a row gives the same result and
leaves the same device as issuing it once. -/
theorem redundant_request_suppressed (gxp : gxp_dev) :
    (∀ (s : Nat) (l : Bool), gxp.power_mgr.curr_state ≠ AUR_OFF → s ≤ AUR_MAX_ALLOW_STATE →
      s = gxp.power_mgr.curr_state → l = gxp.power_mgr.last_scheduled_low_clkmux →
      gxp_pm_req_state_locked gxp s l = (0, gxp)) ∧
    (∀ s : Nat, gxp.power_mgr.curr_state ≠ AUR_OFF → s ≤ AUR_MAX_ALLOW_MEMORY_STATE →
      s = gxp.power_mgr.curr_memory_state →
      gxp_pm_req_memory_state_locked gxp s = (0, gxp)) ∧
    (∀ (s : Nat) (l : Bool),
      gxp_pm_req_state_locked (gxp_pm_req_state_locked gxp s l).2 s l =
        gxp_pm_req_state_locked gxp s l) ∧
    (∀ s : Nat,
      gxp_pm_req_memory_state_locked (gxp_pm_req_memory_state_locked gxp s).2 s =
        gxp_pm_req_memory_state_locked gxp s) := by
  refine ⟨?_, ?_, fun s l => req_state_locked_idem gxp s l,
    fun s => req_memory_state_locked_idem gxp s⟩
  · intro s l hon hs hcur hlast
    have hsame : ¬ (s ≠ gxp.power_mgr.curr_state ∨
        l ≠ gxp.power_mgr.last_scheduled_low_clkmux) := by
      rw [hcur, hlast]; simp
    simp only [gxp_pm_req_state_locked, if_neg (Nat.not_lt.mpr hs), if_neg hon, if_neg hsame]
    split_ifs <;> rfl
  · intro s hon hs hcur
    have hsame : ¬ (s ≠ gxp.power_mgr.curr_memory_state) := by
      rw [hcur]; simp
    simp only [gxp_pm_req_memory_state_locked, if_neg (Nat.not_lt.mpr hs), if_neg hon,
      if_neg hsame]

/-- An instance of `redundant_request_suppressed` on `dev_on_ud` (block on, `UD` applied with
normal mux): the request for `(UD, false)` and the memory request for the applied memory state
return 0 and change nothing; requesting `(NOM, true)` twice leaves the device the first
request left. -/
theorem redundant_request_suppressed_witness :
    dev_on_ud.power_mgr.curr_state = AUR_UD ∧
    dev_on_ud.power_mgr.last_scheduled_low_clkmux = false ∧
    gxp_pm_req_state_locked dev_on_ud AUR_UD false = (0, dev_on_ud) ∧
    gxp_pm_req_memory_state_locked dev_on_ud AUR_MEM_UNDEFINED = (0, dev_on_ud) ∧
    (gxp_pm_req_state_locked dev_on_ud AUR_NOM true).2 ≠ dev_on_ud ∧
    gxp_pm_req_state_locked (gxp_pm_req_state_locked dev_on_ud AUR_NOM true).2 AUR_NOM true =
      gxp_pm_req_state_locked dev_on_ud AUR_NOM true :=
  ⟨by decide, by decide,
   (redundant_request_suppressed dev_on_ud).1 AUR_UD false (by decide) (by decide) (by decide)
      (by decide),
   (redundant_request_suppressed dev_on_ud).2.1 AUR_MEM_UNDEFINED (by decide) (by decide)
      (by decide),
   by decide,
   (redundant_request_suppressed dev_on_ud).2.2.1 AUR_NOM true⟩

/-! ## Slot pool: claiming and reuse -/

theorem req_state_locked_no_dispatch (g : gxp_dev) (s : Nat) (l : Bool)
    (h : ¬ (g.power_mgr.curr_state ≠ AUR_OFF ∧ s ≠ AUR_OFF ∧ s ≤ AUR_MAX_ALLOW_STATE ∧
      (s ≠ g.power_mgr.curr_state ∨ l ≠ g.power_mgr.last_scheduled_low_clkmux))) :
    (gxp_pm_req_state_locked g s l).2 = g := by
  simp only [gxp_pm_req_state_locked]
  by_cases h1 : s > AUR_MAX_ALLOW_STATE
  · rw [if_pos h1]
  · rw [if_neg h1]
    by_cases h2 : g.power_mgr.curr_state = AUR_OFF
    · rw [if_pos h2]
    · rw [if_neg h2]
      by_cases h3 : s = AUR_OFF
      · rw [if_pos h3]
      · rw [if_neg h3]
        by_cases h4 : s ≠ g.power_mgr.curr_state ∨ l ≠ g.power_mgr.last_scheduled_low_clkmux
        · exact absurd ⟨h2, h3, Nat.not_lt.mp h1, h4⟩ h
        · rw [if_neg h4]

/-- C21. When the slot pool is exhausted (every slot in use), a request that is dispatched
(block on, valid state other than `AUR_OFF`, target differing from the applied one) reuses the
slot of index `last_set_acpm_state_worker`: it overwrites only that slot's target `state` and
target `low_clkmux`, leaves its `prev_state`, `prev_low_clkmux` and in-use flag as they were,
leaves every other slot unchanged and queues no work (the calls made are unchanged); besides
the slot, only the applied target changes. A request that is not dispatched leaves the whole
device unchanged. -/
theorem pool_exhausted_reuses_last_slot (g : gxp_dev) (s : Nat) (l : Bool)
    (w : gxp_set_acpm_state_work)
    (hfull : ∀ j, j < g.power_mgr.set_acpm_state_work.length →
      (g.power_mgr.set_acpm_state_work.map (·.using_)).getD j true = true)
    (hw : g.power_mgr.set_acpm_state_work[g.power_mgr.last_set_acpm_state_worker]? = some w) :
    ((g.power_mgr.curr_state ≠ AUR_OFF ∧ s ≠ AUR_OFF ∧ s ≤ AUR_MAX_ALLOW_STATE ∧
        (s ≠ g.power_mgr.curr_state ∨ l ≠ g.power_mgr.last_scheduled_low_clkmux)) →
      gxp_pm_req_state_locked g s l =
        (0, { g with
          power_mgr := { g.power_mgr with
            set_acpm_state_work := g.power_mgr.set_acpm_state_work.set
              g.power_mgr.last_set_acpm_state_worker
              ⟨s, w.prev_state, l, w.prev_low_clkmux, w.using_⟩
            curr_state := s
            last_scheduled_low_clkmux := l } })) ∧
    (¬ (g.power_mgr.curr_state ≠ AUR_OFF ∧ s ≠ AUR_OFF ∧ s ≤ AUR_MAX_ALLOW_STATE ∧
        (s ≠ g.power_mgr.curr_state ∨ l ≠ g.power_mgr.last_scheduled_low_clkmux)) →
      (gxp_pm_req_state_locked g s l).2 = g) ∧
    (gxp_pm_req_state_locked g s l).2.trace = g.trace ∧
    (∀ j, j ≠ g.power_mgr.last_set_acpm_state_worker →
      (gxp_pm_req_state_locked g s l).2.power_mgr.set_acpm_state_work[j]? =
        g.power_mgr.set_acpm_state_work[j]?) ∧
    ∃ w', (gxp_pm_req_state_locked g s l).2.power_mgr.set_acpm_state_work[
        g.power_mgr.last_set_acpm_state_worker]? = some w' ∧
      w'.prev_state = w.prev_state ∧ w'.prev_low_clkmux = w.prev_low_clkmux ∧
      w'.using_ = w.using_ := by
  have hklt : g.power_mgr.last_set_acpm_state_worker < g.power_mgr.set_acpm_state_work.length := by
    obtain ⟨h, _⟩ := List.getElem?_eq_some.mp hw
    exact h
  by_cases hd : g.power_mgr.curr_state ≠ AUR_OFF ∧ s ≠ AUR_OFF ∧ s ≤ AUR_MAX_ALLOW_STATE ∧
      (s ≠ g.power_mgr.curr_state ∨ l ≠ g.power_mgr.last_scheduled_low_clkmux)
  · obtain ⟨hon, hs0, hs, hdiff⟩ := hd
    have heq := req_state_locked_coalesce g s l w hon hs0 hs hdiff hfull hw
    refine ⟨fun _ => heq, fun hn => absurd ⟨hon, hs0, hs, hdiff⟩ hn, ?_, ?_, ?_⟩
    · rw [heq]
    · intro j hj
      rw [heq]
      exact List.getElem?_set_ne (Ne.symm hj)
    · rw [heq]
      exact ⟨_, List.getElem?_set_self hklt, rfl, rfl, rfl⟩
  · have heq := req_state_locked_no_dispatch g s l hd
    refine ⟨fun h => absurd h hd, fun _ => heq, ?_, ?_, ?_⟩
    · rw [heq]
    · intro j _
      rw [heq]
    · rw [heq]
      exact ⟨w, hw, rfl, rfl, rfl⟩

/-- A witness of C21: on `dev_pool_full` (slots 0 to 3 in use, slot 3 scheduled last, `UUD`
applied) a request for `UD` rewrites the target of slot 3 only and queues nothing. -/
theorem pool_exhausted_reuses_last_slot_witness :
    (∀ j, j < dev_pool_full.power_mgr.set_acpm_state_work.length →
      (dev_pool_full.power_mgr.set_acpm_state_work.map (·.using_)).getD j true = true) ∧
    dev_pool_full.power_mgr.last_set_acpm_state_worker = 3 ∧
    (gxp_pm_req_state_locked dev_pool_full AUR_UD false).2.trace = dev_pool_full.trace ∧
    (gxp_pm_req_state_locked dev_pool_full AUR_UD false).2.power_mgr.set_acpm_state_work[3]? =
      some ⟨AUR_UD, AUR_NOM, false, false, true⟩ :=
  ⟨by decide, by decide,
   (pool_exhausted_reuses_last_slot dev_pool_full AUR_UD false
      ⟨AUR_UUD, AUR_NOM, false, false, true⟩ (by decide) (by decide)).2.2.1,
   by decide⟩

/-- C22. When at least one slot is free and the request is dispatched (block on, valid state
other than `AUR_OFF`, target differing from the applied one), `gxp_pm_req_state_locked` claims
the free slot of lowest index `k`: the slot records `prev_state = curr_state` and
`prev_low_clkmux = last_scheduled_low_clkmux` as they were before the call, its target is the
request, it is marked in use, it is queued exactly once (one queue call, for `k`, is the only
call added), `last_set_acpm_state_worker` becomes `k`, the applied target becomes the request
and every other slot and field is unchanged. -/
theorem free_slot_claimed_lowest_index (g : gxp_dev) (s : Nat) (l : Bool)
    (hon : g.power_mgr.curr_state ≠ AUR_OFF) (hs0 : s ≠ AUR_OFF) (hs : s ≤ AUR_MAX_ALLOW_STATE)
    (hd : s ≠ g.power_mgr.curr_state ∨ l ≠ g.power_mgr.last_scheduled_low_clkmux)
    (hfree : ∃ j : Nat, (g.power_mgr.set_acpm_state_work.map (·.using_))[j]? = some false) :
    ∃ k : Nat, (g.power_mgr.set_acpm_state_work.map (·.using_))[k]? = some false ∧
      (∀ j, j < k → (g.power_mgr.set_acpm_state_work.map (·.using_))[j]? = some true) ∧
      gxp_pm_req_state_locked g s l =
        (0, { g with
          trace := g.trace ++ [hw_op.queue_set_acpm_state_work k]
          power_mgr := { g.power_mgr with
            set_acpm_state_work := g.power_mgr.set_acpm_state_work.set k
              ⟨s, g.power_mgr.curr_state, l, g.power_mgr.last_scheduled_low_clkmux, true⟩
            curr_state := s
            last_scheduled_low_clkmux := l
            last_set_acpm_state_worker := k } }) := by
  classical
  have hk := Nat.find_spec hfree
  have hmin : ∀ j, j < Nat.find hfree →
      (g.power_mgr.set_acpm_state_work.map (·.using_))[j]? = some true := by
    intro j hj
    have hnot := Nat.find_min hfree hj
    have hjlt : j < (g.power_mgr.set_acpm_state_work.map (·.using_)).length := by
      obtain ⟨h, _⟩ := List.getElem?_eq_some.mp hk
      exact Nat.lt_trans hj h
    rw [List.getElem?_eq_getElem hjlt] at hnot ⊢
    cases hb : (g.power_mgr.set_acpm_state_work.map (·.using_))[j] with
    | true => rfl
    | false => rw [hb] at hnot; exact absurd rfl hnot
  refine ⟨Nat.find hfree, hk, hmin, ?_⟩
  refine req_state_locked_claim g s l _ hon hs0 hs hd hk ?_
  intro j hj
  have := hmin j hj
  simp only [List.getD_eq_getElem?_getD, this, Option.getD_some]

/-- A witness of C22: on `dev_one_free` (slots 0 to 2 in use, `NOM` applied) a request for
`UD` with the low clock-mux flag claims slot 3. -/
theorem free_slot_claimed_lowest_index_witness :
    ∃ k : Nat, (dev_one_free.power_mgr.set_acpm_state_work.map (·.using_))[k]? = some false ∧
      (∀ j, j < k →
        (dev_one_free.power_mgr.set_acpm_state_work.map (·.using_))[j]? = some true) ∧
      gxp_pm_req_state_locked dev_one_free AUR_UD true =
        (0, { dev_one_free with
          trace := dev_one_free.trace ++ [hw_op.queue_set_acpm_state_work k]
          power_mgr := { dev_one_free.power_mgr with
            set_acpm_state_work := dev_one_free.power_mgr.set_acpm_state_work.set k
              ⟨AUR_UD, dev_one_free.power_mgr.curr_state, true,
                dev_one_free.power_mgr.last_scheduled_low_clkmux, true⟩
            curr_state := AUR_UD
            last_scheduled_low_clkmux := true
            last_set_acpm_state_worker := k } }) :=
  free_slot_claimed_lowest_index dev_one_free AUR_UD true (by decide) (by decide) (by decide)
    (by decide) ⟨3, by decide⟩

/-! ## Worker execution -/

/-- C23, as stated, fails: on `dev_low_pending_unmapped` the block is on, slot 0 has target
`low_clkmux = true` and `prev_low_clkmux = false`, and the force-normal count is 0, yet the
worker of slot 0 writes no clock-mux register, because the CMU registers are not mapped; its
only call is the performance-state write. -/
theorem worker_unmapped_counterexample :
    dev_low_pending_unmapped.power_mgr.curr_state ≠ AUR_OFF ∧
    dev_low_pending_unmapped.power_mgr.set_acpm_state_work.get? 0 =
      some ⟨AUR_UD, AUR_UUD, true, false, true⟩ ∧
    dev_low_pending_unmapped.power_mgr.force_mux_normal_count = 0 ∧
    dev_low_pending_unmapped.cmu_vaddr_ok = false ∧
    (gxp_pm_blk_set_state_acpm_async backend_ok dev_low_pending_unmapped 0).trace =
      dev_low_pending_unmapped.trace ++ [hw_op.pm_set_rate .AUR_UD_RATE] := by
  decide

/-- C23, amended. The worker `gxp_pm_blk_set_state_acpm_async` of a slot: if
`curr_state == AUR_OFF` it makes no call at all (no clock-mux write, no performance-state
write); otherwise it writes the clock mux exactly when the CMU registers are mapped, the
slot's target `low_clkmux` differs from its `prev_low_clkmux` and
`force_mux_normal_count == 0` (to Normal when the previous mode was low, to Low when the
target is low), and then issues exactly one performance-state write, with the rate of the
slot's target state. In both cases the slot ends with its in-use flag false, and the ledger,
`curr_state`, `last_scheduled_low_clkmux` and all other slots are unchanged. -/
theorem worker_effect (soc : backend) (g : gxp_dev) (i : Nat) (w : gxp_set_acpm_state_work)
    (hw : g.power_mgr.set_acpm_state_work[i]? = some w) :
    (g.power_mgr.curr_state = AUR_OFF →
      (gxp_pm_blk_set_state_acpm_async soc g i).trace = g.trace) ∧
    (g.power_mgr.curr_state ≠ AUR_OFF →
      (gxp_pm_blk_set_state_acpm_async soc g i).trace =
        g.trace ++
          (if g.cmu_vaddr_ok = true ∧ w.low_clkmux ≠ w.prev_low_clkmux ∧
              g.power_mgr.force_mux_normal_count = 0 then
            if w.prev_low_clkmux then
              [hw_op.writel_pll_aur .AUR_CMU_MUX_NORMAL, hw_op.writel_noc_user .AUR_CMU_MUX_NORMAL]
            else
              [hw_op.writel_pll_aur .AUR_CMU_MUX_LOW, hw_op.writel_noc_user .AUR_CMU_MUX_LOW]
          else []) ++
          [hw_op.pm_set_rate (aur_power_state2rate.getD w.state .AUR_OFF_RATE)]) ∧
    (gxp_pm_blk_set_state_acpm_async soc g i).power_mgr.set_acpm_state_work =
      g.power_mgr.set_acpm_state_work.set i { w with using_ := false } ∧
    (∀ j, j ≠ i →
      (gxp_pm_blk_set_state_acpm_async soc g i).power_mgr.set_acpm_state_work[j]? =
        g.power_mgr.set_acpm_state_work[j]?) ∧
    (gxp_pm_blk_set_state_acpm_async soc g i).ledger = g.ledger ∧
    (gxp_pm_blk_set_state_acpm_async soc g i).power_mgr.curr_state = g.power_mgr.curr_state ∧
    (gxp_pm_blk_set_state_acpm_async soc g i).power_mgr.last_scheduled_low_clkmux =
      g.power_mgr.last_scheduled_low_clkmux ∧
    (gxp_pm_blk_set_state_acpm_async soc g i).cmu_vaddr_ok = g.cmu_vaddr_ok := by
  by_cases hoff : g.power_mgr.curr_state = AUR_OFF
  · rw [worker_off_eq soc g i w hw hoff]
    refine ⟨fun _ => rfl, fun h => absurd hoff h, rfl, ?_, rfl, rfl, rfl, rfl⟩
    intro j hj
    exact List.getElem?_set_ne (Ne.symm hj)
  · rw [worker_on_eq soc g i w hw hoff]
    refine ⟨fun h => absurd h hoff, fun _ => ?_, rfl, ?_, rfl, rfl, rfl, rfl⟩
    · cases hc : g.cmu_vaddr_ok <;> cases hp : w.prev_low_clkmux <;>
        cases hl : w.low_clkmux <;>
        by_cases hf : g.power_mgr.force_mux_normal_count = 0 <;> simp [hf]
    · intro j hj
      exact List.getElem?_set_ne (Ne.symm hj)

/-- A witness of C23, amended: on `dev_low_pending` (block on, CMU registers mapped, slot 0
queued for `UD` with the low clock mux, previous mode normal) the worker of slot 0 writes the
mux to Low and then issues the single performance-state write for `UD`, and the slot ends not
in use. -/
theorem worker_effect_witness :
    dev_low_pending.power_mgr.curr_state ≠ AUR_OFF ∧
    dev_low_pending.cmu_vaddr_ok = true ∧
    (gxp_pm_blk_set_state_acpm_async backend_ok dev_low_pending 0).trace =
      dev_low_pending.trace ++
        [hw_op.writel_pll_aur .AUR_CMU_MUX_LOW, hw_op.writel_noc_user .AUR_CMU_MUX_LOW] ++
        [hw_op.pm_set_rate .AUR_UD_RATE] ∧
    (gxp_pm_blk_set_state_acpm_async backend_ok dev_low_pending 0).power_mgr.set_acpm_state_work =
      dev_low_pending.power_mgr.set_acpm_state_work.set 0
        ⟨AUR_UD, AUR_UUD, true, false, false⟩ :=
  ⟨by decide, by decide,
   ((worker_effect backend_ok dev_low_pending 0 ⟨AUR_UD, AUR_UUD, true, false, true⟩
      (by decide)).2.1 (by decide)).trans (by decide),
   (worker_effect backend_ok dev_low_pending 0 ⟨AUR_UD, AUR_UUD, true, false, true⟩
      (by decide)).2.2.1⟩

/-! ## The ledger while the block is off -/

theorem revoke_power_ledger_congr {g g' : gxp_dev} (h : g.ledger = g'.ledger) (s : Nat)
    (l : Bool) :
    (gxp_pm_revoke_power_state_vote g s l).ledger =
      (gxp_pm_revoke_power_state_vote g' s l).ledger := by
  simp only [gxp_dev.ledger, Prod.mk.injEq] at h
  obtain ⟨h1, h2, h3⟩ := h
  simp only [gxp_pm_revoke_power_state_vote]
  split_ifs
  · simp [gxp_dev.ledger, h1, h2, h3]
  · split
    · cases l <;>
        simp [gxp_dev.ledger, gxp_dev.set_mgr, gxp_power_manager.set_req_count,
          gxp_power_manager.req_count, h1, h2, h3]
    · simp [gxp_dev.ledger, h1, h2, h3]

theorem vote_power_ledger_congr {g g' : gxp_dev} (h : g.ledger = g'.ledger) (s : Nat)
    (l : Bool) :
    (gxp_pm_vote_power_state g s l).ledger = (gxp_pm_vote_power_state g' s l).ledger := by
  simp only [gxp_dev.ledger, Prod.mk.injEq] at h
  obtain ⟨h1, h2, h3⟩ := h
  simp only [gxp_pm_vote_power_state]
  split_ifs
  · simp [gxp_dev.ledger, h1, h2, h3]
  · split
    · cases l <;>
        simp [gxp_dev.ledger, gxp_dev.set_mgr, gxp_power_manager.set_req_count,
          gxp_power_manager.req_count, h1, h2, h3]
    · simp [gxp_dev.ledger, h1, h2, h3]

theorem update_requested_power_state_on (g : gxp_dev)
    (hon : g.power_mgr.curr_state ≠ AUR_OFF) (o : Nat) (ol : Bool) (r : Nat) (rl : Bool) :
    (gxp_pm_update_requested_power_state g o ol r rl).1 = 0 := by
  obtain ⟨a, b, hrev⟩ := revoke_power_state_vote_frame g o ol
  obtain ⟨c, d, hvote⟩ := vote_power_state_frame (gxp_pm_revoke_power_state_vote g o ol) r rl
  have hon2 : (gxp_pm_vote_power_state
      (gxp_pm_revoke_power_state_vote g o ol) r rl).power_mgr.curr_state ≠ AUR_OFF := by
    rw [hvote, hrev]; exact hon
  simp only [gxp_pm_update_requested_power_state]
  exact req_state_locked_ret _ _ _ hon2 (get_max_voted_power_state_le _)

theorem update_requested_memory_power_state_on (g : gxp_dev)
    (hon : g.power_mgr.curr_state ≠ AUR_OFF) (o r : Nat) :
    (gxp_pm_update_requested_memory_power_state g o r).1 = 0 := by
  obtain ⟨a, hrev⟩ := revoke_memory_power_state_vote_frame g o
  obtain ⟨c, hvote⟩ :=
    vote_memory_power_state_frame (gxp_pm_revoke_memory_power_state_vote g o) r
  have hon2 : (gxp_pm_vote_memory_power_state
      (gxp_pm_revoke_memory_power_state_vote g o) r).power_mgr.curr_state ≠ AUR_OFF := by
    rw [hvote, hrev]; exact hon
  simp only [gxp_pm_update_requested_memory_power_state, gxp_pm_req_memory_state_locked,
    if_neg (Nat.not_lt.mpr (get_max_voted_memory_power_state_le _)), if_neg hon2]
  split_ifs <;> rfl

theorem aur_memory_state_array_injective {i j : Nat} (hi : i < AUR_NUM_MEMORY_POWER_STATE)
    (hj : j < AUR_NUM_MEMORY_POWER_STATE)
    (h : aur_memory_state_array.getD i 0 = aur_memory_state_array.getD j 0) : i = j := by
  have hi7 : i < 7 := hi
  have hj7 : j < 7 := hj
  interval_cases i <;> interval_cases j <;> first | rfl | (exfalso; revert h; decide)

theorem aur_memory_state_array_zero_iff {i : Nat} (hi : i < AUR_NUM_MEMORY_POWER_STATE) :
    aur_memory_state_array.getD i 0 = AUR_MEM_UNDEFINED ↔ i = 0 := by
  have hi7 : i < 7 := hi
  interval_cases i <;> decide

theorem find_state_index_memory {s i : Nat} (hi : i < AUR_NUM_MEMORY_POWER_STATE)
    (h : aur_memory_state_array.getD i 0 = s) :
    find_state_index aur_memory_state_array s AUR_NUM_MEMORY_POWER_STATE 0 = some i := by
  cases hf : find_state_index aur_memory_state_array s AUR_NUM_MEMORY_POWER_STATE 0 with
  | none => exact absurd h (find_state_index_none hf i (Nat.zero_le _) (by omega))
  | some j =>
    obtain ⟨_, h2, h3⟩ := find_state_index_some hf
    rw [aur_memory_state_array_injective (by omega) hi (h3.trans h.symm)]

theorem revoke_memory_counter (g : gxp_dev) (s i : Nat)
    (hi : i < AUR_NUM_MEMORY_POWER_STATE) (hi0 : 0 < i) :
    (gxp_pm_revoke_memory_power_state_vote g s).power_mgr.mem_pwr_state_req_count.getD i 0 =
      if aur_memory_state_array.getD i 0 = s then
        (if g.power_mgr.mem_pwr_state_req_count.getD i 0 = 0 then
          g.power_mgr.mem_pwr_state_req_count.getD i 0
          else g.power_mgr.mem_pwr_state_req_count.getD i 0 - 1)
      else g.power_mgr.mem_pwr_state_req_count.getD i 0 := by
  have hne : aur_memory_state_array.getD i 0 ≠ AUR_MEM_UNDEFINED := fun h =>
    absurd ((aur_memory_state_array_zero_iff hi).mp h) (by omega)
  by_cases hs0 : s = AUR_MEM_UNDEFINED
  · have hc : ¬ aur_memory_state_array.getD i 0 = s := fun h => hne (h.trans hs0)
    rw [if_neg hc]
    simp only [gxp_pm_revoke_memory_power_state_vote, if_pos hs0]
  · simp only [gxp_pm_revoke_memory_power_state_vote, if_neg hs0]
    by_cases hc : aur_memory_state_array.getD i 0 = s
    · rw [if_pos hc, find_state_index_memory hi hc]
      simp only [gxp_dev.set_mgr, revoke_count]
      by_cases h3 : g.power_mgr.mem_pwr_state_req_count.getD i 0 = 0
      · rw [if_pos h3, if_pos h3]
      · rw [if_neg h3, if_neg h3]
        have hlen : i < g.power_mgr.mem_pwr_state_req_count.length := by
          by_contra hc
          apply h3
          rw [List.getD_eq_default _ _ (Nat.le_of_not_lt hc)]
        rw [getD_set_zero _ _ _ _ hlen, if_pos rfl]
    · rw [if_neg hc]
      split
      · rename_i j hj
        obtain ⟨_, hj2, hj3⟩ := find_state_index_some hj
        have hji : j ≠ i := by
          intro hji
          subst hji
          exact hc hj3
        simp only [gxp_dev.set_mgr, revoke_count]
        by_cases hz : g.power_mgr.mem_pwr_state_req_count.getD j 0 = 0
        · rw [if_pos hz]
        · rw [if_neg hz]
          have hlen : j < g.power_mgr.mem_pwr_state_req_count.length := by
            by_contra hc
            apply hz
            rw [List.getD_eq_default _ _ (Nat.le_of_not_lt hc)]
          rw [getD_set_zero _ _ _ _ hlen, if_neg hji]
      · rfl

theorem vote_memory_counter (g : gxp_dev) (s i : Nat)
    (hi : i < AUR_NUM_MEMORY_POWER_STATE) (hi0 : 0 < i)
    (hlen : i < g.power_mgr.mem_pwr_state_req_count.length) :
    (gxp_pm_vote_memory_power_state g s).power_mgr.mem_pwr_state_req_count.getD i 0 =
      if aur_memory_state_array.getD i 0 = s then
        (g.power_mgr.mem_pwr_state_req_count.getD i 0 + 1) % UINT_MOD
      else g.power_mgr.mem_pwr_state_req_count.getD i 0 := by
  have hne : aur_memory_state_array.getD i 0 ≠ AUR_MEM_UNDEFINED := fun h =>
    absurd ((aur_memory_state_array_zero_iff hi).mp h) (by omega)
  by_cases hs0 : s = AUR_MEM_UNDEFINED
  · have hc : ¬ aur_memory_state_array.getD i 0 = s := fun h => hne (h.trans hs0)
    rw [if_neg hc]
    simp only [gxp_pm_vote_memory_power_state, if_pos hs0]
  · simp only [gxp_pm_vote_memory_power_state, if_neg hs0]
    by_cases hc : aur_memory_state_array.getD i 0 = s
    · rw [if_pos hc, find_state_index_memory hi hc]
      simp only [gxp_dev.set_mgr, vote_count]
      rw [getD_set_zero _ _ _ _ hlen, if_pos rfl]
    · rw [if_neg hc]
      split
      · rename_i j hj
        obtain ⟨_, hj2, hj3⟩ := find_state_index_some hj
        have hji : j ≠ i := by
          intro hji
          subst hji
          exact hc hj3
        simp only [gxp_dev.set_mgr, vote_count]
        by_cases hjl : j < g.power_mgr.mem_pwr_state_req_count.length
        · rw [getD_set_zero _ _ _ _ hjl, if_neg hji]
        · rw [List.set_eq_of_length_le (Nat.le_of_not_lt hjl)]
      · rfl

theorem revoke_memory_length (g : gxp_dev) (s : Nat) :
    (gxp_pm_revoke_memory_power_state_vote g s).power_mgr.mem_pwr_state_req_count.length =
      g.power_mgr.mem_pwr_state_req_count.length := by
  simp only [gxp_pm_revoke_memory_power_state_vote]
  split_ifs
  · rfl
  · split
    · simp only [gxp_dev.set_mgr, revoke_count]
      split_ifs <;> simp
    · rfl

theorem memory_exchange_counter (g : gxp_dev) (o r i : Nat)
    (hi : i < AUR_NUM_MEMORY_POWER_STATE) (hi0 : 0 < i)
    (hlen : i < g.power_mgr.mem_pwr_state_req_count.length) :
    (gxp_pm_update_requested_memory_power_state g o
        r).2.power_mgr.mem_pwr_state_req_count.getD i 0 =
      counter_after_exchange (g.power_mgr.mem_pwr_state_req_count.getD i 0)
        (decide (o = aur_memory_state_array.getD i 0))
        (decide (r = aur_memory_state_array.getD i 0)) := by
  have hl := update_requested_memory_power_state_ledger g o r
  simp only [gxp_dev.ledger, Prod.mk.injEq] at hl
  rw [hl.2.2, vote_memory_counter _ _ _ hi hi0 (by rw [revoke_memory_length]; exact hlen),
    revoke_memory_counter _ _ _ hi hi0]
  simp only [counter_after_exchange, decide_eq_true_eq]
  have e1 : aur_memory_state_array.getD i 0 = o ↔ o = aur_memory_state_array.getD i 0 :=
    eq_comm
  have e2 : aur_memory_state_array.getD i 0 = r ↔ r = aur_memory_state_array.getD i 0 :=
    eq_comm
  simp only [e1, e2]

/-- C25. The ledger is updated whatever the power state of the block: when
`gxp_pm_update_requested_power_state` (or its memory counterpart) returns `-EBUSY` because the
block is off, the old vote has nevertheless been revoked and the new vote added. Every
counter of a state other than the sentinel holds, after the failing call, its value before
the call, less one if the exchange revokes its state (and class) and it was not zero, plus
one (on `uint`) if the exchange adds its state (and class); and the counters after the
failing call equal those after the same exchange made, from the same counters, on a device
whose block is on (where the call returns 0). -/
theorem ledger_updated_while_off (g g_on : gxp_dev)
    (hoff : g.power_mgr.curr_state = AUR_OFF)
    (hon : g_on.power_mgr.curr_state ≠ AUR_OFF) (hledger : g_on.ledger = g.ledger) :
    (∀ (o : Nat) (ol : Bool) (r : Nat) (rl : Bool),
      (gxp_pm_update_requested_power_state g o ol r rl).1 = -EBUSY ∧
      (gxp_pm_update_requested_power_state g_on o ol r rl).1 = 0 ∧
      (∀ (low : Bool) (i : Nat), 0 < i → i < AUR_NUM_POWER_STATE →
        i < (g.power_mgr.req_count low).length →
        ((gxp_pm_update_requested_power_state g o ol r rl).2.power_mgr.req_count low).getD i 0 =
          counter_after_exchange ((g.power_mgr.req_count low).getD i 0)
            (decide (o = aur_state_array.getD i 0 ∧ ol = low))
            (decide (r = aur_state_array.getD i 0 ∧ rl = low))) ∧
      (gxp_pm_update_requested_power_state g o ol r rl).2.ledger =
        (gxp_pm_vote_power_state (gxp_pm_revoke_power_state_vote g o ol) r rl).ledger ∧
      (gxp_pm_update_requested_power_state g o ol r rl).2.ledger =
        (gxp_pm_update_requested_power_state g_on o ol r rl).2.ledger) ∧
    (∀ o r : Nat,
      (gxp_pm_update_requested_memory_power_state g o r).1 = -EBUSY ∧
      (gxp_pm_update_requested_memory_power_state g_on o r).1 = 0 ∧
      (∀ i : Nat, 0 < i → i < AUR_NUM_MEMORY_POWER_STATE →
        i < g.power_mgr.mem_pwr_state_req_count.length →
        (gxp_pm_update_requested_memory_power_state g o
            r).2.power_mgr.mem_pwr_state_req_count.getD i 0 =
          counter_after_exchange (g.power_mgr.mem_pwr_state_req_count.getD i 0)
            (decide (o = aur_memory_state_array.getD i 0))
            (decide (r = aur_memory_state_array.getD i 0))) ∧
      (gxp_pm_update_requested_memory_power_state g o r).2.ledger =
        (gxp_pm_vote_memory_power_state (gxp_pm_revoke_memory_power_state_vote g o) r).ledger ∧
      (gxp_pm_update_requested_memory_power_state g o r).2.ledger =
        (gxp_pm_update_requested_memory_power_state g_on o r).2.ledger) := by
  constructor
  · intro o ol r rl
    refine ⟨update_requested_power_state_off g hoff o ol r rl,
      update_requested_power_state_on g_on hon o ol r rl, ?_,
      update_requested_power_state_ledger g o ol r rl, ?_⟩
    · intro low i hi0 hi hlen
      exact (exchange_counter g ⟨o, ol, r, rl⟩ low i hi hi0 hlen).1
    · rw [update_requested_power_state_ledger, update_requested_power_state_ledger]
      exact vote_power_ledger_congr (revoke_power_ledger_congr hledger.symm o ol) r rl
  · intro o r
    refine ⟨update_requested_memory_power_state_off g hoff o r,
      update_requested_memory_power_state_on g_on hon o r, ?_,
      update_requested_memory_power_state_ledger g o r, ?_⟩
    · intro i hi0 hi hlen
      exact memory_exchange_counter g o r i hi hi0 hlen
    · rw [update_requested_memory_power_state_ledger,
        update_requested_memory_power_state_ledger]
      exact vote_memory_ledger_congr (revoke_memory_ledger_congr hledger.symm o) r

/-- A witness of C25, on `dev_off_voted` (block off, one normal-mux `UD` vote and one
`MEM_HIGH` vote held): exchanging the `UD` vote for a `SUD` vote returns `-EBUSY`, yet the
`UD` counter has gone from 1 to 0 and the `SUD` counter from 0 to 1; exchanging the
`MEM_HIGH` vote for a `MEM_LOW` vote returns `-EBUSY`, yet the `MEM_HIGH` counter has gone
from 1 to 0 and the `MEM_LOW` counter from 0 to 1; the ledgers are those the same exchanges
leave on `dev_on_voted`, whose block is on. -/
theorem ledger_updated_while_off_witness :
    dev_off_voted.power_mgr.curr_state = AUR_OFF ∧
    dev_on_voted.power_mgr.curr_state ≠ AUR_OFF ∧
    dev_off_voted.ledger =
      ([0, 0, 0, 0, 0, 0, 1, 0, 0], [0, 0, 0, 0, 0, 0, 0, 0, 0], [0, 0, 0, 0, 1, 0, 0]) ∧
    (gxp_pm_update_requested_power_state dev_off_voted AUR_UD false AUR_SUD false).1 =
      -EBUSY ∧
    ((gxp_pm_update_requested_power_state dev_off_voted AUR_UD false AUR_SUD
      false).2.power_mgr.req_count false).getD 6 0 = 0 ∧
    ((gxp_pm_update_requested_power_state dev_off_voted AUR_UD false AUR_SUD
      false).2.power_mgr.req_count false).getD 4 0 = 1 ∧
    (gxp_pm_update_requested_power_state dev_off_voted AUR_UD false AUR_SUD false).2.ledger =
      ([0, 0, 0, 0, 1, 0, 0, 0, 0], [0, 0, 0, 0, 0, 0, 0, 0, 0], [0, 0, 0, 0, 1, 0, 0]) ∧
    (gxp_pm_update_requested_memory_power_state dev_off_voted AUR_MEM_HIGH AUR_MEM_LOW).1 =
      -EBUSY ∧
    (gxp_pm_update_requested_memory_power_state dev_off_voted AUR_MEM_HIGH
      AUR_MEM_LOW).2.power_mgr.mem_pwr_state_req_count.getD 4 0 = 0 ∧
    (gxp_pm_update_requested_memory_power_state dev_off_voted AUR_MEM_HIGH
      AUR_MEM_LOW).2.power_mgr.mem_pwr_state_req_count.getD 3 0 = 1 ∧
    (gxp_pm_update_requested_memory_power_state dev_off_voted AUR_MEM_HIGH
      AUR_MEM_LOW).2.ledger =
      ([0, 0, 0, 0, 0, 0, 1, 0, 0], [0, 0, 0, 0, 0, 0, 0, 0, 0], [0, 0, 0, 1, 0, 0, 0]) ∧
    (gxp_pm_update_requested_memory_power_state dev_off_voted AUR_MEM_HIGH
      AUR_MEM_LOW).2.ledger =
      (gxp_pm_update_requested_memory_power_state dev_on_voted AUR_MEM_HIGH
        AUR_MEM_LOW).2.ledger :=
  ⟨by decide, by decide, by decide,
   ((ledger_updated_while_off dev_off_voted dev_on_voted (by decide) (by decide)
      (by decide)).1 AUR_UD false AUR_SUD false).1,
   (((ledger_updated_while_off dev_off_voted dev_on_voted (by decide) (by decide)
      (by decide)).1 AUR_UD false AUR_SUD false).2.2.1 false 6 (by decide) (by decide)
      (by decide)).trans (by decide),
   (((ledger_updated_while_off dev_off_voted dev_on_voted (by decide) (by decide)
      (by decide)).1 AUR_UD false AUR_SUD false).2.2.1 false 4 (by decide) (by decide)
      (by decide)).trans (by decide),
   by decide,
   ((ledger_updated_while_off dev_off_voted dev_on_voted (by decide) (by decide)
      (by decide)).2 AUR_MEM_HIGH AUR_MEM_LOW).1,
   (((ledger_updated_while_off dev_off_voted dev_on_voted (by decide) (by decide)
      (by decide)).2 AUR_MEM_HIGH AUR_MEM_LOW).2.2.1 4 (by decide) (by decide)
      (by decide)).trans (by decide),
   (((ledger_updated_while_off dev_off_voted dev_on_voted (by decide) (by decide)
      (by decide)).2 AUR_MEM_HIGH AUR_MEM_LOW).2.2.1 3 (by decide) (by decide)
      (by decide)).trans (by decide),
   by decide,
   ((ledger_updated_while_off dev_off_voted dev_on_voted (by decide) (by decide)
      (by decide)).2 AUR_MEM_HIGH AUR_MEM_LOW).2.2.2.2⟩

/-! ## Polling for the end of the power-down -/

theorem blk_down_poll_first_zero (soc : backend) (maxd n : Nat) :
    ∀ (fuel cnt : Nat) (g : gxp_dev), cnt ≤ n →
      (∀ k, cnt ≤ k → k < n → soc.readl_aur_status k ≠ 0) →
      soc.readl_aur_status n = 0 → n < max (cnt + 1) maxd → n - cnt + 1 ≤ fuel →
      blk_down_poll soc maxd fuel cnt g =
        (true, { g with trace := g.trace ++ poll_trace (n - cnt + 1) }) := by
  intro fuel
  induction fuel with
  | zero =>
    intro cnt g _ _ _ _ hfuel
    omega
  | succ fuel ih =>
    intro cnt g hle hreads hzero hlt hfuel
    by_cases hc : cnt = n
    · subst hc
      simp only [blk_down_poll, if_pos hzero, Nat.sub_self, Nat.zero_add]
      simp [gxp_dev.emit, poll_trace]
    · have hcn : cnt < n := by omega
      have hr : soc.readl_aur_status cnt ≠ 0 := hreads cnt (Nat.le_refl _) hcn
      have hmaxd : cnt + 1 < maxd := by
        rw [Nat.max_def] at hlt
        split_ifs at hlt <;> omega
      simp only [blk_down_poll, if_neg hr, if_pos hmaxd]
      rw [ih (cnt + 1) _ (by omega) (fun k hk1 hk2 => hreads k (by omega) hk2) hzero
        (by rw [Nat.max_def]; split_ifs <;> omega) (by omega)]
      have hm : n - cnt + 1 = (n - (cnt + 1) + 1) + 1 := by omega
      rw [hm]
      simp [gxp_dev.emit, poll_trace]

theorem is_blk_down_timeout_never_off (soc : backend) (g : gxp_dev) (timeout_ms : Nat)
    (hreg : g.power_mgr.aur_status = true) (hreads : ∀ k, soc.readl_aur_status k ≠ 0) :
    gxp_pm_is_blk_down_timeout soc g timeout_ms =
      (false, { g with
        trace := (g.trace ++
          poll_trace (max 1 (timeout_ms * 1000 % UINT_MOD / SHUTDOWN_DELAY_US_MIN))) }) := by
  simp only [gxp_pm_is_blk_down_timeout, hreg, Bool.not_true, Bool.false_eq_true, if_false]
  have hfuel : ∀ m : Nat, max 1 (m - 0) ≤ m + 1 := by
    intro m
    rw [Nat.max_def]
    split_ifs <;> omega
  rw [blk_down_poll_never_off soc _ _ 0 g (fun k _ _ => hreads k) (hfuel _)]
  simp

theorem is_blk_down_timeout_no_overflow (soc : backend) (g : gxp_dev) (timeout_ms : Nat)
    (hreg : g.power_mgr.aur_status = true) (hreads : ∀ k, soc.readl_aur_status k ≠ 0)
    (hsmall : timeout_ms * 1000 < UINT_MOD) :
    gxp_pm_is_blk_down_timeout soc g timeout_ms =
      (false, { g with
        trace := (g.trace ++ poll_trace (max 1 (timeout_ms * 1000 / SHUTDOWN_DELAY_US_MIN))) }) := by
  rw [is_blk_down_timeout_never_off soc g timeout_ms hreg hreads, Nat.mod_eq_of_lt hsmall]

theorem is_blk_down_timeout_first_zero (soc : backend) (g : gxp_dev) (timeout_ms n : Nat)
    (hreg : g.power_mgr.aur_status = true)
    (hreads : ∀ k, k < n → soc.readl_aur_status k ≠ 0) (hzero : soc.readl_aur_status n = 0)
    (hlt : n < max 1 (timeout_ms * 1000 % UINT_MOD / SHUTDOWN_DELAY_US_MIN)) :
    gxp_pm_is_blk_down_timeout soc g timeout_ms =
      (true, { g with trace := g.trace ++ poll_trace (n + 1) }) := by
  simp only [gxp_pm_is_blk_down_timeout, hreg, Bool.not_true, Bool.false_eq_true, if_false]
  have hfuel : n - 0 + 1 ≤ timeout_ms * 1000 % UINT_MOD / SHUTDOWN_DELAY_US_MIN + 1 := by
    generalize timeout_ms * 1000 % UINT_MOD / SHUTDOWN_DELAY_US_MIN = m at hlt ⊢
    rw [Nat.max_def] at hlt
    split_ifs at hlt <;> omega
  rw [blk_down_poll_first_zero soc _ n _ 0 g (Nat.zero_le _) (fun k _ hk => hreads k hk) hzero
    (by simpa using hlt) hfuel]
  simp

/-- C24, evaluated at `timeout_ms = 4294968`: the product `timeout_ms * 1000` exceeds
`2 ^ 32` and wraps, on `uint`, to 704, so the polling loop of `gxp_pm_is_blk_down_timeout`
against a status register that never reads zero makes 3 reads (600 microseconds of delay
requested) and returns false, whereas `max(1, timeout_ms * 1000 / 200)` is 21474840. -/
theorem is_blk_down_timeout_product_wraps :
    4294968 < UINT_MOD ∧
    dev_on.power_mgr.aur_status = true ∧
    (∀ k, k < 8 → backend_never_off.readl_aur_status k ≠ 0) ∧
    4294968 * 1000 % UINT_MOD = 704 ∧
    gxp_pm_is_blk_down_timeout backend_never_off dev_on 4294968 =
      (false, { dev_on with trace := dev_on.trace ++ poll_trace 3 }) ∧
    max 1 (4294968 * 1000 / SHUTDOWN_DELAY_US_MIN) = 21474840 ∧
    poll_trace 3 ≠ poll_trace 21474840 := by
  refine ⟨by decide, by decide, by decide, by decide, by decide, by decide, ?_⟩
  intro h
  have hlen : ∀ n, (poll_trace n).length = 2 * n := by
    intro n
    induction n with
    | zero => rfl
    | succ n ih => simp only [poll_trace, List.length_cons, ih]; omega
  have := congrArg List.length h
  rw [hlen, hlen] at this
  omega

/-! ## The recorded clock-mux mode across a power cycle -/

/-- C27, evaluated on `dev_low_applied` (block on, `UD` with the low clock mux in effect):
the power-down succeeds and forces the mux to Normal, yet `curr_low_clkmux` and
`last_scheduled_low_clkmux` are still true afterwards and after the next power-up; the first
request with `low_clkmux = true` after that power-up then records `prev_low_clkmux = true`,
and its worker writes the performance state only, with no clock-mux write, so the mux stays
Normal although the low mode was requested. -/
theorem blk_off_keeps_low_clkmux_flags :
    dev_low_applied.power_mgr.curr_state = AUR_UD ∧
    dev_low_applied.cmu_vaddr_ok = true ∧
    dev_low_applied.power_mgr.force_mux_normal_count = 0 ∧
    (gxp_pm_blk_off backend_ok dev_low_applied).1 = 0 ∧
    dev_low_powered_down.power_mgr.curr_state = AUR_OFF ∧
    dev_low_powered_down.trace = dev_low_applied.trace ++
      [hw_op.writel_pll_aur .AUR_CMU_MUX_NORMAL, hw_op.writel_noc_user .AUR_CMU_MUX_NORMAL,
       hw_op.gxp_soc_lpm_destroy, hw_op.pm_runtime_put_sync, hw_op.gxp_soc_pm_reset] ∧
    dev_low_powered_down.power_mgr.curr_low_clkmux = true ∧
    dev_low_powered_down.power_mgr.last_scheduled_low_clkmux = true ∧
    (gxp_pm_blk_on backend_ok dev_low_powered_down).1 = 0 ∧
    dev_low_cycled.power_mgr.curr_low_clkmux = true ∧
    dev_low_cycled.power_mgr.last_scheduled_low_clkmux = true ∧
    (gxp_pm_req_state_locked dev_low_cycled AUR_UD true).2.power_mgr.set_acpm_state_work[0]? =
      some ⟨AUR_UD, AUR_UUD, true, true, true⟩ ∧
    (gxp_pm_blk_set_state_acpm_async backend_ok
        (gxp_pm_req_state_locked dev_low_cycled AUR_UD true).2 0).trace =
      dev_low_cycled.trace ++
        [hw_op.queue_set_acpm_state_work 0, hw_op.pm_set_rate .AUR_UD_RATE] := by
  decide

/-! ## The dispatch chain -/

theorem slot_chain_congr {works works' : List gxp_set_acpm_state_work} (ll : Bool) :
    ∀ (q : List Nat) (c : Bool), (∀ i, i ∈ q → works'[i]? = works[i]?) →
      slot_chain works ll c q → slot_chain works' ll c q := by
  intro q
  induction q with
  | nil => intro c _ h; exact h
  | cons i rest ih =>
    intro c hag h
    obtain ⟨w, hw, hp, hu, hrest⟩ := h
    exact ⟨w, (hag i (List.mem_cons_self _ _)).trans hw, hp, hu,
      ih _ (fun j hj => hag j (List.mem_cons_of_mem _ hj)) hrest⟩

theorem slot_chain_mem {works : List gxp_set_acpm_state_work} (ll : Bool) :
    ∀ (q : List Nat) (c : Bool), slot_chain works ll c q →
      ∀ i, i ∈ q → ∃ w, works[i]? = some w ∧ w.using_ = true := by
  intro q
  induction q with
  | nil => intro c _ i hi; simp at hi
  | cons j rest ih =>
    intro c h i hi
    obtain ⟨w, hw, _, hu, hrest⟩ := h
    rcases List.mem_cons.mp hi with e | hm
    · subst e; exact ⟨w, hw, hu⟩
    · exact ih _ hrest i hm

theorem slot_chain_claim {works : List gxp_set_acpm_state_work} (k : Nat)
    (hk : k < works.length) (s cs : Nat) (l ll : Bool) :
    ∀ (q : List Nat) (c : Bool), k ∉ q → slot_chain works ll c q →
      slot_chain (works.set k ⟨s, cs, l, ll, true⟩) l c (q ++ [k]) := by
  intro q
  induction q with
  | nil =>
    intro c _ h
    exact ⟨_, List.getElem?_set_self hk, h, rfl, rfl⟩
  | cons i rest ih =>
    intro c hnot h
    obtain ⟨w, hw, hp, hu, hrest⟩ := h
    have hik : k ≠ i := fun e => hnot (e ▸ List.mem_cons_self _ _)
    refine ⟨w, ?_, hp, hu, ih _ (fun hm => hnot (List.mem_cons_of_mem _ hm)) hrest⟩
    rw [List.getElem?_set_ne hik]
    exact hw

theorem getLast?_mem {α : Type} : ∀ (q : List α) (k : α), q.getLast? = some k → k ∈ q := by
  intro q
  induction q with
  | nil => intro k h; simp at h
  | cons a rest ih =>
    intro k h
    cases rest with
    | nil =>
      simp only [List.getLast?_singleton, Option.some.injEq] at h
      subst h
      exact List.mem_cons_self _ _
    | cons b rest' =>
      rw [List.getLast?_cons_cons] at h
      exact List.mem_cons_of_mem _ (ih k h)

theorem slot_chain_coalesce {works : List gxp_set_acpm_state_work} (k : Nat)
    (w : gxp_set_acpm_state_work) (hw : works[k]? = some w) (s : Nat) (l ll : Bool) :
    ∀ (q : List Nat) (c : Bool), q.Nodup → q.getLast? = some k → slot_chain works ll c q →
      slot_chain (works.set k { w with state := s, low_clkmux := l }) l c q := by
  have hklt : k < works.length := by
    obtain ⟨h, _⟩ := List.getElem?_eq_some.mp hw
    exact h
  intro q
  induction q with
  | nil => intro c _ h _; simp at h
  | cons i rest ih =>
    intro c hnd hlast h
    obtain ⟨w0, hw0, hp, hu, hrest⟩ := h
    cases rest with
    | nil =>
      simp only [List.getLast?_singleton, Option.some.injEq] at hlast
      subst hlast
      have hww : w0 = w := Option.some.inj (hw0.symm.trans hw)
      subst hww
      exact ⟨_, List.getElem?_set_self hklt, hp, hu, rfl⟩
    | cons j rest' =>
      rw [List.getLast?_cons_cons] at hlast
      have hmem : k ∈ j :: rest' := getLast?_mem _ _ hlast
      have hik : k ≠ i := by
        intro e
        subst e
        exact (List.nodup_cons.mp hnd).1 hmem
      refine ⟨w0, ?_, hp, hu, ih _ (List.nodup_cons.mp hnd).2 hlast hrest⟩
      rw [List.getElem?_set_ne hik]
      exact hw0

theorem exists_lowest_free (flags : List Bool) (hfree : ∃ j : Nat, flags[j]? = some false) :
    ∃ k : Nat, flags[k]? = some false ∧ ∀ j, j < k → flags.getD j true = true := by
  classical
  have hk := Nat.find_spec hfree
  refine ⟨Nat.find hfree, hk, ?_⟩
  intro j hj
  have hnot := Nat.find_min hfree hj
  have hjlt : j < flags.length := by
    obtain ⟨h, _⟩ := List.getElem?_eq_some.mp hk
    exact Nat.lt_trans hj h
  rw [List.getD_eq_getElem?_getD, List.getElem?_eq_getElem hjlt, Option.getD_some]
  rw [List.getElem?_eq_getElem hjlt] at hnot
  cases hb : flags[j] with
  | true => rfl
  | false => rw [hb] at hnot; exact absurd rfl hnot

theorem blk_on_power_mgr (soc : backend) (gxp : gxp_dev) (hup : (gxp_pm_blk_on soc gxp).1 = 0) :
    (gxp_pm_blk_on soc gxp).2.power_mgr =
      { gxp.power_mgr with
        curr_state := AUR_INIT_DVFS_STATE
        blk_switch_count := (gxp.power_mgr.blk_switch_count + 1) % U64_MOD
        busy_count := 0 } := by
  have hmgr := blkpwr_up_power_mgr soc gxp
  by_cases h0 : (gxp_pm_blkpwr_up soc gxp).1 ≠ 0
  · simp only [gxp_pm_blk_on, if_pos h0] at hup
    exact absurd hup h0
  · simp only [gxp_pm_blk_on, if_neg h0, gxp_pm_blk_set_state_acpm, gxp_pm_blk_set_rate_acpm,
      gxp_dev.set_mgr, gxp_dev.emit, gxp_pm_can_busy, hmgr]

theorem dispatch_invariant_request (g : gxp_dev) (q : List Nat) (s : Nat) (l : Bool)
    (hinv : dispatch_invariant g q) :
    dispatch_invariant (gxp_pm_req_state_locked g s l).2
      (q ++ queued_slots ((gxp_pm_req_state_locked g s l).2.trace.drop g.trace.length)) := by
  obtain ⟨hon, hlen, hnd, hchain, huse, hlast⟩ := hinv
  by_cases hd : g.power_mgr.curr_state ≠ AUR_OFF ∧ s ≠ AUR_OFF ∧ s ≤ AUR_MAX_ALLOW_STATE ∧
      (s ≠ g.power_mgr.curr_state ∨ l ≠ g.power_mgr.last_scheduled_low_clkmux)
  · obtain ⟨_, hs0, hs, hdiff⟩ := hd
    by_cases hfree : ∃ j : Nat, (g.power_mgr.set_acpm_state_work.map (·.using_))[j]? = some false
    · obtain ⟨k, hk, hbefore⟩ := exists_lowest_free _ hfree
      have heq := req_state_locked_claim g s l k hon hs0 hs hdiff hk hbefore
      obtain ⟨w0, hw0, hfree0⟩ : ∃ w0, g.power_mgr.set_acpm_state_work[k]? = some w0 ∧
          w0.using_ = false := by
        simpa using hk
      have hklt : k < g.power_mgr.set_acpm_state_work.length := by
        obtain ⟨h, _⟩ := List.getElem?_eq_some.mp hw0
        exact h
      have hkq : k ∉ q := by
        intro hm
        obtain ⟨w, hw, hu⟩ := slot_chain_mem _ q _ hchain k hm
        have hww : w0 = w := Option.some.inj (hw0.symm.trans hw)
        rw [hww, hu] at hfree0
        exact absurd hfree0 (by decide)
      rw [heq]
      simp only [List.drop_left, queued_slots]
      refine ⟨hs0, by simpa using hlen, ?_, slot_chain_claim k hklt _ _ _ _ q _ hkq hchain,
        ?_, ?_⟩
      · exact List.Nodup.append hnd (List.nodup_singleton k)
          (fun a ha hak => hkq ((List.mem_singleton.mp hak) ▸ ha))
      · intro j w hw hu
        by_cases hjk : j = k
        · subst hjk; simp
        · simp only [List.getElem?_set_ne (Ne.symm hjk)] at hw
          exact List.mem_append_left _ (huse j w hw hu)
      · intro k' hk'
        simpa using hk'.symm
    · have hfull : ∀ j, j < g.power_mgr.set_acpm_state_work.length →
          (g.power_mgr.set_acpm_state_work.map (·.using_)).getD j true = true := by
        intro j hj
        have hjl : j < (g.power_mgr.set_acpm_state_work.map (·.using_)).length := by
          simpa using hj
        rw [List.getD_eq_getElem?_getD, List.getElem?_eq_getElem hjl, Option.getD_some]
        cases hb : (g.power_mgr.set_acpm_state_work.map (·.using_))[j] with
        | true => rfl
        | false =>
          exact absurd ⟨j, by rw [List.getElem?_eq_getElem hjl, hb]⟩ hfree
      have h0mem : 0 ∈ q := by
        have h0 := hfull 0 hlen
        obtain ⟨w, hw⟩ : ∃ w, g.power_mgr.set_acpm_state_work[0]? = some w :=
          ⟨_, List.getElem?_eq_getElem hlen⟩
        refine huse 0 w hw ?_
        simpa [hw] using h0
      obtain ⟨k, hk⟩ : ∃ k, q.getLast? = some k := by
        cases hq : q.getLast? with
        | none =>
          rw [List.getLast?_eq_none_iff] at hq
          rw [hq] at h0mem
          simp at h0mem
        | some k => exact ⟨k, rfl⟩
      have hkl := hlast k hk
      obtain ⟨w, hw, _⟩ := slot_chain_mem _ q _ hchain k (getLast?_mem q k hk)
      rw [hkl] at hw hk
      have heq := req_state_locked_coalesce g s l w hon hs0 hs hdiff hfull hw
      rw [heq]
      simp only [List.drop_length, queued_slots, List.append_nil]
      refine ⟨hs0, by simpa using hlen, hnd,
        slot_chain_coalesce _ w hw s l _ q _ hnd hk hchain, ?_, hlast⟩
      intro j w' hw' hu'
      by_cases hjk : j = g.power_mgr.last_set_acpm_state_worker
      · rw [hjk]
        exact getLast?_mem q _ hk
      · simp only [List.getElem?_set_ne (Ne.symm hjk)] at hw'
        exact huse j w' hw' hu'
  · rw [req_state_locked_no_dispatch g s l hd]
    simp only [List.drop_length, queued_slots, List.append_nil]
    exact ⟨hon, hlen, hnd, hchain, huse, hlast⟩

theorem dispatch_invariant_work (soc : backend) (g : gxp_dev) (i : Nat) (q : List Nat)
    (hinv : dispatch_invariant g (i :: q)) :
    (g.power_mgr.set_acpm_state_work.get? i).map (·.prev_low_clkmux) =
        some g.power_mgr.curr_low_clkmux ∧
      dispatch_invariant (gxp_pm_blk_set_state_acpm_async soc g i) q := by
  obtain ⟨hon, hlen, hnd, hchain, huse, hlast⟩ := hinv
  obtain ⟨w, hw, hp, hu, hrest⟩ := hchain
  have hiq : i ∉ q := (List.nodup_cons.mp hnd).1
  refine ⟨by simp [hw, hp], ?_⟩
  rw [worker_on_eq soc g i w hw hon]
  refine ⟨hon, by simpa using hlen, (List.nodup_cons.mp hnd).2, ?_, ?_, ?_⟩
  · refine slot_chain_congr _ q _ ?_ hrest
    intro j hj
    have hji : i ≠ j := fun e => hiq (e ▸ hj)
    exact List.getElem?_set_ne hji
  · intro j w' hw' hu'
    by_cases hji : j = i
    · subst hji
      have hilt : j < g.power_mgr.set_acpm_state_work.length := by
        obtain ⟨h, _⟩ := List.getElem?_eq_some.mp hw
        exact h
      simp only [List.getElem?_set_self hilt, Option.some.injEq] at hw'
      rw [← hw'] at hu'
      simp at hu'
    · simp only [List.getElem?_set_ne (Ne.symm hji)] at hw'
      rcases List.mem_cons.mp (huse j w' hw' hu') with e | hm
      · exact absurd e hji
      · exact hm
  · intro k hk
    refine hlast k ?_
    cases q with
    | nil => simp at hk
    | cons j rest => rw [List.getLast?_cons_cons]; exact hk

theorem chain_holds_of_invariant (soc : backend) :
    ∀ (events : List dispatch_event) (g : gxp_dev) (q : List Nat),
      dispatch_invariant g q → chain_holds soc g q events = true := by
  intro events
  induction events with
  | nil => intro g q _; simp only [chain_holds]
  | cons e rest ih =>
    intro g q hinv
    cases e with
    | request s l =>
      simp only [chain_holds]
      exact ih _ _ (dispatch_invariant_request g q s l hinv)
    | work =>
      cases q with
      | nil =>
        simp only [chain_holds]
        exact ih _ _ hinv
      | cons i q' =>
        obtain ⟨hprev, hnext⟩ := dispatch_invariant_work soc g i q' hinv
        simp only [chain_holds, Bool.and_eq_true, decide_eq_true_eq]
        exact ⟨hprev, ih _ _ hnext⟩

theorem dispatch_invariant_init (soc : backend) (workers : Nat) (aur_status cmu : Bool)
    (hworkers : 0 < workers)
    (hup : (gxp_pm_blk_on soc ⟨gxp_pm_init workers aur_status, cmu, []⟩).1 = 0) :
    dispatch_invariant (gxp_pm_blk_on soc ⟨gxp_pm_init workers aur_status, cmu, []⟩).2 [] := by
  have hmgr := blk_on_power_mgr soc _ hup
  refine ⟨?_, ?_, List.nodup_nil, ?_, ?_, ?_⟩
  · rw [hmgr]
    show AUR_INIT_DVFS_STATE ≠ AUR_OFF
    decide
  · rw [hmgr]; simpa [gxp_pm_init] using hworkers
  · rw [hmgr]; rfl
  · intro j w hw hu
    rw [hmgr] at hw
    simp only [gxp_pm_init, List.getElem?_replicate] at hw
    split_ifs at hw
    simp only [Option.some.injEq] at hw
    rw [← hw] at hu
    exact absurd hu (by decide)
  · intro k hk
    simp at hk

theorem req_state_locked_no_slots (g : gxp_dev) (s : Nat) (l : Bool)
    (hnone : g.power_mgr.set_acpm_state_work = []) :
    (gxp_pm_req_state_locked g s l).2.power_mgr.set_acpm_state_work = [] ∧
    (gxp_pm_req_state_locked g s l).2.trace = g.trace := by
  simp only [gxp_pm_req_state_locked, hnone, List.map_nil, find_available_worker,
    List.length_nil, if_true, array_update, List.get?_eq_getElem?, List.getElem?_nil,
    Option.any_none, Bool.false_eq_true, if_false, gxp_dev.set_mgr]
  split_ifs <;> exact ⟨by first | rfl | exact hnone, rfl⟩

theorem chain_holds_no_slots (soc : backend) :
    ∀ (events : List dispatch_event) (g : gxp_dev), g.power_mgr.set_acpm_state_work = [] →
      chain_holds soc g [] events = true := by
  intro events
  induction events with
  | nil => intro g _; simp only [chain_holds]
  | cons e rest ih =>
    intro g hnone
    cases e with
    | request s l =>
      obtain ⟨hw, ht⟩ := req_state_locked_no_slots g s l hnone
      simp only [chain_holds, ht, List.drop_length, queued_slots, List.append_nil]
      exact ih _ hw
    | work =>
      simp only [chain_holds]
      exact ih _ hnone

/-- C26. The dispatch chain: in every execution that starts from the state left by
`gxp_pm_init` followed by one successful power-up and then consists only of dispatch requests
and worker executions, the workers running in the order in which their slots were queued, the
slot's `prev_low_clkmux` equals the manager's `curr_low_clkmux` at the start of every worker
execution, also for a slot whose target was overwritten by coalescing. -/
theorem dispatch_chain_invariant (soc_up soc : backend) (workers : Nat) (aur_status cmu : Bool)
    (events : List dispatch_event)
    (hup : (gxp_pm_blk_on soc_up ⟨gxp_pm_init workers aur_status, cmu, []⟩).1 = 0) :
    chain_holds soc (gxp_pm_blk_on soc_up ⟨gxp_pm_init workers aur_status, cmu, []⟩).2 []
      events = true := by
  by_cases hworkers : 0 < workers
  · exact chain_holds_of_invariant soc events _ _
      (dispatch_invariant_init soc_up workers aur_status cmu hworkers hup)
  · refine chain_holds_no_slots soc events _ ?_
    rw [blk_on_power_mgr soc_up _ hup]
    have h0 : workers = 0 := by omega
    simp [gxp_pm_init, h0]

/-- A witness of C26: with a pool of two slots, the execution `chain_events_example` (which
fills the pool, coalesces a request into the newest slot and runs three workers), started
after a successful power-up, keeps the chain at every worker start. -/
theorem dispatch_chain_invariant_witness :
    (gxp_pm_blk_on backend_ok ⟨gxp_pm_init 2 true, true, []⟩).1 = 0 ∧
    chain_holds backend_ok (gxp_pm_blk_on backend_ok ⟨gxp_pm_init 2 true, true, []⟩).2 []
      chain_events_example = true :=
  ⟨by decide,
   dispatch_chain_invariant backend_ok backend_ok 2 true true chain_events_example
     (by decide)⟩

end GxpPm

namespace Hdcp

/-! ## HDCP authentication state: properties -/

theorem enable_enc_13_state (t : tee) (d : hdcp_dev) :
    (hdcp_tee_enable_enc_13 t d).2.hdcp_auth_state = d.hdcp_auth_state := by
  simp only [hdcp_tee_enable_enc_13, hdcp_dev.emit]
  split_ifs <;> rfl

theorem enable_enc_22_state (t : tee) (d : hdcp_dev) :
    (hdcp_tee_enable_enc_22 t d).2.hdcp_auth_state = d.hdcp_auth_state := by
  simp only [hdcp_tee_enable_enc_22, hdcp_dev.emit]
  split_ifs <;> rfl

theorem disable_enc_state (t : tee) (d : hdcp_dev) :
    (hdcp_tee_disable_enc t d).2.hdcp_auth_state = d.hdcp_auth_state := by
  simp only [hdcp_tee_disable_enc, hdcp_dev.emit]
  split_ifs <;> rfl

theorem transition_auth_state_state (t : tee) (d : hdcp_dev) (new_state : Nat) :
    (hdcp_transition_auth_state t d new_state).hdcp_auth_state = new_state := by
  simp only [hdcp_transition_auth_state]
  by_cases h : d.hdcp_auth_state = new_state
  · rw [if_pos h]; exact h
  · rw [if_neg h]
    split_ifs <;>
      simp only [disable_enc_state, enable_enc_22_state, enable_enc_13_state]

theorem set_auth_state_ret_core (t : tee) (d : hdcp_dev) (state : Nat) :
    (hdcp_set_auth_state t d state).1 =
      (hdcp_set_auth_state tee_ok ⟨d.hdcp_auth_state, false, []⟩ state).1 := by
  simp only [hdcp_set_auth_state]
  split_ifs <;> rfl

theorem set_auth_state_ret_table :
    ∀ cur, cur ∈ auth_states → ∀ req, req ∈ auth_states →
      (((hdcp_set_auth_state tee_ok ⟨cur, false, []⟩ req).1 = 0 ↔ spec_accepts cur req) ∧
       ((hdcp_set_auth_state tee_ok ⟨cur, false, []⟩ req).1 = 0 ∨
        (hdcp_set_auth_state tee_ok ⟨cur, false, []⟩ req).1 = -1)) := by
  decide

/-- C28. For every current state and every requested state among the nine single-flag
enumerators, `hdcp_set_auth_state` returns 0 if and only if the request is `HDCP_AUTH_ABORT`
or `HDCP_AUTH_SHUTDOWN` or lies in the allowed-successor set of the current state, and
returns -1 otherwise; when it returns -1 the authentication state, the encryption flag and
the calls made are unchanged, and when it returns 0 the state equals the request. -/
theorem set_auth_state_accepts (t : tee) (d : hdcp_dev) (state : Nat)
    (hcur : d.hdcp_auth_state ∈ auth_states) (hreq : state ∈ auth_states) :
    ((hdcp_set_auth_state t d state).1 = 0 ↔ spec_accepts d.hdcp_auth_state state) ∧
    ((hdcp_set_auth_state t d state).1 = 0 ∨ (hdcp_set_auth_state t d state).1 = -1) ∧
    ((hdcp_set_auth_state t d state).1 = -1 → (hdcp_set_auth_state t d state).2 = d) ∧
    ((hdcp_set_auth_state t d state).1 = 0 →
      (hdcp_set_auth_state t d state).2.hdcp_auth_state = state) := by
  have htab := set_auth_state_ret_table d.hdcp_auth_state hcur state hreq
  rw [← set_auth_state_ret_core t d state] at htab
  refine ⟨htab.1, htab.2, ?_, ?_⟩
  · simp only [hdcp_set_auth_state]
    split_ifs
    · intro h; exact h.elim
    · intro _; rfl
    · intro h; exact h.elim
  · simp only [hdcp_set_auth_state]
    split_ifs
    · intro _; exact transition_auth_state_state _ _ _
    · intro h; exact absurd (show (-1 : Int) = 0 from h) (by decide)
    · intro _; exact transition_auth_state_state _ _ _

/-- A witness of C28: from the initial state (`HDCP_AUTH_RESET`) the request
`HDCP1_AUTH_DONE` is not an allowed successor, so the call returns -1 and changes nothing. -/
theorem set_auth_state_accepts_witness :
    ¬ spec_accepts HDCP_AUTH_RESET HDCP1_AUTH_DONE ∧
    (hdcp_set_auth_state tee_ok hdcp_init HDCP1_AUTH_DONE).1 = -1 ∧
    (hdcp_set_auth_state tee_ok hdcp_init HDCP1_AUTH_DONE).2 = hdcp_init :=
  ⟨by decide, by decide,
   (set_auth_state_accepts tee_ok hdcp_init HDCP1_AUTH_DONE (by decide) (by decide)).2.2.1
     (by decide)⟩

theorem tee_eq_tee_ok (t : tee) (ht : ∀ v, t.hdcp_tee_set_protection v = 0) : t = tee_ok := by
  cases t with
  | mk f =>
    have hf : f = fun _ => 0 := funext ht
    rw [hf]
    rfl

theorem enable_enc_13_ok (d : hdcp_dev) :
    (hdcp_tee_enable_enc_13 tee_ok d).2.enc_enabled = true := by
  simp only [hdcp_tee_enable_enc_13, hdcp_dev.emit, tee_ok]
  by_cases h : d.enc_enabled = true
  · rw [if_pos h]; exact h
  · rw [if_neg h]; rfl

theorem enable_enc_22_ok (d : hdcp_dev) :
    (hdcp_tee_enable_enc_22 tee_ok d).2.enc_enabled = true := by
  simp only [hdcp_tee_enable_enc_22, hdcp_dev.emit, tee_ok]
  by_cases h : d.enc_enabled = true
  · rw [if_pos h]; exact h
  · rw [if_neg h]; rfl

theorem disable_enc_ok (d : hdcp_dev) :
    (hdcp_tee_disable_enc tee_ok d).2.enc_enabled = false := by
  simp only [hdcp_tee_disable_enc, hdcp_dev.emit, tee_ok]
  cases h : d.enc_enabled
  · simp [h]
  · simp

theorem transition_auth_state_enc (d : hdcp_dev) (new_state : Nat) :
    (hdcp_transition_auth_state tee_ok d new_state).enc_enabled =
      if d.hdcp_auth_state = new_state then d.enc_enabled
      else if new_state &&& (HDCP_AUTH_IDLE ||| HDCP_AUTH_ABORT ||| HDCP_AUTH_SHUTDOWN) ≠ 0 then
        false
      else if new_state &&& HDCP2_AUTH_DONE ≠ 0 then true
      else if new_state &&& HDCP1_AUTH_DONE ≠ 0 then true
      else d.enc_enabled := by
  simp only [hdcp_transition_auth_state]
  by_cases h0 : d.hdcp_auth_state = new_state
  · simp only [if_pos h0]
  · simp only [if_neg h0]
    by_cases h3 :
        new_state &&& (HDCP_AUTH_IDLE ||| HDCP_AUTH_ABORT ||| HDCP_AUTH_SHUTDOWN) ≠ 0
    · simp only [if_pos h3, disable_enc_ok]
    · simp only [if_neg h3]
      by_cases h2 : new_state &&& HDCP2_AUTH_DONE ≠ 0
      · simp only [if_pos h2, enable_enc_22_ok]
      · simp only [if_neg h2]
        by_cases h1 : new_state &&& HDCP1_AUTH_DONE ≠ 0
        · simp only [if_pos h1, enable_enc_13_ok]
        · simp only [if_neg h1]

theorem transition_auth_state_core (cur : Nat) (enc : Bool) (tr : List hdcp_op)
    (new_state : Nat) :
    (hdcp_transition_auth_state tee_ok ⟨cur, enc, tr⟩ new_state).hdcp_auth_state =
      (hdcp_transition_auth_state tee_ok ⟨cur, enc, []⟩ new_state).hdcp_auth_state ∧
    (hdcp_transition_auth_state tee_ok ⟨cur, enc, tr⟩ new_state).enc_enabled =
      (hdcp_transition_auth_state tee_ok ⟨cur, enc, []⟩ new_state).enc_enabled := by
  refine ⟨by rw [transition_auth_state_state, transition_auth_state_state], ?_⟩
  rw [transition_auth_state_enc, transition_auth_state_enc]

theorem set_auth_state_core (t : tee) (ht : ∀ v, t.hdcp_tee_set_protection v = 0)
    (d : hdcp_dev) (state : Nat) :
    (hdcp_set_auth_state t d state).2.hdcp_auth_state =
      (hdcp_set_auth_state tee_ok ⟨d.hdcp_auth_state, d.enc_enabled, []⟩
        state).2.hdcp_auth_state ∧
    (hdcp_set_auth_state t d state).2.enc_enabled =
      (hdcp_set_auth_state tee_ok ⟨d.hdcp_auth_state, d.enc_enabled, []⟩
        state).2.enc_enabled := by
  rw [tee_eq_tee_ok t ht]
  obtain ⟨cur, enc, tr⟩ := d
  simp only [hdcp_set_auth_state]
  split_ifs
  · exact transition_auth_state_core cur enc tr state
  · exact ⟨rfl, rfl⟩
  · exact transition_auth_state_core cur enc tr state

theorem enc_invariant_congr {d d' : hdcp_dev} (hs : d.hdcp_auth_state = d'.hdcp_auth_state)
    (he : d.enc_enabled = d'.enc_enabled) : enc_invariant d ↔ enc_invariant d' := by
  simp only [enc_invariant, hs, he]

theorem set_auth_state_step_table :
    ∀ cur, cur ∈ auth_states → ∀ enc : Bool, ∀ req, req ∈ auth_states →
      enc_invariant ⟨cur, enc, []⟩ →
      (enc_invariant (hdcp_set_auth_state tee_ok ⟨cur, enc, []⟩ req).2 ∧
       (hdcp_set_auth_state tee_ok ⟨cur, enc, []⟩ req).2.hdcp_auth_state ∈ auth_states ∧
       ((hdcp_set_auth_state tee_ok ⟨cur, enc, []⟩ req).2.hdcp_auth_state = HDCP1_AUTH_DONE →
         cur = HDCP1_AUTH_DONE ∨ cur = HDCP1_AUTH_PROGRESS) ∧
       ((hdcp_set_auth_state tee_ok ⟨cur, enc, []⟩ req).2.hdcp_auth_state = HDCP2_AUTH_DONE →
         cur = HDCP2_AUTH_DONE ∨ cur = HDCP2_AUTH_PROGRESS)) := by
  decide

theorem set_auth_state_step (t : tee) (ht : ∀ v, t.hdcp_tee_set_protection v = 0)
    (d : hdcp_dev) (state : Nat) (hcur : d.hdcp_auth_state ∈ auth_states)
    (hinv : enc_invariant d) (hreq : state ∈ auth_states) :
    enc_invariant (hdcp_set_auth_state t d state).2 ∧
    (hdcp_set_auth_state t d state).2.hdcp_auth_state ∈ auth_states ∧
    ((hdcp_set_auth_state t d state).2.hdcp_auth_state = HDCP1_AUTH_DONE →
      d.hdcp_auth_state = HDCP1_AUTH_DONE ∨ d.hdcp_auth_state = HDCP1_AUTH_PROGRESS) ∧
    ((hdcp_set_auth_state t d state).2.hdcp_auth_state = HDCP2_AUTH_DONE →
      d.hdcp_auth_state = HDCP2_AUTH_DONE ∨ d.hdcp_auth_state = HDCP2_AUTH_PROGRESS) := by
  obtain ⟨hs, he⟩ := set_auth_state_core t ht d state
  have htab := set_auth_state_step_table d.hdcp_auth_state hcur d.enc_enabled state hreq
    ((enc_invariant_congr rfl rfl).mp hinv)
  rw [← hs] at htab
  exact ⟨(enc_invariant_congr hs he).mpr htab.1, htab.2⟩

theorem run_set_auth_state_invariant (t : tee) (ht : ∀ v, t.hdcp_tee_set_protection v = 0) :
    ∀ (states : List Nat) (d : hdcp_dev), d.hdcp_auth_state ∈ auth_states → enc_invariant d →
      (∀ s, s ∈ states → s ∈ auth_states) →
      (run_set_auth_state t d states).hdcp_auth_state ∈ auth_states ∧
        enc_invariant (run_set_auth_state t d states) := by
  intro states
  induction states with
  | nil => intro d hcur hinv _; exact ⟨hcur, hinv⟩
  | cons s rest ih =>
    intro d hcur hinv hall
    have hstep := set_auth_state_step t ht d s hcur hinv (hall s (List.mem_cons_self _ _))
    exact ih _ hstep.2.1 hstep.1 (fun x hx => hall x (List.mem_cons_of_mem _ hx))

/-- C29. The encryption invariant: in every state reached from the initial state
(`HDCP_AUTH_RESET`, encryption disabled) by `hdcp_set_auth_state` calls whose arguments are
single-flag enumerators, the TEE set-protection calls succeeding, `enc_enabled` is false
whenever the state is RESET, IDLE, HDCP1 PROGRESS, ABORT or SHUTDOWN and true whenever the
state is HDCP1 DONE or HDCP2 DONE; and a further call enters a DONE state only from the
matching PROGRESS state. -/
theorem enc_enabled_invariant (t : tee) (ht : ∀ v, t.hdcp_tee_set_protection v = 0)
    (states : List Nat) (hstates : ∀ s, s ∈ states → s ∈ auth_states) :
    ((run_set_auth_state t hdcp_init states).hdcp_auth_state ∈
        [HDCP_AUTH_RESET, HDCP_AUTH_IDLE, HDCP1_AUTH_PROGRESS, HDCP_AUTH_ABORT,
          HDCP_AUTH_SHUTDOWN] →
      (run_set_auth_state t hdcp_init states).enc_enabled = false) ∧
    ((run_set_auth_state t hdcp_init states).hdcp_auth_state ∈
        [HDCP1_AUTH_DONE, HDCP2_AUTH_DONE] →
      (run_set_auth_state t hdcp_init states).enc_enabled = true) ∧
    ∀ state, state ∈ auth_states →
      ((hdcp_set_auth_state t (run_set_auth_state t hdcp_init states) state).2.hdcp_auth_state =
          HDCP1_AUTH_DONE →
        (run_set_auth_state t hdcp_init states).hdcp_auth_state = HDCP1_AUTH_DONE ∨
        (run_set_auth_state t hdcp_init states).hdcp_auth_state = HDCP1_AUTH_PROGRESS) ∧
      ((hdcp_set_auth_state t (run_set_auth_state t hdcp_init states) state).2.hdcp_auth_state =
          HDCP2_AUTH_DONE →
        (run_set_auth_state t hdcp_init states).hdcp_auth_state = HDCP2_AUTH_DONE ∨
        (run_set_auth_state t hdcp_init states).hdcp_auth_state = HDCP2_AUTH_PROGRESS) := by
  obtain ⟨hcur, hinv⟩ := run_set_auth_state_invariant t ht states hdcp_init (by decide)
    (by decide) hstates
  refine ⟨hinv.1, hinv.2, ?_⟩
  intro state hreq
  exact (set_auth_state_step t ht _ state hcur hinv hreq).2.2

/-- A witness of C29: after the requests HDCP2 PROGRESS, HDCP2 DONE, RP, HDCP2 PROGRESS,
HDCP2 DONE the state is HDCP2 DONE with encryption enabled; after a further ABORT the
encryption is disabled. -/
theorem enc_enabled_invariant_witness :
    (run_set_auth_state tee_ok hdcp_init
      [HDCP2_AUTH_PROGRESS, HDCP2_AUTH_DONE, HDCP2_AUTH_RP, HDCP2_AUTH_PROGRESS,
        HDCP2_AUTH_DONE]).hdcp_auth_state = HDCP2_AUTH_DONE ∧
    (run_set_auth_state tee_ok hdcp_init
      [HDCP2_AUTH_PROGRESS, HDCP2_AUTH_DONE, HDCP2_AUTH_RP, HDCP2_AUTH_PROGRESS,
        HDCP2_AUTH_DONE]).enc_enabled = true ∧
    (run_set_auth_state tee_ok hdcp_init
      [HDCP2_AUTH_PROGRESS, HDCP2_AUTH_DONE, HDCP_AUTH_ABORT]).enc_enabled = false :=
  ⟨by decide,
   (enc_enabled_invariant tee_ok (fun _ => rfl)
      [HDCP2_AUTH_PROGRESS, HDCP2_AUTH_DONE, HDCP2_AUTH_RP, HDCP2_AUTH_PROGRESS,
        HDCP2_AUTH_DONE] (by decide)).2.1 (by decide),
   (enc_enabled_invariant tee_ok (fun _ => rfl)
      [HDCP2_AUTH_PROGRESS, HDCP2_AUTH_DONE, HDCP_AUTH_ABORT] (by decide)).1 (by decide)⟩

end Hdcp

namespace GcipImageConfig

/-! ## Image configuration parser: rollback of the mappings -/

theorem setup_iommu_mappings_err_trace (m : image_config_macros) (config : gcip_image_config) :
    ∀ (i : Nat) (trace : List iommu_op), i ≤ config.iommu_mappings.length →
      setup_iommu_mappings_err m config i trace =
        trace ++ (((config.iommu_mappings.take i).reverse.filter fun e =>
          !skip_secure_mapping m config
            (e.virt_address &&& m.GCIP_IMG_CFG_MAP_FLAGS_MASK)).map (rollback_unmap m)) := by
  intro i
  induction i with
  | zero => intro trace _; simp [setup_iommu_mappings_err]
  | succ i ih =>
    intro trace hi
    have hlt : i < config.iommu_mappings.length := hi
    simp only [setup_iommu_mappings_err, List.get?_eq_getElem?, List.getElem?_eq_getElem hlt]
    rw [List.take_succ, List.getElem?_eq_getElem hlt]
    simp only [Option.toList_some, List.reverse_append, List.reverse_singleton,
      List.singleton_append, List.filter_cons]
    by_cases hskip : skip_secure_mapping m config
        (config.iommu_mappings[i].virt_address &&& m.GCIP_IMG_CFG_MAP_FLAGS_MASK) = true
    · simp [hskip, ih trace (Nat.le_of_lt hlt)]
    · simp [hskip, ih _ (Nat.le_of_lt hlt), rollback_unmap]

/-- C30, evaluated on `config_36bit_then_zero`: entry 0 carries the 36-bit flag and is
mapped at the shifted device address `0x10000`; entry 1 fails with `-EIO`; the rollback then
calls unmap for entry 0 with the unshifted address `0x1000`, not the address passed to map,
whereas `clear_iommu_mappings` unmaps the same entry at `0x10000`. -/
theorem setup_iommu_mappings_rollback_36bit :
    virt_address_to_dma macros_example 4104 = 65536 ∧
    setup_iommu_mappings macros_example ops_ok config_36bit_then_zero [] =
      (- EIO, [iommu_op.map 65536 2147483648 4096 8 1, iommu_op.unmap 4096 4096 8 1]) ∧
    setup_iommu_mappings macros_example ops_ok config_36bit [] =
      (0, [iommu_op.map 65536 2147483648 4096 8 1]) ∧
    clear_iommu_mappings macros_example config_36bit [] = [iommu_op.unmap 65536 4096 8 1] := by
  decide

end GcipImageConfig
